import Mathlib

/-!
Verification development for the RoboOps mission-control simulator.

Part 1 embeds the session broker of `apps/sim/src/generate.ts`
(sequence counter, history buffer, publish/broadcast, direct replies,
resume protocol).  Part 2 embeds the fleet simulation engine
(`fleet.ts`: robots, missions, routes, per-tick pipeline, anomaly
injection).  JavaScript numbers are modelled as exact rationals;
`Math.random`, `Math.hypot`, `Math.atan2` and `Math.PI` are supplied by
an explicit environment so that every theorem quantifies over the
possible outcomes of the implicit randomness and of the two
transcendental helpers.
-/

namespace RoboOps

/-! ### Broker data model

An outbound message is `{type, streamSeq, serverTs, payload}`.  The
payload contents are irrelevant to sequencing, history and resume, so
the five payload shapes are kept abstract except for the heartbeat
fields the resume protocol inspects (`reason`, `replyToClientTs`). -/

inductive MsgBody where
  | snapshot
  | telemetry
  | event
  | incident
  | heartbeat (reason : Option String) (replyToClientTs : Option ℚ)
deriving DecidableEq, Repr

structure BrokerMsg where
  streamSeq : ℕ
  serverTs : ℚ
  body : MsgBody
deriving DecidableEq, Repr

structure BrokerState where
  streamSequence : ℕ
  messageHistory : List BrokerMsg
deriving DecidableEq, Repr

/-- `let streamSequence = 0` and `const messageHistory = []` at module load. -/
def initialBrokerState : BrokerState := ⟨0, []⟩

/-- `const currentStreamSeq = (): number => streamSequence`. -/
def currentStreamSeq (s : BrokerState) : ℕ := s.streamSequence

/-- `const nextStreamSeq = (): number => { streamSequence += 1; return streamSequence }`. -/
def nextStreamSeq (s : BrokerState) : ℕ × BrokerState :=
  (s.streamSequence + 1, { s with streamSequence := s.streamSequence + 1 })

/-- `pushHistory`: append, then `splice(0, length - STREAM_HISTORY_MAX)`
when over capacity (dropping the oldest entries). -/
def pushHistory (maxHistory : ℕ) (s : BrokerState) (m : BrokerMsg) : BrokerState :=
  let h := s.messageHistory ++ [m]
  { s with messageHistory := if maxHistory < h.length then h.drop (h.length - maxHistory) else h }

/-- The common shape of `buildSnapshotMessage`, `buildTelemetryMessage`,
`buildEventMessage`, `buildIncidentMessage`, `buildHeartbeatMessage`:
a fresh `nextStreamSeq()` plus `serverTs = Date.now()`. -/
def buildMessage (s : BrokerState) (now : ℚ) (b : MsgBody) : BrokerMsg × BrokerState :=
  let (seq, s') := nextStreamSeq s
  (⟨seq, now, b⟩, s')

/-- The common shape of `buildDirectSnapshotMessage` and
`buildDirectHeartbeatMessage`: `currentStreamSeq()` without increment. -/
def buildDirectMessage (s : BrokerState) (now : ℚ) (b : MsgBody) : BrokerMsg :=
  ⟨currentStreamSeq s, now, b⟩

/-- `publish = pushHistory + broadcast`; the broadcast itself is I/O and
is recorded in the step relation below. -/
def publish (maxHistory : ℕ) (s : BrokerState) (m : BrokerMsg) : BrokerState :=
  pushHistory maxHistory s m

/-- How an outbound message left the broker: as a broadcast of a freshly
sequenced fact (`publish` path), as a point-to-point reply built with
`currentStreamSeq` (`buildDirect*` path), or as a retained history fact
re-sent while serving a resume. -/
inductive SentKind where
  | published
  | directReply
  | replayed
deriving DecidableEq, Repr

structure SentRecord where
  msg : BrokerMsg
  kind : SentKind
deriving DecidableEq, Repr

/-- `replayFrom(socket, lastStreamSeq)` of `generate.ts`, returning the
list of messages written to the socket, in order. -/
def replayFrom (s : BrokerState) (now : ℚ) (lastStreamSeq : ℕ) : List SentRecord :=
  if s.messageHistory.isEmpty then
    [⟨buildDirectMessage s now .snapshot, .directReply⟩,
     ⟨buildDirectMessage s now (.heartbeat (some "resume-empty-history") none), .directReply⟩]
  else
    let oldestSeq := (s.messageHistory.headD ⟨0, 0, .snapshot⟩).streamSeq
    let newestSeq := (s.messageHistory.getLastD ⟨0, 0, .snapshot⟩).streamSeq
    if (lastStreamSeq : ℤ) < (oldestSeq : ℤ) - 1 ∨ newestSeq < lastStreamSeq then
      [⟨buildDirectMessage s now .snapshot, .directReply⟩,
       ⟨buildDirectMessage s now (.heartbeat (some "resume-out-of-range") none), .directReply⟩]
    else
      let replayedMsgs := s.messageHistory.filter (fun m => lastStreamSeq < m.streamSeq)
      if replayedMsgs.isEmpty then
        [⟨buildDirectMessage s now (.heartbeat (some "resume-no-gap") none), .directReply⟩]
      else
        replayedMsgs.map (fun m => ⟨m, .replayed⟩)

/-- The broker-facing operations: a `publish` of a stamped fact (tick
snapshot/telemetry/event/incident or timer heartbeat), a new connection,
an inbound ping, an inbound resume, and an inbound `set_mode` whose
engine-side outcome (`switchFleetMode`'s boolean) is `switched`. -/
inductive BrokerOp where
  | publishFact (b : MsgBody)
  | connect
  | ping (clientTs : Option ℚ)
  | resume (lastStreamSeq : ℕ)
  | setMode (switched : Bool)
deriving DecidableEq, Repr

/-- One synchronous handler activation, returning the new broker state
and every outbound message it produced, in order. -/
def brokerStep (maxHistory : ℕ) (s : BrokerState) (now : ℚ) :
    BrokerOp → BrokerState × List SentRecord
  | .publishFact b =>
    let (m, s') := buildMessage s now b
    (publish maxHistory s' m, [⟨m, .published⟩])
  | .connect =>
    (s, [⟨buildDirectMessage s now .snapshot, .directReply⟩,
         ⟨buildDirectMessage s now (.heartbeat (some "connected") none), .directReply⟩])
  | .ping clientTs =>
    (s, [⟨buildDirectMessage s now (.heartbeat (some "ping") clientTs), .directReply⟩])
  | .resume lastStreamSeq => (s, replayFrom s now lastStreamSeq)
  | .setMode switched =>
    if switched then
      let (e, s1) := buildMessage s now .event
      let s2 := publish maxHistory s1 e
      let (sn, s3) := buildMessage s2 now .snapshot
      (publish maxHistory s3 sn, [⟨e, .published⟩, ⟨sn, .published⟩])
    else (s, [])

/-- Run a sequence of handler activations, each at its own `Date.now()`. -/
def runBroker (maxHistory : ℕ) : BrokerState → List (BrokerOp × ℚ) → BrokerState × List SentRecord
  | s, [] => (s, [])
  | s, (op, now) :: rest =>
    let (s', sent) := brokerStep maxHistory s now op
    let (s'', sentRest) := runBroker maxHistory s' rest
    (s'', sent ++ sentRest)

/-- The freshly sequenced facts among a run's outbound messages. -/
def publishedMsgs (sent : List SentRecord) : List BrokerMsg :=
  (sent.filter (fun r => r.kind = .published)).map SentRecord.msg

/-! ### Fleet engine data model (`fleet.ts`)

Identifiers: the source formats `RBT-xxx` / `MSN-xxxxx` / `EVT-xxxxxx` /
`INC-xxxxxx` strings by zero-padding a monotone counter; the formatting
is injective, so ids are modelled by the counter value itself. -/

inductive RobotStatus where
  | IDLE
  | ON_MISSION
  | NEED_ASSIST
  | FAULT
  | OFFLINE
deriving DecidableEq, Repr

inductive MissionStatus where
  | PENDING
  | ACTIVE
  | PAUSED
  | COMPLETED
  | FAILED
  | CANCELLED
deriving DecidableEq, Repr

inductive OpsMode where
  | DELIVERY
  | WAREHOUSE
deriving DecidableEq, Repr

inductive MissionType where
  | DELIVERY
  | MOVE
  | BRING
  | PICK
deriving DecidableEq, Repr

inductive SensorHealth where
  | OK
  | WARN
  | FAIL
deriving DecidableEq, Repr

inductive SensorKey where
  | lidar
  | cam
  | gps
  | imu
deriving DecidableEq, Repr

inductive WarehouseZoneId where
  | INBOUND
  | HIGH_BAY
  | PACKING
  | OUTBOUND
deriving DecidableEq, Repr

inductive AnomalyKey where
  | localization
  | sensorFail
  | stuck
  | offline
  | geofence
deriving DecidableEq, Repr

inductive EventLevel where
  | INFO
  | WARN
  | ERROR
deriving DecidableEq, Repr

inductive IncidentType where
  | LOCALIZATION_DROPOUT
  | SENSOR_FAIL
  | STUCK
  | GEOFENCE_VIOLATION
  | OBSTACLE_BLOCKED
deriving DecidableEq, Repr

inductive Severity where
  | LOW
  | MEDIUM
  | HIGH
  | CRITICAL
deriving DecidableEq, Repr

def STATUS_ORDER : List RobotStatus :=
  [.IDLE, .ON_MISSION, .NEED_ASSIST, .FAULT, .OFFLINE]

def SENSOR_KEYS : List SensorKey := [.lidar, .cam, .gps, .imu]

def WAREHOUSE_MISSION_TYPES : List MissionType := [.MOVE, .BRING, .PICK]

structure Waypoint where
  x : ℚ
  y : ℚ
deriving DecidableEq, Repr

structure Pose where
  x : ℚ
  y : ℚ
  heading : ℚ
deriving DecidableEq, Repr

structure Sensors where
  lidar : SensorHealth
  cam : SensorHealth
  gps : SensorHealth
  imu : SensorHealth
deriving DecidableEq, Repr

def Sensors.get (s : Sensors) : SensorKey → SensorHealth
  | .lidar => s.lidar
  | .cam => s.cam
  | .gps => s.gps
  | .imu => s.imu

def Sensors.set (s : Sensors) : SensorKey → SensorHealth → Sensors
  | .lidar, v => { s with lidar := v }
  | .cam, v => { s with cam := v }
  | .gps, v => { s with gps := v }
  | .imu, v => { s with imu := v }

/-- One cooldown-until timestamp per anomaly kind. -/
structure Cooldowns where
  localization : ℚ
  sensorFail : ℚ
  stuck : ℚ
  offline : ℚ
  geofence : ℚ
deriving DecidableEq, Repr

def Cooldowns.get (c : Cooldowns) : AnomalyKey → ℚ
  | .localization => c.localization
  | .sensorFail => c.sensorFail
  | .stuck => c.stuck
  | .offline => c.offline
  | .geofence => c.geofence

def Cooldowns.set (c : Cooldowns) : AnomalyKey → ℚ → Cooldowns
  | .localization, v => { c with localization := v }
  | .sensorFail, v => { c with sensorFail := v }
  | .stuck, v => { c with stuck := v }
  | .offline, v => { c with offline := v }
  | .geofence, v => { c with geofence := v }

structure Mission where
  missionId : ℕ
  robotId : ℕ
  mode : OpsMode
  missionType : MissionType
  fromZoneId : Option WarehouseZoneId
  toZoneId : Option WarehouseZoneId
  status : MissionStatus
  progress : ℚ
  waypoints : List Waypoint
  target : Waypoint
  currentWaypointIndex : ℕ
  currentLegStart : Waypoint
  createdAtTs : ℚ
  updatedAtTs : ℚ
deriving DecidableEq, Repr

structure Robot where
  robotId : ℕ
  status : RobotStatus
  battery : ℚ
  temp : ℚ
  speed : ℚ
  localizationConfidence : ℚ
  lastHeartbeatTs : ℚ
  missionId : Option ℕ
  faults24h : ℕ
  pose : Pose
  sensors : Sensors
  stuckUntilTs : Option ℚ
  offlineUntilTs : Option ℚ
  anomalyCooldownUntilTs : Cooldowns
deriving DecidableEq, Repr

structure Fleet where
  mode : OpsMode
  robots : List Robot
  missions : List (ℕ × Mission)
  tick : ℕ
  updatedAtTs : ℚ
  modeChangedAtTs : ℚ
  nextMissionSeq : ℕ
  nextIncidentSeq : ℕ
  nextEventSeq : ℕ
deriving DecidableEq, Repr

structure OpsEvent where
  ts : ℚ
  robotId : ℕ
  missionId : Option ℕ
  level : EventLevel
  eventType : String
  message : String
  metaEventId : ℕ
  metaMode : OpsMode
deriving DecidableEq, Repr

structure OpsIncident where
  ts : ℚ
  incidentId : ℕ
  robotId : ℕ
  missionId : Option ℕ
  incidentType : IncidentType
  severity : Severity
  message : String
  resolved : Bool
  metaEventId : ℕ
  metaMode : OpsMode
  linkedEventType : String
deriving DecidableEq, Repr

structure FleetTickResult where
  events : List OpsEvent
  incidents : List OpsIncident
deriving DecidableEq, Repr

structure Telemetry where
  ts : ℚ
  robotId : ℕ
  mode : OpsMode
  status : RobotStatus
  missionId : Option ℕ
  poseX : ℚ
  poseY : ℚ
  heading : ℚ
  speed : ℚ
  battery : ℚ
  temp : ℚ
  localizationConfidence : ℚ
  sensors : Sensors
deriving DecidableEq, Repr

/-! ### Environment: randomness and transcendental helpers

`random` is the stream of `Math.random()` results, consumed in call
order through an explicit index; `hypot dx dy` and `atan2 dy dx` stand
for `Math.hypot` / `Math.atan2`, and `pi` for `Math.PI`.  Theorems
quantifying over `Env` therefore cover every possible behaviour of the
JavaScript originals. -/

structure Env where
  random : ℕ → ℚ
  hypot : ℚ → ℚ → ℚ
  atan2 : ℚ → ℚ → ℚ
  pi : ℚ

/-- `const randomFloat = (min, max) => min + Math.random() * (max - min)`. -/
def randomFloat (env : Env) (lo hi : ℚ) (k : ℕ) : ℚ × ℕ :=
  (lo + env.random k * (hi - lo), k + 1)

/-- `const randomInt = (min, max) => Math.floor(randomFloat(min, max + 1))`. -/
def randomInt (env : Env) (lo hi : ℚ) (k : ℕ) : ℤ × ℕ :=
  let (v, k') := randomFloat env lo (hi + 1) k
  (⌊v⌋, k')

/-- `const randomHeadingDelta = () => randomFloat(-0.2, 0.2)`. -/
def randomHeadingDelta (env : Env) (k : ℕ) : ℚ × ℕ :=
  randomFloat env (-0.2) 0.2 k

/-- `const clamp = (value, min, max) => Math.min(max, Math.max(min, value))`. -/
def clamp (value lo hi : ℚ) : ℚ := min hi (max lo value)

/-- `Number(x.toFixed(digits))`: round to `digits` decimal places, ties
away from zero. -/
def jsToFixed (digits : ℕ) (q : ℚ) : ℚ :=
  let p : ℚ := (10 : ℚ) ^ digits
  if 0 ≤ q then (⌊q * p + 1 / 2⌋ : ℚ) / p else -((⌊-q * p + 1 / 2⌋ : ℚ) / p)

/-- JavaScript `%` (remainder with the sign of the dividend). -/
def jsMod (a m : ℚ) : ℚ :=
  if m = 0 then 0
  else if 0 ≤ a then a - m * (⌊a / m⌋ : ℚ) else a + m * (⌊-a / m⌋ : ℚ)

/-- `randomSensorStatus`: `OK` with probability 0.9, else `WARN`. -/
def randomSensorStatus (env : Env) (k : ℕ) : SensorHealth × ℕ :=
  (if env.random k < 0.9 then .OK else .WARN, k + 1)

/-- `isWarehouseMissionType`. -/
def isWarehouseMissionType (mt : MissionType) : Bool :=
  mt = MissionType.MOVE ∨ mt = MissionType.BRING ∨ mt = MissionType.PICK

/-- `randomMissionTypeForMode`. -/
def randomMissionTypeForMode (env : Env) (mode : OpsMode) (k : ℕ) : MissionType × ℕ :=
  match mode with
  | .DELIVERY => (.DELIVERY, k)
  | .WAREHOUSE =>
    let (i, k') := randomInt env 0 ((WAREHOUSE_MISSION_TYPES.length : ℚ) - 1) k
    (WAREHOUSE_MISSION_TYPES.getD i.toNat .MOVE, k')

/-! ### Constants and the delivery route graph -/

def ANOMALY_COOLDOWN_MS : AnomalyKey → ℚ
  | .localization => 9000
  | .sensorFail => 15000
  | .stuck => 10000
  | .offline => 16000
  | .geofence => 11000

def ANOMALY_PROBABILITY : AnomalyKey → ℚ
  | .localization => 0.004
  | .sensorFail => 0.0018
  | .stuck => 0.003
  | .offline => 0.0012
  | .geofence => 0.0015

def OFFLINE_ANOMALY_DURATION_MS : ℚ := 10000

def FINAL_TARGET_REACHED_DISTANCE : ℚ := 0.2

def WAYPOINT_REACHED_DISTANCE : ℚ := 0.25

/-- A node of the fixed delivery road grid; the source's string id
`DLV-row-column` is modelled as the `(rowIndex, columnIndex)` pair. -/
structure DeliveryGraphNode where
  id : ℕ × ℕ
  x : ℚ
  y : ℚ
  neighbors : List (ℕ × ℕ)
deriving DecidableEq, Repr

def DELIVERY_GRID_COLUMNS : List ℚ := [12, 24, 36, 48, 60]

def DELIVERY_GRID_ROWS : List ℚ := [18, 32, 46, 60, 74]

def DELIVERY_ROUTE_NODES : List DeliveryGraphNode :=
  (DELIVERY_GRID_ROWS.enum.map (fun rowp =>
    DELIVERY_GRID_COLUMNS.enum.map (fun colp =>
      { id := (rowp.1, colp.1)
        x := colp.2
        y := rowp.2
        neighbors :=
          (if 0 < rowp.1 then [(rowp.1 - 1, colp.1)] else []) ++
          (if rowp.1 < DELIVERY_GRID_ROWS.length - 1 then [(rowp.1 + 1, colp.1)] else []) ++
          (if 0 < colp.1 then [(rowp.1, colp.1 - 1)] else []) ++
          (if colp.1 < DELIVERY_GRID_COLUMNS.length - 1 then [(rowp.1, colp.1 + 1)] else []) })
    )).flatten

/-- `DELIVERY_ROUTE_NODES[0] ?? {literal fallback}`. -/
def DELIVERY_ROUTE_FALLBACK_NODE : DeliveryGraphNode :=
  DELIVERY_ROUTE_NODES.headD { id := (0, 0), x := 36, y := 46, neighbors := [] }

def getDeliveryNodeById (nodeId : ℕ × ℕ) : DeliveryGraphNode :=
  ((DELIVERY_ROUTE_NODES.find? (fun n => n.id = nodeId)).getD DELIVERY_ROUTE_FALLBACK_NODE)

def toWaypoint (n : DeliveryGraphNode) : Waypoint := ⟨n.x, n.y⟩

/-- `getNearestDeliveryNode`: linear scan keeping the first strict
minimum of `Math.hypot` distance (initial best distance `+Infinity` is
modelled by the `none` accumulator). -/
def getNearestDeliveryNode (env : Env) (p : Waypoint) : DeliveryGraphNode :=
  (DELIVERY_ROUTE_NODES.foldl
    (fun best node =>
      let d := env.hypot (p.x - node.x) (p.y - node.y)
      match best with
      | none => some (node, d)
      | some bd => if d < bd.2 then some (node, d) else some bd)
    none).elim DELIVERY_ROUTE_FALLBACK_NODE Prod.fst

def snapToDeliveryRouteGraph (env : Env) (p : Waypoint) : Waypoint :=
  toWaypoint (getNearestDeliveryNode env p)

/-- `sampleDeliverySpawnPoint`. -/
def sampleDeliverySpawnPoint (env : Env) (k : ℕ) : Waypoint × ℕ :=
  if DELIVERY_ROUTE_NODES.length = 0 then (toWaypoint DELIVERY_ROUTE_FALLBACK_NODE, k)
  else
    let (i, k') := randomInt env 0 ((DELIVERY_ROUTE_NODES.length : ℚ) - 1) k
    (toWaypoint (DELIVERY_ROUTE_NODES.getD i.toNat DELIVERY_ROUTE_FALLBACK_NODE), k')

/-! ### Route planning -/

structure RoutePlan where
  waypoints : List Waypoint
  target : Waypoint
  fromZoneId : Option WarehouseZoneId
  toZoneId : Option WarehouseZoneId
deriving DecidableEq, Repr

/-- The body of `createDeliveryRoute`'s `for` loop, run `n` times.
Out-of-range list reads (impossible for `Math.random ∈ [0,1)`) default
to the current node id, mirroring the `?? currentNode.id` fallback. -/
def deliveryRouteLoop (env : Env) :
    ℕ → DeliveryGraphNode → Option (ℕ × ℕ) → List Waypoint → ℕ → List Waypoint × ℕ
  | 0, _, _, acc, k => (acc, k)
  | n + 1, currentNode, previousNodeId, acc, k =>
    let preferredNeighbors := currentNode.neighbors.filter (fun nid => previousNodeId ≠ some nid)
    let candidateNeighbors :=
      if 0 < preferredNeighbors.length then preferredNeighbors else currentNode.neighbors
    let (nextNodeId, k') :=
      if 0 < candidateNeighbors.length then
        let (i, k') := randomInt env 0 ((candidateNeighbors.length : ℚ) - 1) k
        (candidateNeighbors.getD i.toNat currentNode.id, k')
      else (currentNode.id, k)
    let nextNode := getDeliveryNodeById nextNodeId
    deliveryRouteLoop env n nextNode (some currentNode.id) (acc ++ [toWaypoint nextNode]) k'

/-- `createDeliveryRoute`.  `waypoints[length - 1]` is only read when
the list is nonempty (`waypointCount ≥ 4` for genuine randomness); the
`getLastD` default is arbitrary. -/
def createDeliveryRoute (env : Env) (origin : Waypoint) (k : ℕ) : RoutePlan × ℕ :=
  let (wc, k1) := randomInt env 4 7 k
  let startNode := getNearestDeliveryNode env origin
  let (waypoints, k2) := deliveryRouteLoop env wc.toNat startNode none [] k1
  ({ waypoints := waypoints
     target := waypoints.getLastD ⟨0, 0⟩
     fromZoneId := none
     toZoneId := none }, k2)

structure ZoneBounds where
  minX : ℚ
  maxX : ℚ
  minY : ℚ
  maxY : ℚ
deriving DecidableEq, Repr

def WAREHOUSE_ZONE_BOUNDS : WarehouseZoneId → ZoneBounds
  | .INBOUND => ⟨2, 26, 64, 98⟩
  | .HIGH_BAY => ⟨30, 68, 64, 98⟩
  | .PACKING => ⟨72, 93, 64, 98⟩
  | .OUTBOUND => ⟨2, 93, 8, 53⟩

def WAREHOUSE_ZONE_IDS : List WarehouseZoneId :=
  [.INBOUND, .HIGH_BAY, .PACKING, .OUTBOUND]

/-- `pickWarehouseZone`. -/
def pickWarehouseZone (env : Env) (excludingZoneId : Option WarehouseZoneId) (k : ℕ) :
    WarehouseZoneId × ℕ :=
  let candidates :=
    match excludingZoneId with
    | none => WAREHOUSE_ZONE_IDS
    | some z => WAREHOUSE_ZONE_IDS.filter (fun zid => zid ≠ z)
  let (i, k') := randomInt env 0 ((candidates.length : ℚ) - 1) k
  (candidates.getD i.toNat .INBOUND, k')

/-- `randomPointInWarehouseZone`. -/
def randomPointInWarehouseZone (env : Env) (zoneId : WarehouseZoneId) (k : ℕ) : Waypoint × ℕ :=
  let b := WAREHOUSE_ZONE_BOUNDS zoneId
  let (x, k1) := randomFloat env b.minX b.maxX k
  let (y, k2) := randomFloat env b.minY b.maxY k1
  (⟨x, y⟩, k2)

/-- `pickWarehouseRoutePlan` (source argument is narrowed to
MOVE/BRING/PICK by the caller; the final case is the `MOVE` branch). -/
def pickWarehouseRoutePlan (env : Env) (missionType : MissionType) (k : ℕ) :
    (WarehouseZoneId × WarehouseZoneId) × ℕ :=
  match missionType with
  | .PICK => ((.HIGH_BAY, .PACKING), k)
  | .BRING =>
    let roll := env.random k
    (if roll < 0.5 then ((.INBOUND, .HIGH_BAY)) else ((.HIGH_BAY, .OUTBOUND)), k + 1)
  | _ =>
    let (fz, k1) := pickWarehouseZone env none k
    let (tz, k2) := pickWarehouseZone env (some fz) k1
    ((fz, tz), k2)

/-- The body of `createWarehouseRoute`'s intermediate-waypoint loop for
loop variable `index`. -/
def warehouseIntermediateStep (env : Env) (origin startPoint finalTarget : Waypoint)
    (intermediateCount : ℕ) (acc : List Waypoint × ℕ) (index : ℕ) : List Waypoint × ℕ :=
  let t : ℚ := (index : ℚ) / ((intermediateCount : ℚ) + 1)
  let interpolationX := startPoint.x + (finalTarget.x - startPoint.x) * t
  let interpolationY := startPoint.y + (finalTarget.y - startPoint.y) * t
  let (jx, k1) := randomFloat env (-3.5) 3.5 acc.2
  let wx := clamp (interpolationX + jx) 0 100
  let (jy, k2) := randomFloat env (-3.5) 3.5 k1
  let wy := clamp (interpolationY + jy) 0 100
  let distanceToOrigin := env.hypot (wx - origin.x) (wy - origin.y)
  let (wx', wy', k3) :=
    if distanceToOrigin < 0.4 then
      let (ax, ka) := randomFloat env (-1.5) 1.5 k2
      let wx' := clamp (wx + ax) 0 100
      let (ay, kb) := randomFloat env (-1.5) 1.5 ka
      (wx', clamp (wy + ay) 0 100, kb)
    else (wx, wy, k2)
  (acc.1 ++ [⟨wx', wy'⟩], k3)

/-- `createWarehouseRoute`. -/
def createWarehouseRoute (env : Env) (origin : Waypoint) (missionType : MissionType) (k : ℕ) :
    RoutePlan × ℕ :=
  let (wc, k1) := randomInt env 3 5 k
  let (zones, k2) := pickWarehouseRoutePlan env missionType k1
  let (startPoint, k3) := randomPointInWarehouseZone env zones.1 k2
  let (finalTarget, k4) := randomPointInWarehouseZone env zones.2 k3
  let intermediateCount : ℕ := (max 0 (wc - 2)).toNat
  let (intermediate, k5) :=
    (List.range' 1 intermediateCount).foldl
      (warehouseIntermediateStep env origin startPoint finalTarget intermediateCount)
      ([], k4)
  ({ waypoints := startPoint :: (intermediate ++ [finalTarget])
     target := finalTarget
     fromZoneId := some zones.1
     toZoneId := some zones.2 }, k5)

/-- `createRoute`. -/
def createRoute (env : Env) (mode : OpsMode) (missionType : MissionType) (origin : Waypoint)
    (k : ℕ) : RoutePlan × ℕ :=
  match mode with
  | .DELIVERY => createDeliveryRoute env origin k
  | .WAREHOUSE =>
    let (wmt, k') :=
      if isWarehouseMissionType missionType then (missionType, k)
      else
        let (i, k') := randomInt env 0 ((WAREHOUSE_MISSION_TYPES.length : ℚ) - 1) k
        (WAREHOUSE_MISSION_TYPES.getD i.toNat .MOVE, k')
    createWarehouseRoute env origin wmt k'

/-! ### Fleet state access

`fleet.missions` is a `Map<string, Mission>`; it is modelled by an
insertion-ordered association list with lookup and replace-or-append
update.  Robots are addressed by their list position (the engine only
ever mutates the robot object it is currently iterating over). -/

def mapGet (m : List (ℕ × Mission)) (key : ℕ) : Option Mission :=
  (m.find? (fun p => p.1 = key)).map Prod.snd

def mapSet (m : List (ℕ × Mission)) (key : ℕ) (v : Mission) : List (ℕ × Mission) :=
  if (m.find? (fun p => p.1 = key)).isSome then
    m.map (fun p => if p.1 = key then (key, v) else p)
  else m ++ [(key, v)]

def dummyRobot : Robot :=
  { robotId := 0, status := .IDLE, battery := 0, temp := 0, speed := 0
    localizationConfidence := 0, lastHeartbeatTs := 0, missionId := none, faults24h := 0
    pose := ⟨0, 0, 0⟩, sensors := ⟨.OK, .OK, .OK, .OK⟩, stuckUntilTs := none
    offlineUntilTs := none, anomalyCooldownUntilTs := ⟨0, 0, 0, 0, 0⟩ }

def cancelledCopy (em : Mission) (now : ℚ) : Mission :=
  { em with status := MissionStatus.CANCELLED, updatedAtTs := now }

def bumpAdd (f : Fleet) (v : Mission) : Fleet :=
  { f with nextMissionSeq := f.nextMissionSeq + 1
           missions := mapSet f.missions f.nextMissionSeq v }

def Fleet.robot (f : Fleet) (i : ℕ) : Robot := f.robots.getD i dummyRobot

def Fleet.setRobot (f : Fleet) (i : ℕ) (r : Robot) : Fleet :=
  { f with robots := f.robots.set i r }

/-- `getMissionForRobot`. -/
def getMissionForRobot (f : Fleet) (r : Robot) : Option Mission :=
  match r.missionId with
  | none => none
  | some mid => mapGet f.missions mid

/-- `createMissionForRobot` (the mission counter plays the role of
`assignMissionId`); returns the fresh mission's id alongside the updated
fleet and random index. -/
def createMissionForRobot (env : Env) (f : Fleet) (i : ℕ) (now : ℚ)
    (initialStatus : MissionStatus) (k : ℕ) : Fleet × ℕ × ℕ :=
  let robot := f.robot i
  let f :=
    match getMissionForRobot f robot with
    | some em =>
      if em.status = MissionStatus.ACTIVE ∨ em.status = MissionStatus.PAUSED then
        { f with missions :=
            mapSet f.missions em.missionId { em with status := .CANCELLED, updatedAtTs := now } }
      else f
    | none => f
  let missionId := f.nextMissionSeq
  let f := { f with nextMissionSeq := f.nextMissionSeq + 1 }
  let (missionType, k1) := randomMissionTypeForMode env f.mode k
  let (route, k2) := createRoute env f.mode missionType ⟨robot.pose.x, robot.pose.y⟩ k1
  let mission : Mission :=
    { missionId := missionId
      robotId := robot.robotId
      mode := f.mode
      missionType := missionType
      fromZoneId := route.fromZoneId
      toZoneId := route.toZoneId
      status := initialStatus
      progress := 0
      waypoints := route.waypoints
      target := route.target
      currentWaypointIndex := 0
      currentLegStart := ⟨robot.pose.x, robot.pose.y⟩
      createdAtTs := now
      updatedAtTs := now }
  let f := { f with missions := mapSet f.missions missionId mission }
  let f := f.setRobot i { robot with missionId := some missionId }
  (f, missionId, k2)

/-- `ensureMissionForRobot`, returning the (existing or fresh) mission id. -/
def ensureMissionForRobot (env : Env) (f : Fleet) (i : ℕ) (now : ℚ)
    (initialStatus : MissionStatus) (k : ℕ) : Fleet × ℕ × ℕ :=
  match getMissionForRobot f (f.robot i) with
  | some existing => (f, existing.missionId, k)
  | none => createMissionForRobot env f i now initialStatus k

/-- Overwrite the mission stored under `mid` (the in-place object
mutation of the JavaScript `Map`). -/
def Fleet.mutateMission (f : Fleet) (mid : ℕ) (g : Mission → Mission) : Fleet :=
  match mapGet f.missions mid with
  | some m => { f with missions := mapSet f.missions mid (g m) }
  | none => f

/-- `setStatus`: the single authoritative status-transition function. -/
def setStatus (env : Env) (f : Fleet) (i : ℕ) (status : RobotStatus)
    (offlineDurationMs : Option ℚ) (k : ℕ) : Fleet × ℕ :=
  let f := f.setRobot i { f.robot i with status := status }
  let now := f.updatedAtTs
  match status with
  | .ON_MISSION =>
    let f :=
      if f.mode = .DELIVERY then
        let robot := f.robot i
        let sp := snapToDeliveryRouteGraph env ⟨robot.pose.x, robot.pose.y⟩
        f.setRobot i { robot with pose := { robot.pose with x := sp.x, y := sp.y } }
      else f
    let (f, missionId, k1) := ensureMissionForRobot env f i now .ACTIVE k
    let f := f.mutateMission missionId
      (fun m => { m with status := .ACTIVE, updatedAtTs := now })
    let (speed, k2) := randomFloat env 0.6 1.8 k1
    (f.setRobot i { f.robot i with speed := speed, offlineUntilTs := none }, k2)
  | .NEED_ASSIST =>
    let (f, missionId, k1) := ensureMissionForRobot env f i now .PAUSED k
    let f := f.mutateMission missionId
      (fun m => { m with status := .PAUSED, updatedAtTs := now })
    (f.setRobot i { f.robot i with speed := 0, offlineUntilTs := none }, k1)
  | .FAULT =>
    let f :=
      match getMissionForRobot f (f.robot i) with
      | some m => f.mutateMission m.missionId
          (fun m => { m with status := .FAILED, updatedAtTs := now })
      | none => f
    (f.setRobot i { f.robot i with
        speed := 0, missionId := none, stuckUntilTs := none, offlineUntilTs := none }, k)
  | .OFFLINE =>
    let (dur, k1) :=
      match offlineDurationMs with
      | some d => (d, k)
      | none =>
        let (d, k') := randomInt env 6000 12000 k
        ((d : ℚ), k')
    let f := f.setRobot i { f.robot i with speed := 0, offlineUntilTs := some (now + dur) }
    let f :=
      match getMissionForRobot f (f.robot i) with
      | some m =>
        if m.status = .ACTIVE then
          f.mutateMission m.missionId (fun m => { m with status := .PAUSED, updatedAtTs := now })
        else f
      | none => f
    (f, k1)
  | .IDLE =>
    let f :=
      match getMissionForRobot f (f.robot i) with
      | some m =>
        if m.status ≠ .COMPLETED ∧ m.status ≠ .FAILED then
          f.mutateMission m.missionId (fun m =>
            { m with status := .COMPLETED, progress := max m.progress 100, updatedAtTs := now })
        else f
      | none => f
    (f.setRobot i { f.robot i with
        speed := 0, missionId := none, stuckUntilTs := none, offlineUntilTs := none }, k)

/-- `updateBaseMetrics`: status-dependent clamped random walk (no
branch for `OFFLINE`). -/
def updateBaseMetrics (env : Env) (r : Robot) (k : ℕ) : Robot × ℕ :=
  match r.status with
  | .ON_MISSION =>
    let (db, k1) := randomFloat env 0.1 0.5 k
    let (dt, k2) := randomFloat env (-0.1) 0.25 k1
    let (dc, k3) := randomFloat env (-0.015) 0.01 k2
    ({ r with battery := clamp (r.battery - db) 5 100
              temp := clamp (r.temp + dt) 15 85
              localizationConfidence := clamp (r.localizationConfidence + dc) 0.7 1 }, k3)
  | .IDLE =>
    let (db, k1) := randomFloat env 0.08 0.24 k
    let (dt, k2) := randomFloat env (-0.25) 0.1 k1
    let (dc, k3) := randomFloat env (-0.005) 0.008 k2
    ({ r with battery := clamp (r.battery + db) 5 100
              temp := clamp (r.temp + dt) 15 85
              localizationConfidence := clamp (r.localizationConfidence + dc) 0.85 1 }, k3)
  | .NEED_ASSIST =>
    let (db, k1) := randomFloat env 0.03 0.12 k
    let (dt, k2) := randomFloat env (-0.08) 0.12 k1
    let (dc, k3) := randomFloat env (-0.02) 0.003 k2
    ({ r with battery := clamp (r.battery - db) 5 100
              temp := clamp (r.temp + dt) 15 85
              localizationConfidence := clamp (r.localizationConfidence + dc) 0.45 0.95 }, k3)
  | .FAULT =>
    let (db, k1) := randomFloat env 0.02 0.1 k
    let (dt, k2) := randomFloat env (-0.1) 0.2 k1
    let (dc, k3) := randomFloat env (-0.03) 0.002 k2
    ({ r with battery := clamp (r.battery - db) 5 100
              temp := clamp (r.temp + dt) 15 85
              localizationConfidence := clamp (r.localizationConfidence + dc) 0.35 0.9 }, k3)
  | .OFFLINE => (r, k)

/-- `updateSensorRecovery`: the `&&` short-circuit means `Math.random`
is consumed only when the state test passes. -/
def updateSensorRecovery (env : Env) (r : Robot) (k : ℕ) : Robot × ℕ :=
  SENSOR_KEYS.foldl
    (fun acc key =>
      let r := acc.1
      let state := r.sensors.get key
      if state = SensorHealth.FAIL ∧ r.status ≠ RobotStatus.OFFLINE then
        let roll := env.random acc.2
        (if roll < 0.06 then { r with sensors := r.sensors.set key .WARN } else r, acc.2 + 1)
      else if state = SensorHealth.WARN then
        let roll := env.random acc.2
        (if roll < 0.08 then { r with sensors := r.sensors.set key .OK } else r, acc.2 + 1)
      else acc)
    (r, k)

/-- `robot.stuckUntilTs && robot.stuckUntilTs > now` (`0` is falsy). -/
def stuckActive (r : Robot) (now : ℚ) : Bool :=
  match r.stuckUntilTs with
  | none => false
  | some t => decide (t ≠ 0) && decide (now < t)

/-- `robot.stuckUntilTs && robot.stuckUntilTs <= now`. -/
def stuckElapsed (r : Robot) (now : ℚ) : Bool :=
  match r.stuckUntilTs with
  | none => false
  | some t => decide (t ≠ 0) && decide (t ≤ now)

/-- `!robot.stuckUntilTs || robot.stuckUntilTs <= now`. -/
def stuckFalsyOrElapsed (r : Robot) (now : ℚ) : Bool :=
  match r.stuckUntilTs with
  | none => true
  | some t => decide (t = 0) || decide (t ≤ now)

/-- The waypoint-arrival advance of `updateMissionProgress` (the
source's `step1` block): on reaching the current waypoint, snap to it
and, if it is not the last one, move to the next leg. -/
def umpAdvance (env : Env) (robot : Robot) (m2 : Mission) (movementTarget : Waypoint)
    (dx dy distance : ℚ) (wlen : ℕ) : Robot × Mission × Waypoint × ℚ × ℚ × ℚ :=
  if distance ≤ WAYPOINT_REACHED_DISTANCE then
    let robot :=
      { robot with pose := { robot.pose with x := movementTarget.x, y := movementTarget.y } }
    if m2.currentWaypointIndex < wlen - 1 then
      let m3 := { m2 with currentWaypointIndex := m2.currentWaypointIndex + 1
                          currentLegStart := movementTarget }
      let movementTarget2 := m3.waypoints.getD m3.currentWaypointIndex ⟨0, 0⟩
      let dx2 := movementTarget2.x - robot.pose.x
      let dy2 := movementTarget2.y - robot.pose.y
      (robot, m3, movementTarget2, dx2, dy2, env.hypot dx2 dy2)
    else (robot, m2, movementTarget, dx, dy, distance)
  else (robot, m2, movementTarget, dx, dy, distance)

/-- The movement/heading/progress/completion tail of
`updateMissionProgress`, after the waypoint advance. -/
def umpFinish (env : Env) (f : Fleet) (i : ℕ) (missionId : ℕ) (wlen : ℕ)
    (step1 : Robot × Mission × Waypoint × ℚ × ℚ × ℚ) (k : ℕ) : Fleet × ℕ :=
  let robot := step1.1
  let m3 := step1.2.1
  let movementTarget := step1.2.2.1
  let dx := step1.2.2.2.1
  let dy := step1.2.2.2.2.1
  let distance := step1.2.2.2.2.2
  let (robot, k) :=
    if 0.0001 < distance then
      let step := min distance (robot.speed * 0.2)
      ({ robot with pose :=
          { x := robot.pose.x + dx / distance * step
            y := robot.pose.y + dy / distance * step
            heading := env.atan2 dy dx } }, k)
    else
      let (delta, k2) := randomHeadingDelta env k
      let h := jsMod (robot.pose.heading + delta + env.pi * 2) (env.pi * 2)
      ({ robot with pose := { robot.pose with heading := h } }, k2)
  let legLength := env.hypot (movementTarget.x - m3.currentLegStart.x)
    (movementTarget.y - m3.currentLegStart.y)
  let legRemaining := env.hypot (movementTarget.x - robot.pose.x)
    (movementTarget.y - robot.pose.y)
  let legProgress := if 0.0001 < legLength then clamp (1 - legRemaining / legLength) 0 1 else 1
  let computedProgress :=
    clamp ((((m3.currentWaypointIndex : ℚ) + legProgress) / (wlen : ℚ)) * 100) 0 99.9
  let m4 := { m3 with progress := max m3.progress (jsToFixed 2 computedProgress) }
  let finalDistance := env.hypot (m4.target.x - robot.pose.x) (m4.target.y - robot.pose.y)
  let onFinalWaypoint := m4.currentWaypointIndex = wlen - 1
  if onFinalWaypoint ∧ finalDistance ≤ FINAL_TARGET_REACHED_DISTANCE then
    let robot := { robot with
      pose := { robot.pose with x := m4.target.x, y := m4.target.y }
      missionId := none, status := RobotStatus.IDLE, speed := 0 }
    let ms := mapSet f.missions missionId
      ({ m4 with status := MissionStatus.COMPLETED, progress := 100 })
    let f := { f with missions := ms }
    (f.setRobot i robot, k)
  else
    let ms := mapSet f.missions missionId m4
    let f := { f with missions := ms }
    (f.setRobot i robot, k)

/-- `updateMissionProgress`: waypoint-leg advance, heading update,
monotonically clamped progress, and completion on the final waypoint. -/
def updateMissionProgress (env : Env) (f : Fleet) (i : ℕ) (k : ℕ) : Fleet × ℕ :=
  if (f.robot i).status ≠ RobotStatus.ON_MISSION then (f, k)
  else
    let now := f.updatedAtTs
    let (f, missionId, k) := ensureMissionForRobot env f i now .ACTIVE k
    match mapGet f.missions missionId with
    | none => (f, k)
    | some m0 =>
      let robot := f.robot i
      let m1 := { m0 with mode := f.mode, updatedAtTs := now, status := MissionStatus.ACTIVE }
      if stuckActive robot now then
        let ms := mapSet f.missions missionId ({ m1 with status := MissionStatus.PAUSED })
        let f := { f with missions := ms }
        (f.setRobot i { robot with speed := 0 }, k)
      else
        let (robot, k) :=
          if stuckElapsed robot now then
            let (sp, k2) := randomFloat env 0.7 1.7 k
            ({ robot with stuckUntilTs := none, speed := sp }, k2)
          else (robot, k)
        if m1.waypoints.length = 0 then
          let ms := mapSet f.missions missionId
            ({ m1 with status := MissionStatus.COMPLETED, progress := 100 })
          let f := { f with missions := ms }
          (f.setRobot i
            { robot with missionId := none, status := RobotStatus.IDLE, speed := 0 }, k)
        else
          let wlen := m1.waypoints.length
          -- `clamp(idx, 0, len - 1)` on a nonnegative index with `len ≥ 1`
          let m2 := { m1 with currentWaypointIndex := min m1.currentWaypointIndex (wlen - 1) }
          let movementTarget := m2.waypoints.getD m2.currentWaypointIndex ⟨0, 0⟩
          let dx := movementTarget.x - robot.pose.x
          let dy := movementTarget.y - robot.pose.y
          let distance := env.hypot dx dy
          umpFinish env f i missionId wlen
            (umpAdvance env robot m2 movementTarget dx dy distance wlen) k

/-- `applyTransitions`: baseline probabilistic status transitions. -/
def applyTransitions (env : Env) (f : Fleet) (i : ℕ) (k : ℕ) : Fleet × ℕ :=
  let robot := f.robot i
  let now := f.updatedAtTs
  if robot.status = RobotStatus.OFFLINE then
    if robot.offlineUntilTs.getD 0 ≤ now then setStatus env f i .IDLE none k else (f, k)
  else if robot.status = RobotStatus.IDLE then
    let roll := env.random k
    if roll < 0.08 then setStatus env f i .ON_MISSION none (k + 1) else (f, k + 1)
  else if robot.status = RobotStatus.NEED_ASSIST ∧ stuckFalsyOrElapsed robot now then
    let roll := env.random k
    if roll < 0.22 then setStatus env f i .ON_MISSION none (k + 1) else (f, k + 1)
  else if robot.status = RobotStatus.FAULT then
    let roll := env.random k
    if roll < 0.18 then
      let f := f.setRobot i { f.robot i with sensors := ⟨.OK, .OK, .OK, .OK⟩ }
      setStatus env f i .IDLE none (k + 1)
    else (f, k + 1)
  else (f, k)

/-! ### Anomaly injection -/

/-- `canTriggerAnomaly = (robot, kind, now) => now >= robot.anomalyCooldownUntilTs[kind]`. -/
def canTriggerAnomaly (r : Robot) (kind : AnomalyKey) (now : ℚ) : Bool :=
  decide (r.anomalyCooldownUntilTs.get kind ≤ now)

/-- `setAnomalyCooldown`: re-arm to `now + ANOMALY_COOLDOWN_MS[kind]`. -/
def setAnomalyCooldown (r : Robot) (kind : AnomalyKey) (now : ℚ) : Robot :=
  { r with anomalyCooldownUntilTs :=
      r.anomalyCooldownUntilTs.set kind (now + ANOMALY_COOLDOWN_MS kind) }

/-- The status/cooldown part of each anomaly guard in `applyAnomalies`
(everything to the left of the `Math.random()` probability roll). -/
def anomalyStatusGuard (mode : OpsMode) (r : Robot) (now : ℚ) : AnomalyKey → Bool
  | .localization => decide (r.status = .ON_MISSION) && canTriggerAnomaly r .localization now
  | .sensorFail => decide (r.status ≠ .OFFLINE) && canTriggerAnomaly r .sensorFail now
  | .stuck => decide (r.status = .ON_MISSION) && canTriggerAnomaly r .stuck now
  | .offline => decide (r.status ≠ .OFFLINE) && canTriggerAnomaly r .offline now
  | .geofence =>
    decide (mode = .DELIVERY) && decide (r.status = .ON_MISSION) &&
      canTriggerAnomaly r .geofence now

def sensorKeyUpper : SensorKey → String
  | .lidar => "LIDAR"
  | .cam => "CAM"
  | .gps => "GPS"
  | .imu => "IMU"

structure AnomalySignalPayload where
  incidentType : IncidentType
  severity : Severity
  eventType : String
  level : EventLevel
  message : String
deriving DecidableEq, Repr

/-- `pushAnomalySignal`: assign an event id and an incident id, then
append one Event and one linked Incident (sharing the event id in their
metadata) to the tick's bucket.  The kind-specific diagnostic metadata
fields do not feed back into the simulation and are not modelled. -/
def pushAnomalySignal (f : Fleet) (i : ℕ) (bucket : FleetTickResult)
    (payload : AnomalySignalPayload) : Fleet × FleetTickResult :=
  let robot := f.robot i
  let ts := f.updatedAtTs
  let missionId := robot.missionId
  let eventId := f.nextEventSeq
  let incidentId := f.nextIncidentSeq
  let f := { f with nextEventSeq := f.nextEventSeq + 1, nextIncidentSeq := f.nextIncidentSeq + 1 }
  let event : OpsEvent :=
    { ts := ts, robotId := robot.robotId, missionId := missionId, level := payload.level
      eventType := payload.eventType, message := payload.message
      metaEventId := eventId, metaMode := f.mode }
  let incident : OpsIncident :=
    { ts := ts, incidentId := incidentId, robotId := robot.robotId, missionId := missionId
      incidentType := payload.incidentType, severity := payload.severity
      message := payload.message, resolved := false
      metaEventId := eventId, metaMode := f.mode, linkedEventType := payload.eventType }
  (f, ⟨bucket.events ++ [event], bucket.incidents ++ [incident]⟩)

/-- The five anomaly `fire` bodies of `applyAnomalies` (`robot` and
`now` are re-read from the fleet, as the source closures capture them). -/
def fireLocalization (env : Env) (f : Fleet) (i : ℕ) (bucket : FleetTickResult) (k : ℕ) :
    Fleet × FleetTickResult × ℕ :=
  let now := f.updatedAtTs
  let robot := setAnomalyCooldown (f.robot i) .localization now
  let (cv, k) := randomFloat env 0.14 0.34 k
  let robot := { robot with localizationConfidence := clamp cv 0 1 }
  let f := f.setRobot i robot
  let (f, k) := setStatus env f i .NEED_ASSIST none k
  let (f, bucket) := pushAnomalySignal f i bucket
    { incidentType := .LOCALIZATION_DROPOUT, severity := .HIGH
      eventType := "LOCALIZATION_DROPOUT", level := .ERROR
      message := "Localization confidence dropped below safety threshold" }
  (f, bucket, k)

def fireSensorFail (env : Env) (f : Fleet) (i : ℕ) (bucket : FleetTickResult) (k : ℕ) :
    Fleet × FleetTickResult × ℕ :=
  let now := f.updatedAtTs
  let robot := setAnomalyCooldown (f.robot i) .sensorFail now
  let (si, k) := randomInt env 0 ((SENSOR_KEYS.length : ℚ) - 1) k
  let sensorKey := SENSOR_KEYS.getD si.toNat .lidar
  let robot := { robot with sensors := robot.sensors.set sensorKey .FAIL }
  let f := f.setRobot i robot
  let (f, k) := setStatus env f i .FAULT none k
  let (f, bucket) := pushAnomalySignal f i bucket
    { incidentType := .SENSOR_FAIL, severity := .CRITICAL
      eventType := "SENSOR_FAIL", level := .ERROR
      message := "Sensor " ++ sensorKeyUpper sensorKey ++ " reported FAIL" }
  (f, bucket, k)

def fireStuck (env : Env) (f : Fleet) (i : ℕ) (bucket : FleetTickResult) (k : ℕ) :
    Fleet × FleetTickResult × ℕ :=
  let now := f.updatedAtTs
  let robot := setAnomalyCooldown (f.robot i) .stuck now
  let (d, k) := randomInt env 4000 8000 k
  let robot := { robot with stuckUntilTs := some (now + (d : ℚ)), speed := 0 }
  let f := f.setRobot i robot
  let (f, k) := setStatus env f i .NEED_ASSIST none k
  let (f, bucket) := pushAnomalySignal f i bucket
    { incidentType := .STUCK, severity := .MEDIUM
      eventType := "STUCK", level := .WARN
      message := "Robot movement stalled during mission execution" }
  (f, bucket, k)

def fireOffline (env : Env) (f : Fleet) (i : ℕ) (bucket : FleetTickResult) (k : ℕ) :
    Fleet × FleetTickResult × ℕ :=
  let now := f.updatedAtTs
  let robot := setAnomalyCooldown (f.robot i) .offline now
  let f := f.setRobot i robot
  let (f, k) := setStatus env f i .OFFLINE (some OFFLINE_ANOMALY_DURATION_MS) k
  let (f, bucket) := pushAnomalySignal f i bucket
    { incidentType := .SENSOR_FAIL, severity := .HIGH
      eventType := "OFFLINE_TIMEOUT", level := .ERROR
      message := "Robot lost connectivity and went offline for 10 seconds" }
  (f, bucket, k)

def fireGeofence (env : Env) (f : Fleet) (i : ℕ) (bucket : FleetTickResult) (k : ℕ) :
    Fleet × FleetTickResult × ℕ :=
  let now := f.updatedAtTs
  let robot := setAnomalyCooldown (f.robot i) .geofence now
  let (coin, k) := (env.random k, k + 1)
  let (px, k) :=
    if coin < 0.5 then
      let (v, k2) := randomFloat env 1 4 k
      (-v, k2)
    else
      let (v, k2) := randomFloat env 1 4 k
      (100 + v, k2)
  let (dyy, k) := randomFloat env (-2) 2 k
  let robot := { robot with pose :=
    { robot.pose with x := px, y := clamp (robot.pose.y + dyy) 0 100 } }
  let f := f.setRobot i robot
  let (f, k) := setStatus env f i .NEED_ASSIST none k
  let (f, bucket) := pushAnomalySignal f i bucket
    { incidentType := .GEOFENCE_VIOLATION, severity := .CRITICAL
      eventType := "GEOFENCE_VIOLATION", level := .ERROR
      message := "Robot crossed geofence boundary during delivery route" }
  (f, bucket, k)

/-- The guard-and-roll cascade of `applyAnomalies`, in the source's
order, each `return`ing as soon as one kind fires. -/
def tryGeofence (env : Env) (f : Fleet) (i : ℕ) (bucket : FleetTickResult) (k : ℕ) :
    Fleet × FleetTickResult × ℕ :=
  if anomalyStatusGuard f.mode (f.robot i) f.updatedAtTs .geofence then
    if env.random k < ANOMALY_PROBABILITY .geofence then fireGeofence env f i bucket (k + 1)
    else (f, bucket, k + 1)
  else (f, bucket, k)

def tryOffline (env : Env) (f : Fleet) (i : ℕ) (bucket : FleetTickResult) (k : ℕ) :
    Fleet × FleetTickResult × ℕ :=
  if anomalyStatusGuard f.mode (f.robot i) f.updatedAtTs .offline then
    if env.random k < ANOMALY_PROBABILITY .offline then fireOffline env f i bucket (k + 1)
    else tryGeofence env f i bucket (k + 1)
  else tryGeofence env f i bucket k

def tryStuck (env : Env) (f : Fleet) (i : ℕ) (bucket : FleetTickResult) (k : ℕ) :
    Fleet × FleetTickResult × ℕ :=
  if anomalyStatusGuard f.mode (f.robot i) f.updatedAtTs .stuck then
    if env.random k < ANOMALY_PROBABILITY .stuck then fireStuck env f i bucket (k + 1)
    else tryOffline env f i bucket (k + 1)
  else tryOffline env f i bucket k

def trySensorFail (env : Env) (f : Fleet) (i : ℕ) (bucket : FleetTickResult) (k : ℕ) :
    Fleet × FleetTickResult × ℕ :=
  if anomalyStatusGuard f.mode (f.robot i) f.updatedAtTs .sensorFail then
    if env.random k < ANOMALY_PROBABILITY .sensorFail then fireSensorFail env f i bucket (k + 1)
    else tryStuck env f i bucket (k + 1)
  else tryStuck env f i bucket k

/-- `applyAnomalies`: the five kinds are tried in the source's fixed
order, each `return`ing as soon as one fires. -/
def applyAnomalies (env : Env) (f : Fleet) (i : ℕ) (bucket : FleetTickResult) (k : ℕ) :
    Fleet × FleetTickResult × ℕ :=
  if anomalyStatusGuard f.mode (f.robot i) f.updatedAtTs .localization then
    if env.random k < ANOMALY_PROBABILITY .localization then
      fireLocalization env f i bucket (k + 1)
    else trySensorFail env f i bucket (k + 1)
  else trySensorFail env f i bucket k

/-! ### Tick, creation, mode switch, telemetry -/

/-- The per-robot pipeline of `tickFleetState`'s loop body. -/
def tickRobotStep (env : Env) (st : Fleet × FleetTickResult × ℕ) (i : ℕ) :
    Fleet × FleetTickResult × ℕ :=
  let (f, bucket, k) := st
  let f :=
    if (f.robot i).status ≠ RobotStatus.OFFLINE then
      f.setRobot i { f.robot i with lastHeartbeatTs := f.updatedAtTs }
    else f
  let (r1, k) := updateBaseMetrics env (f.robot i) k
  let (r2, k) := updateSensorRecovery env r1 k
  let f := f.setRobot i r2
  let (f, k) := updateMissionProgress env f i k
  let (f, k) := applyTransitions env f i k
  applyAnomalies env f i bucket k

/-- `tickFleetState`. -/
def tickFleetState (env : Env) (f : Fleet) (now : ℚ) (k : ℕ) :
    Fleet × FleetTickResult × ℕ :=
  let f := { f with updatedAtTs := now, tick := f.tick + 1 }
  (List.range f.robots.length).foldl (tickRobotStep env) (f, ⟨[], []⟩, k)

/-- `Math.round` (half up). -/
def jsRound (q : ℚ) : ℤ := ⌊q + 1 / 2⌋

/-- The per-robot body of `createFleetState`'s seeding loop.  The
`Math.random()` calls are consumed in the source's evaluation order:
spawn pose, battery, temp, confidence, faults24h, heading, then the
four sensors. -/
def createFleetRobotStep (env : Env) (mode : OpsMode) (now : ℚ) (st : Fleet × ℕ) (index : ℕ) :
    Fleet × ℕ :=
  let (f, k) := st
  let seededStatus := STATUS_ORDER.getD (index % STATUS_ORDER.length) .IDLE
  let (seededPose, k) :=
    match mode with
    | .DELIVERY => sampleDeliverySpawnPoint env k
    | .WAREHOUSE =>
      let (x, k) := randomFloat env 0 100 k
      let (y, k') := randomFloat env 0 100 k
      ((⟨x, y⟩ : Waypoint), k')
  let (battery, k) := randomFloat env 45 95 k
  let (temp, k) := randomFloat env 28 45 k
  let (conf, k) := randomFloat env 0.8 0.99 k
  let (faults, k) := randomInt env 0 3 k
  let (heading, k) := randomFloat env 0 (env.pi * 2) k
  let (lidar, k) := randomSensorStatus env k
  let (cam, k) := randomSensorStatus env k
  let (gps, k) := randomSensorStatus env k
  let (imu, k) := randomSensorStatus env k
  let robot : Robot :=
    { robotId := index, status := .IDLE, battery := battery, temp := temp, speed := 0
      localizationConfidence := conf, lastHeartbeatTs := now, missionId := none
      faults24h := faults.toNat
      pose := { x := seededPose.x, y := seededPose.y, heading := heading }
      sensors := ⟨lidar, cam, gps, imu⟩, stuckUntilTs := none, offlineUntilTs := none
      anomalyCooldownUntilTs := ⟨0, 0, 0, 0, 0⟩ }
  let f := { f with robots := f.robots ++ [robot] }
  let i := f.robots.length - 1
  match seededStatus with
  | .ON_MISSION => setStatus env f i .ON_MISSION none k
  | .NEED_ASSIST =>
    let (f, k) := setStatus env f i .ON_MISSION none k
    setStatus env f i .NEED_ASSIST none k
  | .FAULT => setStatus env f i .FAULT none k
  | .OFFLINE => setStatus env f i .OFFLINE none k
  | .IDLE => (f, k)

/-- `createFleetState`. -/
def createFleetState (env : Env) (requestedCount : ℚ) (now : ℚ) (mode : OpsMode) (k : ℕ) :
    Fleet × ℕ :=
  let robotCount := (min 20 (max 6 (jsRound requestedCount))).toNat
  let f0 : Fleet :=
    { mode := mode, robots := [], missions := [], tick := 0, updatedAtTs := now
      modeChangedAtTs := now, nextMissionSeq := 1, nextIncidentSeq := 1, nextEventSeq := 1 }
  (List.range robotCount).foldl (createFleetRobotStep env mode now) (f0, k)

/-- The per-robot body of `switchFleetMode`'s loop. -/
def switchModeRobotStep (env : Env) (now : ℚ) (st : Fleet × ℕ) (i : ℕ) : Fleet × ℕ :=
  let (f, k) := st
  let f :=
    if f.mode = OpsMode.DELIVERY then
      let robot := f.robot i
      let sp := snapToDeliveryRouteGraph env ⟨robot.pose.x, robot.pose.y⟩
      f.setRobot i { robot with pose := { robot.pose with x := sp.x, y := sp.y } }
    else f
  let robot := f.robot i
  if robot.status = RobotStatus.ON_MISSION then
    let (f, _, k) := createMissionForRobot env f i now .ACTIVE k
    (f, k)
  else if robot.status = RobotStatus.NEED_ASSIST then
    let (f, _, k) := createMissionForRobot env f i now .PAUSED k
    (f, k)
  else (f, k)

/-- `switchFleetMode`. -/
def switchFleetMode (env : Env) (f : Fleet) (mode : OpsMode) (now : ℚ) (k : ℕ) :
    Bool × Fleet × ℕ :=
  if f.mode = mode then (false, f, k)
  else
    let f := { f with mode := mode, modeChangedAtTs := now, updatedAtTs := now }
    let (f, k) := (List.range f.robots.length).foldl (switchModeRobotStep env now) (f, k)
    (true, f, k)

/-- `createTelemetrySnapshot`: one record per robot, unconditionally. -/
def createTelemetrySnapshot (f : Fleet) : List Telemetry :=
  f.robots.map (fun robot =>
    { ts := f.updatedAtTs, robotId := robot.robotId, mode := f.mode, status := robot.status
      missionId := robot.missionId
      poseX := jsToFixed 3 robot.pose.x, poseY := jsToFixed 3 robot.pose.y
      heading := jsToFixed 4 robot.pose.heading, speed := jsToFixed 3 robot.speed
      battery := jsToFixed 2 robot.battery, temp := jsToFixed 2 robot.temp
      localizationConfidence := jsToFixed 3 robot.localizationConfidence
      sensors := robot.sensors })

/-! ### Session traces

A session is a sequence of serialized engine activations: fleet ticks
and mode switches, each at its own `Date.now()`. -/

inductive FleetOp where
  | tick (now : ℚ)
  | switchMode (mode : OpsMode) (now : ℚ)
deriving DecidableEq, Repr

def fleetStep (env : Env) (s : Fleet × ℕ) : FleetOp → (Fleet × ℕ) × FleetTickResult
  | .tick now =>
    let (f, bucket, k) := tickFleetState env s.1 now s.2
    ((f, k), bucket)
  | .switchMode m now =>
    let (_, f, k) := switchFleetMode env s.1 m now s.2
    ((f, k), ⟨[], []⟩)

/-- Run a session, collecting each activation's event/incident batch. -/
def runFleet (env : Env) : Fleet × ℕ → List FleetOp → (Fleet × ℕ) × List FleetTickResult
  | s, [] => (s, [])
  | s, op :: rest =>
    let (s', bucket) := fleetStep env s op
    let (s'', buckets) := runFleet env s' rest
    (s'', bucket :: buckets)

/-- All intermediate fleet states of a session (including the initial
and final ones). -/
def fleetTraceStates (env : Env) : Fleet × ℕ → List FleetOp → List Fleet
  | s, [] => [s.1]
  | s, op :: rest => s.1 :: fleetTraceStates env (fleetStep env s op).1 rest

/-- The anomaly-event type string that identifies `kind` in a tick's
event batch. -/
def anomalyEventType : AnomalyKey → String
  | .localization => "LOCALIZATION_DROPOUT"
  | .sensorFail => "SENSOR_FAIL"
  | .stuck => "STUCK"
  | .offline => "OFFLINE_TIMEOUT"
  | .geofence => "GEOFENCE_VIOLATION"

/-- The timestamps at which anomaly `kind` fired on robot `rid`, in
session order. -/
def firingTimes (buckets : List FleetTickResult) (rid : ℕ) (kind : AnomalyKey) : List ℚ :=
  (buckets.map (fun b =>
    (b.events.filter (fun e =>
      decide (e.robotId = rid) && decide (e.eventType = anomalyEventType kind))).map
        OpsEvent.ts)).flatten

/-! ### Concrete environments for scenario checks

The trajectories exercised below only ever call `Math.hypot` on
axis-aligned differences (one component zero), where the taxicab norm
agrees with the Euclidean norm, and `Math.atan2` on axis directions,
where the quadrant function below agrees with the real `atan2` up to
the rational stand-in for π. -/

def axisHypot (dx dy : ℚ) : ℚ := |dx| + |dy|

def piQ : ℚ := 314159 / 100000

def axisAtan2 (dy dx : ℚ) : ℚ :=
  if dy = 0 then (if 0 ≤ dx then 0 else piQ)
  else if dx = 0 then (if 0 < dy then piQ / 2 else -(piQ / 2)) else 0

/-- A deterministic random source: every `Math.random()` call yields ½. -/
def constEnv : Env :=
  { random := fun _ => 1 / 2, hypot := axisHypot, atan2 := axisAtan2, pi := piQ }

/-- The C8 scenario: a 6-robot DELIVERY fleet seeded at `now = 1000`
under the deterministic source, ticked once at `now = 1200`. -/
def scenarioFleet : Fleet × ℕ := createFleetState constEnv 6 1000 .DELIVERY 0

def scenarioTick : Fleet × FleetTickResult × ℕ :=
  tickFleetState constEnv scenarioFleet.1 1200 scenarioFleet.2

/-- A deterministic random source that (a) routes robot 1's first
mission waypoint straight down in `y` (draw 0 at stream index 21, the
first neighbor choice of its route) and (b) fires the offline anomaly
on robot 1 during the first tick (draw 0 at stream index 89, robot 1's
offline probability roll); every other draw is ½. -/
def probeEnv : Env :=
  { random := fun k => if k = 21 ∨ k = 89 then 0 else 1 / 2
    hypot := axisHypot, atan2 := axisAtan2, pi := piQ }

/-- One reachable session: create the 6-robot DELIVERY fleet at
`now = 1000` and run a single tick at `now = 1200` under `probeEnv`. -/
def probeRun : (Fleet × ℕ) × List FleetTickResult :=
  runFleet probeEnv (createFleetState probeEnv 6 1000 .DELIVERY 0) [FleetOp.tick 1200]

/-- A two-operation broker session: one published fact, then a client
connection. -/
def c1Trace : List SentRecord :=
  (runBroker 2000 initialBrokerState
    [(BrokerOp.publishFact (MsgBody.heartbeat none none), 5), (BrokerOp.connect, 6)]).2

/-- A broker state whose history retains the facts with sequence
numbers 5 and 6. -/
def c2State : BrokerState :=
  ⟨6, [⟨5, 10, .telemetry⟩, ⟨6, 11, .event⟩]⟩

/-! ### Invariants and evolution relations (used by the theorems below) -/

/-- The engine never adds, removes or re-identifies robots. -/
def SameRobots (f f' : Fleet) : Prop :=
  f'.robots.map Robot.robotId = f.robots.map Robot.robotId

/-- The local status/mission-id discipline of one robot: ON_MISSION and
NEED_ASSIST robots hold a mission id, IDLE and FAULT robots hold none. -/
def RobotLocal (r : Robot) : Prop :=
  ((r.status = RobotStatus.ON_MISSION ∨ r.status = RobotStatus.NEED_ASSIST) →
    r.missionId.isSome = true) ∧
  ((r.status = RobotStatus.IDLE ∨ r.status = RobotStatus.FAULT) → r.missionId = none)

/-- A held mission id resolves in the mission map to a mission owned by
this robot. -/
def RobotLink (f : Fleet) (r : Robot) : Prop :=
  ∀ mid ∈ r.missionId, (mapGet f.missions mid).map Mission.robotId = some r.robotId

/-- Per-robot statement of the mission-linkage invariant. -/
def RobotInv (f : Fleet) (r : Robot) : Prop :=
  RobotLocal r ∧ RobotLink f r

/-- Value-level mission invariant: progress bounds and
COMPLETED-implies-100. -/
def MissionVal (m : Mission) : Prop :=
  0 ≤ m.progress ∧ m.progress ≤ 100 ∧
  (m.status = MissionStatus.COMPLETED → m.progress = 100)

/-- Per-mission invariant: value invariant, id below the fresh-id
counter, and key/field coherence. -/
def MissionInv (f : Fleet) (p : ℕ × Mission) : Prop :=
  MissionVal p.2 ∧ p.1 < f.nextMissionSeq ∧ p.2.missionId = p.1

def RobotIdsDistinct (f : Fleet) : Prop :=
  (f.robots.map Robot.robotId).Pairwise (· ≠ ·)

def KeysDistinct (f : Fleet) : Prop :=
  (f.missions.map Prod.fst).Pairwise (· ≠ ·)

/-- The linkage part of the fleet invariant.  Unlike the full invariant
it holds at every micro-step of an engine activation, including
mid-`setStatus`, where a robot's status is changed before its mission
id catches up. -/
def InvL (f : Fleet) : Prop :=
  (∀ r ∈ f.robots, RobotLink f r) ∧ (∀ p ∈ f.missions, MissionInv f p) ∧
  RobotIdsDistinct f ∧ KeysDistinct f

def FleetInv (f : Fleet) : Prop :=
  (∀ r ∈ f.robots, RobotLocal r) ∧ InvL f

/-- How one engine activation may change a fleet: same robot roster,
non-decreasing fresh-mission counter, existing missions persist with
non-decreasing progress and a fixed owner, and anomaly cooldowns never
move backwards. -/
def Evolves (f f' : Fleet) : Prop :=
  SameRobots f f' ∧
  f.nextMissionSeq ≤ f'.nextMissionSeq ∧
  (∀ mid m, mapGet f.missions mid = some m → ∃ m', mapGet f'.missions mid = some m' ∧
    m.progress ≤ m'.progress ∧ m'.robotId = m.robotId) ∧
  (∀ j kind, (f.robot j).anomalyCooldownUntilTs.get kind ≤
    (f'.robot j).anomalyCooldownUntilTs.get kind)

/-- What the JavaScript runtime guarantees about the environment:
`Math.random ∈ [0, 1)`, `Math.atan2` lands in `(-π, π]`, and π is π. -/
def EnvValid (env : Env) : Prop :=
  (∀ k, 0 ≤ env.random k ∧ env.random k < 1) ∧
  (∀ dy dx, -env.pi < env.atan2 dy dx ∧ env.atan2 dy dx ≤ env.pi) ∧
  3 < env.pi ∧ env.pi < 4

/-- The claimed continuous-attribute ranges, with the heading range as
the code actually maintains it: `(-π, 2π)`, not `[0, 2π)`. -/
def RobotNum (pi : ℚ) (r : Robot) : Prop :=
  0 ≤ r.battery ∧ r.battery ≤ 100 ∧ 0 ≤ r.speed ∧
  0 ≤ r.localizationConfidence ∧ r.localizationConfidence ≤ 1 ∧
  -pi < r.pose.heading ∧ r.pose.heading < 2 * pi

def NumInv (pi : ℚ) (f : Fleet) : Prop := ∀ r ∈ f.robots, RobotNum pi r

/-- The combined per-operation obligation: under the fleet invariant
the operation is an evolution step and re-establishes the invariant;
under a valid environment it also preserves the numeric ranges. -/
def StepOK (env : Env) (f f' : Fleet) : Prop :=
  (FleetInv f → Evolves f f' ∧ FleetInv f') ∧
  (EnvValid env → FleetInv f → NumInv env.pi f → NumInv env.pi f')

/-- The obligation of one internal micro-step of the per-robot engine
pipeline: it acts on robot `i` only, preserves the linkage invariant,
and keeps the numeric ranges.  The status/mission-id discipline of
robot `i` is re-established separately at the end of each pipeline
stage. -/
def SubStep (env : Env) (i : ℕ) (f f' : Fleet) : Prop :=
  (InvL f → Evolves f f' ∧ InvL f') ∧
  (∀ j, j ≠ i → f'.robot j = f.robot j) ∧
  f'.robots.length = f.robots.length ∧
  (EnvValid env → InvL f → NumInv env.pi f → NumInv env.pi f')


/-- A random source that always draws 0: every anomaly probability
roll succeeds ("always trigger"). -/
def zeroEnv : Env := { random := fun _ => 0, hypot := axisHypot, atan2 := axisAtan2, pi := piQ }

/-- A one-robot fleet whose robot is FAULT with all anomaly cooldowns
expired, at `now = 1000`. -/
def c6Robot : Robot :=
  { robotId := 0, status := .FAULT, battery := 50, temp := 30, speed := 0
    localizationConfidence := 0.9, lastHeartbeatTs := 1000, missionId := none, faults24h := 0
    pose := ⟨10, 10, 0⟩, sensors := ⟨.OK, .OK, .OK, .OK⟩, stuckUntilTs := none
    offlineUntilTs := none, anomalyCooldownUntilTs := ⟨0, 0, 0, 0, 0⟩ }

def c6Fleet : Fleet :=
  { mode := OpsMode.WAREHOUSE, robots := [c6Robot], missions := [], tick := 0
    updatedAtTs := 1000, modeChangedAtTs := 0, nextMissionSeq := 1, nextIncidentSeq := 1
    nextEventSeq := 1 }

/-- The value of `c6Fleet` after its sensor-fail anomaly fired (LIDAR
failed, the sensor-fail cooldown re-armed to 16000, one event and one
incident id consumed), re-timestamped to the exact instant the
sensor-fail cooldown expires. -/
def c6Fleet2 : Fleet :=
  { mode := OpsMode.WAREHOUSE
    robots := [{ robotId := 0, status := .FAULT, battery := 50, temp := 30, speed := 0
                 localizationConfidence := 0.9, lastHeartbeatTs := 1000, missionId := none
                 faults24h := 0, pose := ⟨10, 10, 0⟩
                 sensors := ⟨.FAIL, .OK, .OK, .OK⟩, stuckUntilTs := none
                 offlineUntilTs := none
                 anomalyCooldownUntilTs := ⟨0, 16000, 0, 0, 0⟩ }]
    missions := [], tick := 0, updatedAtTs := 16000, modeChangedAtTs := 0
    nextMissionSeq := 1, nextIncidentSeq := 2, nextEventSeq := 2 }

/-! ## Broker lemmas: sequencing and history -/

theorem publishedMsgs_append (a b : List SentRecord) :
    publishedMsgs (a ++ b) = publishedMsgs a ++ publishedMsgs b := by
  simp [publishedMsgs, List.filter_append]

theorem pushHistory_eq (maxHistory : ℕ) (s : BrokerState) (m : BrokerMsg) :
    (pushHistory maxHistory s m).messageHistory =
      (s.messageHistory ++ [m]).drop ((s.messageHistory ++ [m]).length - maxHistory) := by
  unfold pushHistory
  by_cases hc : maxHistory < (s.messageHistory ++ [m]).length
  · simp only [hc, if_true]
  · simp only [hc, if_false]
    rw [Nat.sub_eq_zero_of_le (Nat.le_of_not_lt hc), List.drop_zero]

/-- Re-evicting after one more append agrees with evicting once at the
end: the history "is" the suffix of everything ever pushed. -/
theorem drop_suffix_append (L : List BrokerMsg) (m : BrokerMsg) (maxHistory : ℕ) :
    ((L.drop (L.length - maxHistory) ++ [m]).drop
        ((L.drop (L.length - maxHistory) ++ [m]).length - maxHistory)) =
      (L ++ [m]).drop ((L ++ [m]).length - maxHistory) := by
  rcases Nat.lt_or_ge L.length maxHistory with hlt | hge
  · rw [Nat.sub_eq_zero_of_le (Nat.le_of_lt hlt), List.drop_zero]
  · have hL1len : (L.drop (L.length - maxHistory)).length = maxHistory := by
      rw [List.length_drop]; omega
    have happlen : (L.drop (L.length - maxHistory) ++ [m]).length = maxHistory + 1 := by
      simp [hL1len]
    rw [happlen]
    have h1 : maxHistory + 1 - maxHistory = 1 := by omega
    rw [h1]
    rcases Nat.eq_zero_or_pos maxHistory with hz | hpos
    · subst hz
      have : L.drop L.length = ([] : List BrokerMsg) := List.drop_length L
      simp [this]
    · have hdrop1 : (L.drop (L.length - maxHistory) ++ [m]).drop 1 =
          (L.drop (L.length - maxHistory)).drop 1 ++ [m] := by
        rw [List.drop_append_eq_append_drop]
        rw [Nat.sub_eq_zero_of_le (by omega : 1 ≤ (L.drop (L.length - maxHistory)).length)]
        rw [List.drop_zero]
      rw [hdrop1, List.drop_drop]
      have h2 : L.length - maxHistory + 1 = L.length + 1 - maxHistory := by omega
      rw [h2, List.drop_append_eq_append_drop]
      have hn : (L ++ [m]).length - maxHistory = L.length + 1 - maxHistory := by simp
      rw [hn]
      have hz2 : L.length + 1 - maxHistory - L.length = 0 := by omega
      rw [hz2, List.drop_zero]

theorem replayFrom_kinds (s : BrokerState) (now : ℚ) (lastStreamSeq : ℕ) :
    ∀ r ∈ replayFrom s now lastStreamSeq, r.kind ≠ SentKind.published := by
  intro r hr
  simp only [replayFrom] at hr
  split at hr
  · rcases List.mem_pair.mp hr with h | h <;> subst h <;> simp
  · split at hr
    · rcases List.mem_pair.mp hr with h | h <;> subst h <;> simp
    · split at hr
      · rcases List.mem_singleton.mp hr with h
        subst h; simp
      · rcases List.mem_map.mp hr with ⟨m, _, h⟩
        subst h; simp

theorem replayFrom_published_empty (s : BrokerState) (now : ℚ) (lastStreamSeq : ℕ) :
    publishedMsgs (replayFrom s now lastStreamSeq) = [] := by
  unfold publishedMsgs
  rw [List.filter_eq_nil_iff.mpr]
  · rfl
  · intro r hr
    simpa using replayFrom_kinds s now lastStreamSeq r hr

theorem pushHistory_streamSequence (maxHistory : ℕ) (s : BrokerState) (m : BrokerMsg) :
    (pushHistory maxHistory s m).streamSequence = s.streamSequence := rfl

theorem publish_build_hist (maxHistory : ℕ) (s : BrokerState) (now : ℚ) (b : MsgBody)
    (L : List BrokerMsg) (hL : s.messageHistory = L.drop (L.length - maxHistory)) :
    (publish maxHistory (buildMessage s now b).2 (buildMessage s now b).1).messageHistory =
      (L ++ [(buildMessage s now b).1]).drop
        ((L ++ [(buildMessage s now b).1]).length - maxHistory) := by
  have key := drop_suffix_append L (buildMessage s now b).1 maxHistory
  unfold publish
  rw [pushHistory_eq]
  have hh : (buildMessage s now b).2.messageHistory = L.drop (L.length - maxHistory) := hL
  rw [hh]
  exact key

/-- Per-activation bookkeeping: the counter advances by the number of
published facts, published facts get the consecutive next sequence
numbers, and the history is the capacity-suffix of everything published
so far. -/
theorem brokerStep_spec (maxHistory : ℕ) (s : BrokerState) (now : ℚ) (op : BrokerOp)
    (L : List BrokerMsg) (hL : s.messageHistory = L.drop (L.length - maxHistory)) :
    (brokerStep maxHistory s now op).1.streamSequence =
        s.streamSequence + (publishedMsgs (brokerStep maxHistory s now op).2).length ∧
    (publishedMsgs (brokerStep maxHistory s now op).2).map BrokerMsg.streamSeq =
        List.range' (s.streamSequence + 1)
          (publishedMsgs (brokerStep maxHistory s now op).2).length ∧
    (brokerStep maxHistory s now op).1.messageHistory =
        (L ++ publishedMsgs (brokerStep maxHistory s now op).2).drop
          ((L ++ publishedMsgs (brokerStep maxHistory s now op).2).length - maxHistory) := by
  cases op with
  | publishFact b =>
    refine ⟨rfl, rfl, ?_⟩
    exact publish_build_hist maxHistory s now b L hL
  | connect =>
    exact ⟨rfl, rfl, by rw [show publishedMsgs (brokerStep maxHistory s now .connect).2 = []
      from rfl, List.append_nil]; exact hL⟩
  | ping clientTs =>
    exact ⟨rfl, rfl, by rw [show publishedMsgs (brokerStep maxHistory s now (.ping clientTs)).2
      = [] from rfl, List.append_nil]; exact hL⟩
  | resume lastStreamSeq =>
    have hp : publishedMsgs (brokerStep maxHistory s now (.resume lastStreamSeq)).2 = [] :=
      replayFrom_published_empty s now lastStreamSeq
    refine ⟨?_, ?_, ?_⟩ <;> rw [hp] <;> simp [brokerStep, hL]
  | setMode switched =>
    cases switched with
    | false =>
      exact ⟨rfl, rfl, by rw [show publishedMsgs (brokerStep maxHistory s now (.setMode false)).2
        = [] from rfl, List.append_nil]; exact hL⟩
    | true =>
      have hpub : publishedMsgs (brokerStep maxHistory s now (.setMode true)).2 =
          [(buildMessage s now .event).1,
           (buildMessage (publish maxHistory (buildMessage s now .event).2
              (buildMessage s now .event).1) now .snapshot).1] := rfl
      refine ⟨rfl, rfl, ?_⟩
      rw [hpub]
      have h1 := publish_build_hist maxHistory s now .event L hL
      have h2 := publish_build_hist maxHistory
        (publish maxHistory (buildMessage s now MsgBody.event).2
          (buildMessage s now MsgBody.event).1) now .snapshot
        (L ++ [(buildMessage s now MsgBody.event).1]) h1
      exact h2.trans (by rw [List.append_assoc]; rfl)

theorem range'_add_append (a m n : ℕ) :
    List.range' a m ++ List.range' (a + m) n = List.range' a (m + n) := by
  induction m generalizing a with
  | zero => simp
  | succ m ih =>
    rw [List.range'_succ, Nat.succ_add, List.range'_succ, List.cons_append]
    have h : a + (m + 1) = a + 1 + m := by omega
    rw [h, ih (a + 1)]

/-- Whole-run bookkeeping, by induction over the activations. -/
theorem runBroker_spec (maxHistory : ℕ) (ops : List (BrokerOp × ℚ)) (s : BrokerState)
    (L : List BrokerMsg) (hL : s.messageHistory = L.drop (L.length - maxHistory)) :
    (runBroker maxHistory s ops).1.streamSequence =
        s.streamSequence + (publishedMsgs (runBroker maxHistory s ops).2).length ∧
    (publishedMsgs (runBroker maxHistory s ops).2).map BrokerMsg.streamSeq =
        List.range' (s.streamSequence + 1) (publishedMsgs (runBroker maxHistory s ops).2).length ∧
    (runBroker maxHistory s ops).1.messageHistory =
        (L ++ publishedMsgs (runBroker maxHistory s ops).2).drop
          ((L ++ publishedMsgs (runBroker maxHistory s ops).2).length - maxHistory) := by
  induction ops generalizing s L with
  | nil =>
    refine ⟨rfl, rfl, ?_⟩
    show s.messageHistory = (L ++ publishedMsgs []).drop _
    simpa [publishedMsgs] using hL
  | cons p rest ih =>
    obtain ⟨op, now⟩ := p
    obtain ⟨h1, h2, h3⟩ := brokerStep_spec maxHistory s now op L hL
    obtain ⟨h4, h5, h6⟩ := ih (brokerStep maxHistory s now op).1
      (L ++ publishedMsgs (brokerStep maxHistory s now op).2) h3
    have hrun : runBroker maxHistory s ((op, now) :: rest) =
        ((runBroker maxHistory (brokerStep maxHistory s now op).1 rest).1,
         (brokerStep maxHistory s now op).2 ++
           (runBroker maxHistory (brokerStep maxHistory s now op).1 rest).2) := rfl
    rw [hrun, publishedMsgs_append]
    refine ⟨?_, ?_, ?_⟩
    · rw [h4, h1]
      simp [Nat.add_assoc]
    · rw [List.map_append, h2, h5, h1, List.length_append]
      have harr : s.streamSequence + (publishedMsgs (brokerStep maxHistory s now op).2).length + 1 =
          s.streamSequence + 1 + (publishedMsgs (brokerStep maxHistory s now op).2).length := by
        omega
      rw [harr]
      exact range'_add_append (s.streamSequence + 1) _ _
    · rw [h6, List.append_assoc]

/-- Direct replies always carry `currentStreamSeq` (the last assigned
sequence number), without consuming a fresh one. -/
theorem brokerStep_directReply_seq (maxHistory : ℕ) (s : BrokerState) (now : ℚ) (op : BrokerOp)
    (r : SentRecord) (hm : r ∈ (brokerStep maxHistory s now op).2)
    (hk : r.kind = SentKind.directReply) : r.msg.streamSeq = currentStreamSeq s := by
  cases op with
  | publishFact b =>
    rcases List.mem_singleton.mp hm with h
    subst h; simp at hk
  | connect =>
    rcases List.mem_pair.mp hm with h | h <;> subst h <;> rfl
  | ping clientTs =>
    rcases List.mem_singleton.mp hm with h
    subst h; rfl
  | resume lastStreamSeq =>
    show r.msg.streamSeq = currentStreamSeq s
    have hr : r ∈ replayFrom s now lastStreamSeq := hm
    simp only [replayFrom] at hr
    split at hr
    · rcases List.mem_pair.mp hr with h | h <;> subst h <;> rfl
    · split at hr
      · rcases List.mem_pair.mp hr with h | h <;> subst h <;> rfl
      · split at hr
        · rcases List.mem_singleton.mp hr with h
          subst h; rfl
        · rcases List.mem_map.mp hr with ⟨m, _, h⟩
          subst h; simp at hk
  | setMode switched =>
    cases switched with
    | false => simp [brokerStep] at hm
    | true =>
      rcases List.mem_pair.mp hm with h | h <;> subst h <;> simp at hk

theorem range'_chain' (a n : ℕ) : (List.range' a n).Chain' (fun x y => y = x + 1) := by
  induction n generalizing a with
  | zero => simp
  | succ n ih =>
    rw [List.range'_succ]
    cases n with
    | zero => simp
    | succ m =>
      rw [List.range'_succ]
      exact List.Chain'.cons rfl (by rw [← List.range'_succ]; exact ih (a + 1))

theorem range'_pairwise_lt (a n : ℕ) : (List.range' a n).Pairwise (· < ·) := by
  induction n generalizing a with
  | zero => simp
  | succ n ih =>
    rw [List.range'_succ]
    refine List.Pairwise.cons ?_ (ih (a + 1))
    intro b hb
    have := List.mem_range'_1.mp hb
    omega

theorem range'_drop (j a n : ℕ) :
    (List.range' a n).drop j = List.range' (a + j) (n - j) := by
  induction j generalizing a n with
  | zero => simp
  | succ j ih =>
    cases n with
    | zero => simp
    | succ m =>
      rw [List.range'_succ]
      show (List.range' (a + 1) m).drop j = _
      rw [ih (a + 1) m]
      have h : a + 1 + j = a + (j + 1) := by omega
      rw [h, Nat.succ_sub_succ]

/-- C1 — corrected.  Amended claim, proved here: facts that go through
`publish` receive `streamSeq = previous + 1`, i.e. the published stream
carries the consecutive values 1, 2, … with no gaps and no repeats (so
each `(streamSeq, serverTs)` pair is assigned to at most one published
fact); directly-built replies (connect greetings, ping replies, resume
fallbacks) instead carry the current last-assigned sequence number
without consuming a fresh one, and so may repeat it. -/
theorem c1_stream_sequencing (maxHistory : ℕ) (ops : List (BrokerOp × ℚ)) :
    ((publishedMsgs (runBroker maxHistory initialBrokerState ops).2).map BrokerMsg.streamSeq =
      List.range' 1 (publishedMsgs (runBroker maxHistory initialBrokerState ops).2).length) ∧
    ((publishedMsgs (runBroker maxHistory initialBrokerState ops).2).Pairwise
      (fun m1 m2 => m1.streamSeq ≠ m2.streamSeq)) ∧
    (∀ (s : BrokerState) (now : ℚ) (op : BrokerOp) (r : SentRecord),
      r ∈ (brokerStep maxHistory s now op).2 → r.kind = SentKind.directReply →
      r.msg.streamSeq = currentStreamSeq s) := by
  obtain ⟨-, h2, -⟩ := runBroker_spec maxHistory ops initialBrokerState [] (by simp [initialBrokerState])
  refine ⟨h2, ?_, fun s now op r hm hk => brokerStep_directReply_seq maxHistory s now op r hm hk⟩
  have hp : ((publishedMsgs (runBroker maxHistory initialBrokerState ops).2).map
      BrokerMsg.streamSeq).Pairwise (· < ·) := by
    rw [h2]; exact range'_pairwise_lt _ _
  exact (List.pairwise_map.mp hp).imp (fun h => Nat.ne_of_lt h)

/-- C1 counterexample: the claim as stated is false.  After a single
published fact (streamSeq 1), a client connection sends a direct
Snapshot and a direct Heartbeat that both also carry streamSeq 1: three
pairwise-distinct outbound facts share one streamSeq. -/
theorem c1_counterexample :
    c1Trace.map (fun r => r.msg.streamSeq) = [1, 1, 1] ∧
    c1Trace.getD 1 ⟨⟨0, 0, .snapshot⟩, .published⟩ ≠
      c1Trace.getD 2 ⟨⟨0, 0, .snapshot⟩, .published⟩ := by
  with_unfolding_all decide

/-- Witness for C1: the third conjunct applied at a concrete state —
a connect reply at `streamSequence = 1` carries streamSeq 1. -/
theorem c1_stream_sequencing_witness :
    (⟨⟨1, 6, .snapshot⟩, .directReply⟩ : SentRecord).msg.streamSeq =
      currentStreamSeq ⟨1, []⟩ := by
  exact (c1_stream_sequencing 2000 []).2.2 ⟨1, []⟩ 6 .connect
    ⟨⟨1, 6, .snapshot⟩, .directReply⟩ (by with_unfolding_all decide) rfl

/-- C4 — confirmed: after any sequence of publishes the history buffer
is exactly the capacity-bounded suffix of the published stream: at most
`STREAM_HISTORY_MAX` facts are retained, eviction removes only the
oldest entries, and the retained facts carry strictly increasing
consecutive `streamSeq` values (a contiguous range). -/
theorem c4_history_buffer (maxHistory : ℕ) (ops : List (BrokerOp × ℚ)) :
    ((runBroker maxHistory initialBrokerState ops).1.messageHistory =
        (publishedMsgs (runBroker maxHistory initialBrokerState ops).2).drop
          ((publishedMsgs (runBroker maxHistory initialBrokerState ops).2).length - maxHistory)) ∧
    (runBroker maxHistory initialBrokerState ops).1.messageHistory.length ≤ maxHistory ∧
    (((runBroker maxHistory initialBrokerState ops).1.messageHistory.map
        BrokerMsg.streamSeq).Chain' (fun a b => b = a + 1)) := by
  obtain ⟨-, h2, h3⟩ := runBroker_spec maxHistory ops initialBrokerState [] (by simp [initialBrokerState])
  have hh : (runBroker maxHistory initialBrokerState ops).1.messageHistory =
      (publishedMsgs (runBroker maxHistory initialBrokerState ops).2).drop
        ((publishedMsgs (runBroker maxHistory initialBrokerState ops).2).length - maxHistory) := by
    simpa using h3
  refine ⟨hh, ?_, ?_⟩
  · rw [hh, List.length_drop]
    omega
  · rw [hh, List.map_drop, h2, range'_drop]
    exact range'_chain' _ _

/-! ## Resume protocol (C2) -/

theorem pairwise_le_getLastD (l : List BrokerMsg) (d : BrokerMsg)
    (h : (l.map BrokerMsg.streamSeq).Pairwise (· < ·)) :
    ∀ m ∈ l, m.streamSeq ≤ (l.getLastD d).streamSeq := by
  induction l generalizing d with
  | nil => simp
  | cons a t ih =>
    intro m hm
    rw [List.getLastD_cons]
    rcases List.mem_cons.mp hm with rfl | hm
    · rcases List.mem_cons.mp (List.getLastD_mem_cons t m) with heq | hmem
      · rw [heq]
      · exact Nat.le_of_lt ((List.pairwise_cons.mp h).1 (t.getLastD m).streamSeq
          (List.mem_map_of_mem BrokerMsg.streamSeq hmem))
    · exact ih a (List.pairwise_cons.mp h).2 m hm

/-- C2 — confirmed.  With the history buffer sorted by `streamSeq`
(which the broker maintains), a resume request has exactly the three
claimed outcomes: (a) empty buffer or requested sequence outside
`[oldest − 1, newest]` → fresh Snapshot then a reason-tagged Heartbeat
and no replayed facts; (b) otherwise all retained facts with strictly
greater `streamSeq` are re-sent in ascending order; (c) if there are
none, a single no-gap Heartbeat.  In particular resuming at the current
maximum replays zero facts, and resuming two below the oldest retained
sequence yields a Snapshot, not a partial replay. -/
theorem c2_resume_protocol (s : BrokerState) (now : ℚ) (lastStreamSeq : ℕ)
    (hsorted : (s.messageHistory.map BrokerMsg.streamSeq).Pairwise (· < ·)) :
    (s.messageHistory = [] →
      replayFrom s now lastStreamSeq =
        [⟨buildDirectMessage s now .snapshot, .directReply⟩,
         ⟨buildDirectMessage s now (.heartbeat (some "resume-empty-history") none),
           .directReply⟩]) ∧
    (s.messageHistory ≠ [] →
      ((((lastStreamSeq : ℤ) <
            ((s.messageHistory.headD ⟨0, 0, .snapshot⟩).streamSeq : ℤ) - 1 ∨
          (s.messageHistory.getLastD ⟨0, 0, .snapshot⟩).streamSeq < lastStreamSeq) →
        replayFrom s now lastStreamSeq =
          [⟨buildDirectMessage s now .snapshot, .directReply⟩,
           ⟨buildDirectMessage s now (.heartbeat (some "resume-out-of-range") none),
             .directReply⟩]) ∧
      ((((s.messageHistory.headD ⟨0, 0, .snapshot⟩).streamSeq : ℤ) - 1 ≤ (lastStreamSeq : ℤ) →
        lastStreamSeq ≤ (s.messageHistory.getLastD ⟨0, 0, .snapshot⟩).streamSeq →
        s.messageHistory.filter (fun m => lastStreamSeq < m.streamSeq) ≠ [] →
        (replayFrom s now lastStreamSeq =
            (s.messageHistory.filter (fun m => lastStreamSeq < m.streamSeq)).map
              (fun m => ⟨m, SentKind.replayed⟩) ∧
          ((s.messageHistory.filter (fun m => lastStreamSeq < m.streamSeq)).map
              BrokerMsg.streamSeq).Pairwise (· < ·)))) ∧
      ((((s.messageHistory.headD ⟨0, 0, .snapshot⟩).streamSeq : ℤ) - 1 ≤ (lastStreamSeq : ℤ) →
        lastStreamSeq ≤ (s.messageHistory.getLastD ⟨0, 0, .snapshot⟩).streamSeq →
        s.messageHistory.filter (fun m => lastStreamSeq < m.streamSeq) = [] →
        replayFrom s now lastStreamSeq =
          [⟨buildDirectMessage s now (.heartbeat (some "resume-no-gap") none),
            .directReply⟩])) ∧
      (lastStreamSeq = (s.messageHistory.getLastD ⟨0, 0, .snapshot⟩).streamSeq →
        replayFrom s now lastStreamSeq =
          [⟨buildDirectMessage s now (.heartbeat (some "resume-no-gap") none),
            .directReply⟩]) ∧
      ((lastStreamSeq : ℤ) =
          ((s.messageHistory.headD ⟨0, 0, .snapshot⟩).streamSeq : ℤ) - 2 →
        replayFrom s now lastStreamSeq =
          [⟨buildDirectMessage s now .snapshot, .directReply⟩,
           ⟨buildDirectMessage s now (.heartbeat (some "resume-out-of-range") none),
             .directReply⟩]))) := by
  have hnotempty : s.messageHistory = [] ∨ s.messageHistory.isEmpty = false := by
    cases s.messageHistory with
    | nil => exact Or.inl rfl
    | cons a t => exact Or.inr rfl
  constructor
  · intro he
    unfold replayFrom
    rw [if_pos (by rw [he]; rfl)]
  · intro hne
    have hemp : s.messageHistory.isEmpty = false := by
      rcases hnotempty with h | h
      · exact absurd h hne
      · exact h
    have hout : (((lastStreamSeq : ℤ) <
          ((s.messageHistory.headD ⟨0, 0, .snapshot⟩).streamSeq : ℤ) - 1 ∨
        (s.messageHistory.getLastD ⟨0, 0, .snapshot⟩).streamSeq < lastStreamSeq)) →
        replayFrom s now lastStreamSeq =
          [⟨buildDirectMessage s now .snapshot, .directReply⟩,
           ⟨buildDirectMessage s now (.heartbeat (some "resume-out-of-range") none),
             .directReply⟩] := by
      intro hcond
      unfold replayFrom
      rw [if_neg (by simp [hemp]), if_pos hcond]
    have hin : ((s.messageHistory.headD ⟨0, 0, .snapshot⟩).streamSeq : ℤ) - 1 ≤
          (lastStreamSeq : ℤ) →
        lastStreamSeq ≤ (s.messageHistory.getLastD ⟨0, 0, .snapshot⟩).streamSeq →
        replayFrom s now lastStreamSeq =
          (if (s.messageHistory.filter (fun m => lastStreamSeq < m.streamSeq)).isEmpty then
            [⟨buildDirectMessage s now (.heartbeat (some "resume-no-gap") none),
              .directReply⟩]
          else
            (s.messageHistory.filter (fun m => lastStreamSeq < m.streamSeq)).map
              (fun m => ⟨m, SentKind.replayed⟩)) := by
      intro hlo hhi
      unfold replayFrom
      rw [if_neg (by simp [hemp])]
      rw [if_neg (by push_neg; exact ⟨by omega, hhi⟩)]
    refine ⟨hout, ?_, ?_, ?_, ?_⟩
    · intro hlo hhi hf
      have hfe : (s.messageHistory.filter
          (fun m => lastStreamSeq < m.streamSeq)).isEmpty = false := by
        cases he : s.messageHistory.filter (fun m => decide (lastStreamSeq < m.streamSeq)) with
        | nil => exact absurd he hf
        | cons a t => rfl
      rw [hin hlo hhi, if_neg (by simp [hfe])]
      refine ⟨rfl, ?_⟩
      exact List.Pairwise.sublist ((List.filter_sublist _).map BrokerMsg.streamSeq) hsorted
    · intro hlo hhi hf
      rw [hin hlo hhi, if_pos (by rw [hf]; rfl)]
    · intro heq
      have hmemhead : s.messageHistory.headD ⟨0, 0, .snapshot⟩ ∈ s.messageHistory := by
        cases hh : s.messageHistory with
        | nil => exact absurd hh hne
        | cons a t => simp
      have hle := pairwise_le_getLastD s.messageHistory ⟨0, 0, .snapshot⟩ hsorted
      have hlo : ((s.messageHistory.headD ⟨0, 0, .snapshot⟩).streamSeq : ℤ) - 1 ≤
          (lastStreamSeq : ℤ) := by
        have := hle _ hmemhead
        omega
      have hf : s.messageHistory.filter (fun m => lastStreamSeq < m.streamSeq) = [] := by
        rw [List.filter_eq_nil_iff]
        intro m hm
        have := hle m hm
        simp only [decide_eq_true_eq]
        omega
      rw [hin hlo (by omega), if_pos (by rw [hf]; rfl)]
    · intro heq2
      exact hout (Or.inl (by omega))

/-- Witness for C2: a history retaining sequences 5 and 6, resumed with
`lastStreamSeq = 6` (the current maximum), replays zero facts and sends
the single no-gap Heartbeat. -/
theorem c2_resume_protocol_witness :
    ((c2State.messageHistory.map BrokerMsg.streamSeq).Pairwise (· < ·)) ∧
    replayFrom c2State 12 6 =
      [⟨buildDirectMessage c2State 12 (.heartbeat (some "resume-no-gap") none),
        .directReply⟩] := by
  have hs : (c2State.messageHistory.map BrokerMsg.streamSeq).Pairwise (· < ·) := by
    with_unfolding_all decide
  refine ⟨hs, ?_⟩
  have h := (c2_resume_protocol c2State 12 6 hs).2 (by with_unfolding_all decide)
  exact h.2.2.2.1 (by with_unfolding_all decide)

/-! ## Engine frame lemmas: the robot roster is fixed

Every engine operation rewrites robot fields in place; none adds,
removes or re-identifies robots.  `SameRobots` records that the list of
robot ids (hence also the robot count) is unchanged. -/

theorem sameRobots_rfl {f : Fleet} : SameRobots f f := Eq.refl _

theorem sameRobots_trans {f g h : Fleet} (h1 : SameRobots f g) (h2 : SameRobots g h) :
    SameRobots f h := Eq.trans h2 h1

theorem sameRobots_length {f f' : Fleet} (h : SameRobots f f') :
    f'.robots.length = f.robots.length := by
  have := congrArg List.length h
  simpa using this

theorem map_robotId_set (l : List Robot) (i : ℕ) (r : Robot)
    (h : r.robotId = (l.getD i dummyRobot).robotId) :
    (l.set i r).map Robot.robotId = l.map Robot.robotId := by
  induction l generalizing i with
  | nil => rfl
  | cons a t ih =>
    cases i with
    | zero =>
      simp only [List.getD_cons_zero] at h
      simp [List.set, h]
    | succ j =>
      simp only [List.getD_cons_succ] at h
      simp [List.set, ih j h]

theorem sameRobots_setRobot (f : Fleet) (i : ℕ) (r : Robot)
    (h : r.robotId = (f.robot i).robotId) : SameRobots f (f.setRobot i r) :=
  map_robotId_set f.robots i r h

theorem mutateMission_robots (f : Fleet) (mid : ℕ) (g : Mission → Mission) :
    (f.mutateMission mid g).robots = f.robots := by
  unfold Fleet.mutateMission
  cases mapGet f.missions mid <;> rfl

theorem sameRobots_mutateMission (f : Fleet) (mid : ℕ) (g : Mission → Mission) :
    SameRobots f (f.mutateMission mid g) := by
  show (f.mutateMission mid g).robots.map _ = _
  rw [mutateMission_robots]

theorem robot_setRobot_ne_missions (f : Fleet) (ms : List (ℕ × Mission)) (i : ℕ) :
    ({ f with missions := ms } : Fleet).robot i = f.robot i := rfl

theorem sameRobots_createMissionForRobot (env : Env) (f : Fleet) (i : ℕ) (now : ℚ)
    (st : MissionStatus) (k : ℕ) :
    SameRobots f (createMissionForRobot env f i now st k).1 := by
  unfold createMissionForRobot
  cases hgm : getMissionForRobot f (f.robot i) with
  | none =>
    simp only [hgm]
    exact sameRobots_setRobot _ i _ rfl
  | some em =>
    simp only [hgm]
    split
    · exact sameRobots_setRobot _ i _ rfl
    · exact sameRobots_setRobot _ i _ rfl

theorem sameRobots_ensureMissionForRobot (env : Env) (f : Fleet) (i : ℕ) (now : ℚ)
    (st : MissionStatus) (k : ℕ) :
    SameRobots f (ensureMissionForRobot env f i now st k).1 := by
  unfold ensureMissionForRobot
  cases hgm : getMissionForRobot f (f.robot i) with
  | none => exact sameRobots_createMissionForRobot env f i now st k
  | some em => exact sameRobots_rfl

theorem getD_set_self {α : Type} (l : List α) (i : ℕ) (r d : α) (h : i < l.length) :
    (l.set i r).getD i d = r := by
  induction l generalizing i with
  | nil => simp at h
  | cons a t ih =>
    cases i with
    | zero => rfl
    | succ j => exact ih j (by simpa using h)

theorem getD_set_ne {α : Type} (l : List α) (i j : ℕ) (r d : α) (h : j ≠ i) :
    (l.set i r).getD j d = l.getD j d := by
  induction l generalizing i j with
  | nil => rfl
  | cons a t ih =>
    cases i with
    | zero =>
      cases j with
      | zero => exact absurd rfl h
      | succ j' => rfl
    | succ i' =>
      cases j with
      | zero => rfl
      | succ j' => exact ih i' j' (by omega)

theorem set_oob {α : Type} (l : List α) (i : ℕ) (r : α) (h : l.length ≤ i) :
    l.set i r = l := by
  induction l generalizing i with
  | nil => rfl
  | cons a t ih =>
    cases i with
    | zero => simp at h
    | succ j => simp [List.set, ih j (by simpa using h)]

theorem setRobot_oob (f : Fleet) (i : ℕ) (r : Robot) (h : f.robots.length ≤ i) :
    f.setRobot i r = f := by
  unfold Fleet.setRobot
  rw [set_oob f.robots i r h]

theorem robot_setRobot_self (f : Fleet) (i : ℕ) (r : Robot) (h : i < f.robots.length) :
    (f.setRobot i r).robot i = r :=
  getD_set_self f.robots i r dummyRobot h

theorem robot_setRobot_ne (f : Fleet) (i j : ℕ) (r : Robot) (h : j ≠ i) :
    (f.setRobot i r).robot j = f.robot j :=
  getD_set_ne f.robots i j r dummyRobot h

/-! ### Mission-map lemmas -/

theorem find?_map_key (ms : List (ℕ × Mission)) (k : ℕ) (v : Mission)
    (h : (ms.find? (fun p => p.1 = k)).isSome) :
    (ms.map (fun p => if p.1 = k then (k, v) else p)).find? (fun p => p.1 = k) =
      some (k, v) := by
  induction ms with
  | nil => simp at h
  | cons p t ih =>
    by_cases hp : p.1 = k
    · simp [List.find?, hp]
    · rw [List.map_cons, if_neg hp]
      rw [List.find?_cons_of_neg _ (by simpa using hp)]
      rw [List.find?_cons_of_neg _ (by simpa using hp)] at h
      exact ih h

theorem mapGet_mapSet_self (ms : List (ℕ × Mission)) (k : ℕ) (v : Mission) :
    mapGet (mapSet ms k v) k = some v := by
  unfold mapSet
  by_cases h : (ms.find? (fun p => p.1 = k)).isSome
  · rw [if_pos h]
    unfold mapGet
    rw [find?_map_key ms k v h]
    rfl
  · rw [if_neg h]
    have hnone : ms.find? (fun p => p.1 = k) = none := by
      cases hf : ms.find? (fun p => p.1 = k) with
      | none => rfl
      | some q => rw [hf] at h; simp at h
    clear h
    induction ms with
    | nil => simp [mapGet, List.find?]
    | cons p t ih =>
      have hp : ¬ (p.1 = k) := by
        intro hk
        rw [List.find?_cons_of_pos _ (by simpa using hk)] at hnone
        exact Option.noConfusion hnone
      rw [List.find?_cons_of_neg _ (by simpa using hp)] at hnone
      unfold mapGet
      rw [List.cons_append, List.find?_cons_of_neg _ (by simpa using hp)]
      exact ih hnone

theorem mapGet_mapSet_ne (ms : List (ℕ × Mission)) (k k' : ℕ) (v : Mission) (h : k' ≠ k) :
    mapGet (mapSet ms k v) k' = mapGet ms k' := by
  unfold mapSet
  by_cases hf : (ms.find? (fun p => p.1 = k)).isSome
  · rw [if_pos hf]
    unfold mapGet
    clear hf
    induction ms with
    | nil => rfl
    | cons p t ih =>
      by_cases hp : p.1 = k
      · rw [List.map_cons, if_pos hp]
        rw [List.find?_cons_of_neg _ (by simpa using h.symm)]
        rw [List.find?_cons_of_neg _ (by rw [hp]; simpa using h.symm)]
        exact ih
      · rw [List.map_cons, if_neg hp]
        by_cases hp' : p.1 = k'
        · rw [List.find?_cons_of_pos _ (by simpa using hp'),
            List.find?_cons_of_pos _ (by simpa using hp')]
        · rw [List.find?_cons_of_neg _ (by simpa using hp'),
            List.find?_cons_of_neg _ (by simpa using hp')]
          exact ih
  · rw [if_neg hf]
    unfold mapGet
    rw [List.find?_append]
    cases hq : ms.find? (fun p => p.1 = k') with
    | some q => simp [hq]
    | none =>
      simp [hq]
      intro hk
      exact absurd hk.symm h

theorem mem_mapSet (ms : List (ℕ × Mission)) (k : ℕ) (v : Mission) (p : ℕ × Mission)
    (h : p ∈ mapSet ms k v) : p = (k, v) ∨ p ∈ ms := by
  unfold mapSet at h
  by_cases hf : (ms.find? (fun q => q.1 = k)).isSome
  · rw [if_pos hf] at h
    rcases List.mem_map.mp h with ⟨q, hq, hpq⟩
    by_cases hqk : q.1 = k
    · rw [if_pos hqk] at hpq
      exact Or.inl hpq.symm
    · rw [if_neg hqk] at hpq
      exact Or.inr (hpq ▸ hq)
  · rw [if_neg hf] at h
    rcases List.mem_append.mp h with h | h
    · exact Or.inr h
    · exact Or.inl (List.mem_singleton.mp h)

theorem keys_mapSet_present (ms : List (ℕ × Mission)) (k : ℕ) (v : Mission)
    (h : (ms.find? (fun p => p.1 = k)).isSome) :
    (mapSet ms k v).map Prod.fst = ms.map Prod.fst := by
  unfold mapSet
  rw [if_pos h, List.map_map]
  apply List.map_congr_left
  intro p _
  by_cases hp : p.1 = k
  · simp [hp]
  · simp [hp]

theorem keys_mapSet_absent (ms : List (ℕ × Mission)) (k : ℕ) (v : Mission)
    (h : ¬ (ms.find? (fun p => p.1 = k)).isSome) :
    (mapSet ms k v).map Prod.fst = ms.map Prod.fst ++ [k] := by
  unfold mapSet
  rw [if_neg h, List.map_append]
  rfl

theorem find?_none_of_keys_lt (ms : List (ℕ × Mission)) (n : ℕ)
    (h : ∀ p ∈ ms, p.1 < n) : ms.find? (fun p => p.1 = n) = none := by
  rw [List.find?_eq_none]
  intro p hp
  simp only [decide_eq_true_eq]
  exact Nat.ne_of_lt (h p hp)

theorem mapGet_none_of_keys_lt (ms : List (ℕ × Mission)) (n : ℕ)
    (h : ∀ p ∈ ms, p.1 < n) : mapGet ms n = none := by
  unfold mapGet
  rw [find?_none_of_keys_lt ms n h]
  rfl

theorem mapGet_mem (ms : List (ℕ × Mission)) (k : ℕ) (m : Mission)
    (h : mapGet ms k = some m) : (k, m) ∈ ms ∧ ∃ p ∈ ms, p.1 = k ∧ p.2 = m := by
  unfold mapGet at h
  cases hf : ms.find? (fun p => p.1 = k) with
  | none => rw [hf] at h; exact Option.noConfusion h
  | some q =>
    rw [hf] at h
    have hq1 : q.1 = k := by simpa using List.find?_some hf
    have hq2 : q.2 = m := by simpa using h
    have hmem := List.mem_of_find?_eq_some hf
    refine ⟨?_, q, hmem, hq1, hq2⟩
    have : q = (k, m) := by
      cases q
      simp only at hq1 hq2
      rw [hq1, hq2]
    exact this ▸ hmem

/-! ### Evolves basics -/

theorem evolves_refl (f : Fleet) : Evolves f f :=
  ⟨sameRobots_rfl, Nat.le_refl _,
   fun mid m h => ⟨m, h, le_refl _, rfl⟩, fun _ _ => le_refl _⟩

theorem evolves_trans {f g h : Fleet} (h1 : Evolves f g) (h2 : Evolves g h) :
    Evolves f h := by
  obtain ⟨ha1, hb1, hc1, hd1⟩ := h1
  obtain ⟨ha2, hb2, hc2, hd2⟩ := h2
  refine ⟨sameRobots_trans ha1 ha2, le_trans hb1 hb2, ?_, fun j kind =>
    le_trans (hd1 j kind) (hd2 j kind)⟩
  intro mid m hm
  obtain ⟨m', hm', hp', hr'⟩ := hc1 mid m hm
  obtain ⟨m'', hm'', hp'', hr''⟩ := hc2 mid m' hm'
  exact ⟨m'', hm'', le_trans hp' hp'', hr''.trans hr'⟩

theorem evolves_setRobot (f : Fleet) (i : ℕ) (r : Robot)
    (hid : r.robotId = (f.robot i).robotId)
    (hcd : ∀ kind, (f.robot i).anomalyCooldownUntilTs.get kind ≤
      r.anomalyCooldownUntilTs.get kind) :
    Evolves f (f.setRobot i r) := by
  refine ⟨sameRobots_setRobot f i r hid, le_refl _,
    fun mid m h => ⟨m, h, le_refl _, rfl⟩, ?_⟩
  intro j kind
  rcases Nat.lt_or_ge i f.robots.length with hi | hi
  · by_cases hj : j = i
    · subst hj
      rw [robot_setRobot_self f j r hi]
      exact hcd kind
    · rw [robot_setRobot_ne f i j r hj]
  · rw [setRobot_oob f i r hi]

theorem evolves_mutateMission (f : Fleet) (mid : ℕ) (g : Mission → Mission)
    (hg : ∀ m, mapGet f.missions mid = some m →
      m.progress ≤ (g m).progress ∧ (g m).robotId = m.robotId) :
    Evolves f (f.mutateMission mid g) := by
  unfold Fleet.mutateMission
  cases hq : mapGet f.missions mid with
  | none => exact evolves_refl f
  | some m0 =>
    refine ⟨sameRobots_rfl, le_refl _, ?_, fun _ _ => le_refl _⟩
    intro mid' m hm
    by_cases h : mid' = mid
    · subst h
      rw [hq] at hm
      cases hm
      exact ⟨g m0, mapGet_mapSet_self f.missions mid' (g m0), (hg m0 hq).1, (hg m0 hq).2⟩
    · refine ⟨m, ?_, le_refl _, rfl⟩
      show mapGet (mapSet f.missions mid (g m0)) mid' = some m
      rw [mapGet_mapSet_ne f.missions mid mid' (g m0) h]
      exact hm

theorem mapGet_isSome_find? (ms : List (ℕ × Mission)) (k : ℕ) (m : Mission)
    (h : mapGet ms k = some m) : (ms.find? (fun p => p.1 = k)).isSome := by
  unfold mapGet at h
  cases hf : ms.find? (fun p => p.1 = k) with
  | none => rw [hf] at h; exact Option.noConfusion h
  | some q => rfl


/-- `RobotLink` only inspects a robot's own fields and the owner of its
mission; it transfers along any map change that preserves owners. -/
theorem RobotLink_transfer {f f' : Fleet}
    (hmap : ∀ mid m, mapGet f.missions mid = some m →
      ∃ m', mapGet f'.missions mid = some m' ∧ m'.robotId = m.robotId) (r : Robot)
    (h : RobotLink f r) : RobotLink f' r := by
  intro mid hmid
  have hl := h mid hmid
  cases hq : mapGet f.missions mid with
  | none => rw [hq] at hl; exact Option.noConfusion hl
  | some mm =>
    rw [hq] at hl
    obtain ⟨m', hm', hr'⟩ := hmap mid mm hq
    rw [hm']
    simp only [Option.map_some']
    rw [hr']
    exact hl

theorem stepOK_refl (env : Env) (f : Fleet) : StepOK env f f :=
  ⟨fun h => ⟨evolves_refl f, h⟩, fun _ _ h => h⟩

theorem stepOK_trans {env : Env} {f g h : Fleet} (h1 : StepOK env f g) (h2 : StepOK env g h) :
    StepOK env f h := by
  refine ⟨?_, ?_⟩
  · intro hInv
    obtain ⟨hev1, hInv1⟩ := h1.1 hInv
    obtain ⟨hev2, hInv2⟩ := h2.1 hInv1
    exact ⟨evolves_trans hev1 hev2, hInv2⟩
  · intro hval hInv hnum
    obtain ⟨-, hInv1⟩ := h1.1 hInv
    exact h2.2 hval hInv1 (h1.2 hval hInv hnum)

theorem subStep_refl (env : Env) (i : ℕ) (f : Fleet) : SubStep env i f f :=
  ⟨fun h => ⟨evolves_refl f, h⟩, fun _ _ => rfl, rfl, fun _ _ h => h⟩

theorem subStep_trans {env : Env} {i : ℕ} {f g h : Fleet} (h1 : SubStep env i f g)
    (h2 : SubStep env i g h) : SubStep env i f h := by
  refine ⟨?_, ?_, h2.2.2.1.trans h1.2.2.1, ?_⟩
  · intro hInv
    obtain ⟨hev1, hInv1⟩ := h1.1 hInv
    obtain ⟨hev2, hInv2⟩ := h2.1 hInv1
    exact ⟨evolves_trans hev1 hev2, hInv2⟩
  · intro j hj
    rw [h2.2.1 j hj, h1.2.1 j hj]
  · intro hval hInv hnum
    obtain ⟨-, hInv1⟩ := h1.1 hInv
    exact h2.2.2.2 hval hInv1 (h1.2.2.2 hval hInv hnum)

theorem subStep_setRobot (env : Env) (f : Fleet) (i : ℕ) (r : Robot)
    (hid : r.robotId = (f.robot i).robotId)
    (hcd : ∀ kind, (f.robot i).anomalyCooldownUntilTs.get kind ≤
      r.anomalyCooldownUntilTs.get kind)
    (hlink : InvL f → RobotLink f r)
    (hnum : EnvValid env → InvL f → NumInv env.pi f → RobotNum env.pi r) :
    SubStep env i f (f.setRobot i r) := by
  refine ⟨?_, ?_, ?_, ?_⟩
  · intro hInv
    refine ⟨evolves_setRobot f i r hid hcd, ?_⟩
    obtain ⟨hrob, hmis, hids, hkeys⟩ := hInv
    refine ⟨?_, hmis, ?_, hkeys⟩
    · intro rr hrr
      rcases List.mem_or_eq_of_mem_set hrr with hmem | heq
      · exact hrob rr hmem
      · subst heq
        exact hlink ⟨hrob, hmis, hids, hkeys⟩
    · show ((f.setRobot i r).robots.map Robot.robotId).Pairwise (· ≠ ·)
      rw [sameRobots_setRobot f i r hid]
      exact hids
  · intro j hj
    exact robot_setRobot_ne f i j r hj
  · show (f.robots.set i r).length = f.robots.length
    exact List.length_set f.robots i r
  · intro hval hInv hnum'
    intro rr hrr
    rcases List.mem_or_eq_of_mem_set hrr with hmem | heq
    · exact hnum' rr hmem
    · subst heq
      exact hnum hval hInv hnum'

theorem subStep_mutateMission (env : Env) (i : ℕ) (f : Fleet) (mid : ℕ)
    (g : Mission → Mission)
    (hg : InvL f → ∀ m, mapGet f.missions mid = some m →
      m.progress ≤ (g m).progress ∧ (g m).robotId = m.robotId ∧
      (g m).missionId = m.missionId)
    (hgv : InvL f → ∀ m, mapGet f.missions mid = some m → MissionVal m → MissionVal (g m)) :
    SubStep env i f (f.mutateMission mid g) := by
  refine ⟨?_, ?_, ?_, ?_⟩
  · intro hInv
    have hg' := hg hInv
    have hgv' := hgv hInv
    have hev := evolves_mutateMission f mid g (fun m hm => ⟨(hg' m hm).1, (hg' m hm).2.1⟩)
    refine ⟨hev, ?_⟩
    obtain ⟨hrob, hmis, hids, hkeys⟩ := hInv
    refine ⟨?_, ?_, ?_, ?_⟩
    · intro rr hrr
      rw [show (f.mutateMission mid g).robots = f.robots from mutateMission_robots f mid g]
        at hrr
      exact RobotLink_transfer (fun mid' m hm =>
        (hev.2.2.1 mid' m hm).elim (fun m' hm' => ⟨m', hm'.1, hm'.2.2⟩)) rr (hrob rr hrr)
    · intro p hp
      unfold Fleet.mutateMission at hp ⊢
      cases hq : mapGet f.missions mid with
      | none =>
        rw [hq] at hp
        exact hmis p hp
      | some m0 =>
        rw [hq] at hp
        rcases mem_mapSet _ _ _ p hp with heq | hmem
        · subst heq
          obtain ⟨hmem0, -⟩ := mapGet_mem f.missions mid m0 hq
          have hMI := hmis (mid, m0) hmem0
          exact ⟨hgv' m0 hq hMI.1, hMI.2.1, by
            show (g m0).missionId = mid
            rw [(hg' m0 hq).2.2]
            exact hMI.2.2⟩
        · exact hmis p hmem
    · show ((f.mutateMission mid g).robots.map Robot.robotId).Pairwise (· ≠ ·)
      rw [mutateMission_robots f mid g]
      exact hids
    · show ((f.mutateMission mid g).missions.map Prod.fst).Pairwise (· ≠ ·)
      unfold Fleet.mutateMission
      cases hq : mapGet f.missions mid with
      | none => exact hkeys
      | some m0 =>
        show ((mapSet f.missions mid (g m0)).map Prod.fst).Pairwise (· ≠ ·)
        rw [keys_mapSet_present f.missions mid (g m0) (mapGet_isSome_find? f.missions mid m0 hq)]
        exact hkeys
  · intro j hj
    show (f.mutateMission mid g).robots.getD j dummyRobot = f.robots.getD j dummyRobot
    rw [mutateMission_robots f mid g]
  · rw [mutateMission_robots f mid g]
  · intro _ _ hnum
    intro rr hrr
    rw [mutateMission_robots f mid g] at hrr
    exact hnum rr hrr

theorem robot_robotId_of_sameRobots {f f' : Fleet} (h : SameRobots f f') (i : ℕ)
    (hi : i < f.robots.length) : (f'.robot i).robotId = (f.robot i).robotId := by
  have hlen := sameRobots_length h
  have h1 : (f'.robots.map Robot.robotId).getD i 0 = (f.robots.map Robot.robotId).getD i 0 := by
    rw [h]
  rw [List.getD_eq_getElem?_getD, List.getD_eq_getElem?_getD] at h1
  rw [List.getElem?_map, List.getElem?_map] at h1
  unfold Fleet.robot
  rw [List.getD_eq_getElem?_getD, List.getD_eq_getElem?_getD]
  rw [List.getElem?_eq_getElem hi, List.getElem?_eq_getElem (by omega : i < f'.robots.length)]
    at h1 ⊢
  simpa using h1

/-- Overwriting the mission stored at an occupied key, with the
obligations of an in-place mission-object mutation. -/
theorem subStep_setMission_existing (env : Env) (i : ℕ) (f : Fleet) (mid : ℕ) (em v : Mission)
    (hget : mapGet f.missions mid = some em)
    (hprog : InvL f → em.progress ≤ v.progress) (hrid : v.robotId = em.robotId)
    (hmid : v.missionId = em.missionId)
    (hval : InvL f → MissionVal em → MissionVal v) :
    SubStep env i f ({ f with missions := mapSet f.missions mid v } : Fleet) := by
  have heq : ({ f with missions := mapSet f.missions mid v } : Fleet) =
      f.mutateMission mid (fun _ => v) := by
    unfold Fleet.mutateMission
    rw [hget]
  rw [heq]
  refine subStep_mutateMission env i f mid (fun _ => v) ?_ ?_
  · intro hL m hm
    rw [hget] at hm
    cases hm
    exact ⟨hprog hL, hrid, hmid⟩
  · intro hL m hm hv
    rw [hget] at hm
    cases hm
    exact hval hL hv

theorem robot_mem_or_dummy (f : Fleet) (i : ℕ) :
    f.robot i ∈ f.robots ∨ f.robot i = dummyRobot := by
  unfold Fleet.robot
  rcases Nat.lt_or_ge i f.robots.length with hi | hi
  · left
    rw [List.getD_eq_getElem?_getD, List.getElem?_eq_getElem hi]
    exact List.getElem_mem _
  · right
    rw [List.getD_eq_getElem?_getD, List.getElem?_eq_none (by omega)]
    rfl

theorem robotNum_dummy (pi : ℚ) (hpi : 0 < pi) : RobotNum pi dummyRobot := by
  unfold RobotNum dummyRobot
  norm_num
  linarith

/-- The mission-cancellation step at the head of `createMissionForRobot`. -/
theorem subStep_cancelMission (env : Env) (f : Fleet) (i : ℕ) (em : Mission) (now : ℚ)
    (hgm : getMissionForRobot f (f.robot i) = some em) :
    SubStep env i f
      ({ f with missions := mapSet f.missions em.missionId (cancelledCopy em now) } : Fleet) := by
  refine ⟨?_, fun j hj => rfl, rfl, fun _ _ h => h⟩
  intro hInv
  have hget : mapGet f.missions em.missionId = some em := by
    unfold getMissionForRobot at hgm
    cases hmi : (f.robot i).missionId with
    | none => rw [hmi] at hgm; exact Option.noConfusion hgm
    | some mid =>
      rw [hmi] at hgm
      obtain ⟨hmem, -⟩ := mapGet_mem f.missions mid em hgm
      have hco : em.missionId = mid := (hInv.2.1 (mid, em) hmem).2.2
      rw [hco]
      exact hgm
  exact (subStep_setMission_existing env i f em.missionId em (cancelledCopy em now)
    hget (fun _ => le_refl _) rfl rfl
    (fun _ hv => ⟨hv.1, hv.2.1, fun hc => absurd hc (by simp [cancelledCopy])⟩)).1 hInv

/-- The fresh-mission insertion together with the counter bump. -/
theorem subStep_bumpAddMission (env : Env) (i : ℕ) (f : Fleet) (v : Mission)
    (hval : MissionVal v) (hcoh : v.missionId = f.nextMissionSeq) :
    SubStep env i f (bumpAdd f v) := by
  unfold bumpAdd
  refine ⟨?_, fun j hj => rfl, rfl, fun _ _ h => h⟩
  intro hInv
  obtain ⟨hrob, hmis, hids, hkeys⟩ := hInv
  have hfind : f.missions.find? (fun p => p.1 = f.nextMissionSeq) = none :=
    find?_none_of_keys_lt f.missions f.nextMissionSeq (fun p hp => (hmis p hp).2.1)
  have hnone : mapGet f.missions f.nextMissionSeq = none := by
    unfold mapGet
    rw [hfind]
    rfl
  have hpres : ∀ mid' m, mapGet f.missions mid' = some m →
      mapGet (mapSet f.missions f.nextMissionSeq v) mid' = some m := by
    intro mid' m hm
    have hne : mid' ≠ f.nextMissionSeq := by
      intro he
      rw [he, hnone] at hm
      exact Option.noConfusion hm
    rw [mapGet_mapSet_ne _ _ _ _ hne]
    exact hm
  refine ⟨⟨sameRobots_rfl, Nat.le_succ _, ?_, fun _ _ => le_refl _⟩, ?_, ?_, hids, ?_⟩
  · intro mid' m hm
    exact ⟨m, hpres mid' m hm, le_refl _, rfl⟩
  · intro rr hrr
    exact RobotLink_transfer (fun mid' m hm => ⟨m, hpres mid' m hm, rfl⟩) rr (hrob rr hrr)
  · intro p hp
    rcases mem_mapSet _ _ _ p hp with heq | hmem
    · subst heq
      exact ⟨hval, Nat.lt_succ_self _, hcoh⟩
    · have := hmis p hmem
      exact ⟨this.1, Nat.lt_succ_of_lt this.2.1, this.2.2⟩
  · show ((mapSet f.missions f.nextMissionSeq v).map Prod.fst).Pairwise (· ≠ ·)
    rw [keys_mapSet_absent f.missions f.nextMissionSeq v (by rw [hfind]; simp)]
    rw [List.pairwise_append]
    refine ⟨hkeys, by simp, ?_⟩
    intro a ha b hb
    rcases List.mem_map.mp ha with ⟨p, hp, hpa⟩
    rw [List.mem_singleton.mp hb, ← hpa]
    exact Nat.ne_of_lt (hmis p hp).2.1

theorem subStep_createMissionForRobot (env : Env) (f : Fleet) (i : ℕ) (now : ℚ)
    (st : MissionStatus) (k : ℕ) (hst : st ≠ MissionStatus.COMPLETED) :
    SubStep env i f (createMissionForRobot env f i now st k).1 := by
  have hfinish : ∀ g : Fleet, SubStep env i f g →
      ∀ (v : Mission), MissionVal v → v.missionId = g.nextMissionSeq →
      v.robotId = (g.robot i).robotId →
      SubStep env i f
        ((bumpAdd g v).setRobot i { g.robot i with missionId := some g.nextMissionSeq }) := by
    intro g hg v hv hvc hvr
    refine subStep_trans hg (subStep_trans (subStep_bumpAddMission env i g v hv hvc) ?_)
    apply subStep_setRobot
    · rfl
    · intro kind
      exact le_refl _
    · intro hInv3
      intro mid hmid
      have hmid2 : some g.nextMissionSeq = some mid := Option.mem_def.mp hmid
      cases hmid2
      show (mapGet (mapSet g.missions g.nextMissionSeq v) g.nextMissionSeq).map
        Mission.robotId = some _
      rw [mapGet_mapSet_self]
      simp only [Option.map_some']
      rw [hvr]
    · intro hval hInv3 hnum3
      rcases robot_mem_or_dummy g i with hmem | hdum
      · exact hnum3 (g.robot i) hmem
      · rw [hdum]
        exact robotNum_dummy env.pi (by have := hval.2.2.1; linarith)
  unfold createMissionForRobot
  dsimp only
  split
  · rename_i em hgm
    split
    · rename_i hact
      refine hfinish _ (subStep_cancelMission env f i em now hgm) _ ?_ ?_ ?_
      · exact ⟨by norm_num, by norm_num, fun hc => absurd hc hst⟩
      · rfl
      · rfl
    · refine hfinish f (subStep_refl env i f) _ ?_ ?_ ?_
      · exact ⟨by norm_num, by norm_num, fun hc => absurd hc hst⟩
      · rfl
      · rfl
  · refine hfinish f (subStep_refl env i f) _ ?_ ?_ ?_
    · exact ⟨by norm_num, by norm_num, fun hc => absurd hc hst⟩
    · rfl
    · rfl

theorem subStep_ensureMissionForRobot (env : Env) (f : Fleet) (i : ℕ) (now : ℚ)
    (st : MissionStatus) (k : ℕ) (hst : st ≠ MissionStatus.COMPLETED) :
    SubStep env i f (ensureMissionForRobot env f i now st k).1 := by
  unfold ensureMissionForRobot
  cases hgm : getMissionForRobot f (f.robot i) with
  | some existing => exact subStep_refl env i f
  | none => exact subStep_createMissionForRobot env f i now st k hst

/-! ## Robot-level helper lemmas -/

theorem robot_mem (f : Fleet) (i : ℕ) (hi : i < f.robots.length) : f.robot i ∈ f.robots := by
  unfold Fleet.robot
  rw [List.getD_eq_getElem?_getD, List.getElem?_eq_getElem hi]
  exact List.getElem_mem _

theorem setRobot_robots_length (f : Fleet) (i : ℕ) (r : Robot) :
    (f.setRobot i r).robots.length = f.robots.length :=
  List.length_set f.robots i r

theorem robot_mutateMission (f : Fleet) (mid : ℕ) (g : Mission → Mission) (i : ℕ) :
    (f.mutateMission mid g).robot i = f.robot i := by
  unfold Fleet.robot
  rw [mutateMission_robots f mid g]

/-- A robot value that keeps robot `i`'s mission id and robot id keeps
its linkage. -/
theorem robotLink_self (f : Fleet) (i : ℕ) (hL : InvL f) (r : Robot)
    (hmid : r.missionId = (f.robot i).missionId) (hrid : r.robotId = (f.robot i).robotId) :
    RobotLink f r := by
  intro mid hm
  rw [hmid] at hm
  rw [hrid]
  rcases robot_mem_or_dummy f i with hmem | hdum
  · exact hL.1 (f.robot i) hmem mid hm
  · rw [hdum] at hm
    exact absurd hm (by simp [dummyRobot, Option.mem_def])

theorem clamp_bounds (v lo hi : ℚ) (h : lo ≤ hi) : lo ≤ clamp v lo hi ∧ clamp v lo hi ≤ hi := by
  unfold clamp
  exact ⟨le_min h (le_max_left lo v), min_le_left hi _⟩

theorem randomFloat_bounds (env : Env) (hv : EnvValid env) (lo hi : ℚ) (k : ℕ) (h : lo ≤ hi) :
    lo ≤ (randomFloat env lo hi k).1 ∧ (randomFloat env lo hi k).1 ≤ hi ∧
    (lo < hi → (randomFloat env lo hi k).1 < hi) := by
  obtain ⟨h0, h1⟩ := hv.1 k
  unfold randomFloat
  dsimp only
  refine ⟨by nlinarith, by nlinarith, fun hlt => by nlinarith⟩

/-- A positive-dividend JS remainder lies in `[0, m)`. -/
theorem jsMod_bounds (a m : ℚ) (hm : 0 < m) (ha : 0 ≤ a) :
    0 ≤ jsMod a m ∧ jsMod a m < m := by
  unfold jsMod
  rw [if_neg (ne_of_gt hm), if_pos ha]
  constructor
  · have := Int.floor_le (a / m)
    have hmul : (⌊a / m⌋ : ℚ) * m ≤ a / m * m := by
      exact mul_le_mul_of_nonneg_right this (le_of_lt hm)
    rw [div_mul_cancel₀ a (ne_of_gt hm)] at hmul
    nlinarith
  · have := Int.lt_floor_add_one (a / m)
    have hmul : a / m * m < ((⌊a / m⌋ : ℚ) + 1) * m := by
      exact mul_lt_mul_of_pos_right this hm
    rw [div_mul_cancel₀ a (ne_of_gt hm)] at hmul
    nlinarith

theorem createMission_robot_status (env : Env) (f : Fleet) (i : ℕ) (now : ℚ)
    (st : MissionStatus) (k : ℕ) (hi : i < f.robots.length) :
    (((createMissionForRobot env f i now st k).1).robot i).status = (f.robot i).status := by
  unfold createMissionForRobot
  dsimp only
  split
  · split
    · rw [robot_setRobot_self _ _ _ (by exact hi)]
    · rw [robot_setRobot_self _ _ _ (by exact hi)]
  · rw [robot_setRobot_self _ _ _ (by exact hi)]

theorem createMission_robot_missionId (env : Env) (f : Fleet) (i : ℕ) (now : ℚ)
    (st : MissionStatus) (k : ℕ) (hi : i < f.robots.length) :
    (((createMissionForRobot env f i now st k).1).robot i).missionId =
      some f.nextMissionSeq := by
  unfold createMissionForRobot
  dsimp only
  split
  · split
    · rw [robot_setRobot_self _ _ _ (by exact hi)]
    · rw [robot_setRobot_self _ _ _ (by exact hi)]
  · rw [robot_setRobot_self _ _ _ (by exact hi)]

theorem ensure_robot_status (env : Env) (f : Fleet) (i : ℕ) (now : ℚ)
    (st : MissionStatus) (k : ℕ) (hi : i < f.robots.length) :
    (((ensureMissionForRobot env f i now st k).1).robot i).status = (f.robot i).status := by
  unfold ensureMissionForRobot
  cases hgm : getMissionForRobot f (f.robot i) with
  | some existing => rfl
  | none => exact createMission_robot_status env f i now st k hi

theorem ensure_robot_missionId_isSome (env : Env) (f : Fleet) (i : ℕ) (now : ℚ)
    (st : MissionStatus) (k : ℕ) (hi : i < f.robots.length) :
    (((ensureMissionForRobot env f i now st k).1).robot i).missionId.isSome = true := by
  unfold ensureMissionForRobot
  cases hgm : getMissionForRobot f (f.robot i) with
  | some existing =>
    unfold getMissionForRobot at hgm
    cases hmi : (f.robot i).missionId with
    | none => rw [hmi] at hgm; exact Option.noConfusion hgm
    | some mid => simp [hmi]
  | none =>
    rw [createMission_robot_missionId env f i now st k hi]
    rfl

/-! ## `setStatus` re-establishes the per-robot discipline -/

theorem setStatus_ok (env : Env) (f : Fleet) (i : ℕ) (status : RobotStatus)
    (off : Option ℚ) (k : ℕ) (hi : i < f.robots.length) :
    SubStep env i f (setStatus env f i status off k).1 ∧
    RobotLocal (((setStatus env f i status off k).1).robot i) := by
  have hstep1 : ∀ S : RobotStatus, SubStep env i f (f.setRobot i { f.robot i with status := S }) := by
    intro S
    apply subStep_setRobot
    · rfl
    · intro kind
      exact le_refl _
    · intro hL
      exact robotLink_self f i hL _ rfl rfl
    · intro hv hL hn
      exact hn (f.robot i) (robot_mem f i hi)
  have hfin : ∀ g3 : Fleet, SubStep env i f g3 →
      (g3.robot i).missionId.isSome = true →
      (g3.robot i).status ≠ RobotStatus.IDLE →
      (g3.robot i).status ≠ RobotStatus.FAULT →
      ∀ sp : ℚ, (EnvValid env → 0 ≤ sp) →
      SubStep env i f (g3.setRobot i { g3.robot i with speed := sp, offlineUntilTs := none }) ∧
      RobotLocal ((g3.setRobot i
        { g3.robot i with speed := sp, offlineUntilTs := none }).robot i) := by
    intro g3 hg3 hsome hnid hnfa sp hsp
    have hilen : i < g3.robots.length := by
      rw [hg3.2.2.1]
      exact hi
    constructor
    · refine subStep_trans hg3 ?_
      apply subStep_setRobot
      · rfl
      · intro kind
        exact le_refl _
      · intro hL
        exact robotLink_self g3 i hL _ rfl rfl
      · intro hv hL hn
        rcases robot_mem_or_dummy g3 i with hmem | hdum
        · have h := hn _ hmem
          exact ⟨h.1, h.2.1, hsp hv, h.2.2.2.1, h.2.2.2.2.1, h.2.2.2.2.2.1, h.2.2.2.2.2.2⟩
        · rw [hdum]
          have hd := robotNum_dummy env.pi (by have := hv.2.2.1; linarith)
          exact ⟨hd.1, hd.2.1, hsp hv, hd.2.2.2.1, hd.2.2.2.2.1, hd.2.2.2.2.2.1, hd.2.2.2.2.2.2⟩
    · rw [robot_setRobot_self _ _ _ hilen]
      refine ⟨fun _ => hsome, fun hbad => ?_⟩
      rcases hbad with h | h
      · exact absurd (show (g3.robot i).status = RobotStatus.IDLE from h) hnid
      · exact absurd (show (g3.robot i).status = RobotStatus.FAULT from h) hnfa
  have hfin2 : ∀ g3 : Fleet, SubStep env i f g3 →
      (g3.robot i).status ≠ RobotStatus.ON_MISSION →
      (g3.robot i).status ≠ RobotStatus.NEED_ASSIST →
      SubStep env i f (g3.setRobot i { g3.robot i with
        speed := 0, missionId := none, stuckUntilTs := none, offlineUntilTs := none }) ∧
      RobotLocal ((g3.setRobot i { g3.robot i with
        speed := 0, missionId := none, stuckUntilTs := none,
        offlineUntilTs := none }).robot i) := by
    intro g3 hg3 hnom hnna
    have hilen : i < g3.robots.length := by
      rw [hg3.2.2.1]
      exact hi
    constructor
    · refine subStep_trans hg3 ?_
      apply subStep_setRobot
      · rfl
      · intro kind
        exact le_refl _
      · intro hL
        intro mid hm
        exact absurd hm (by simp [Option.mem_def])
      · intro hv hL hn
        rcases robot_mem_or_dummy g3 i with hmem | hdum
        · have h := hn _ hmem
          exact ⟨h.1, h.2.1, le_refl 0, h.2.2.2.1, h.2.2.2.2.1, h.2.2.2.2.2.1, h.2.2.2.2.2.2⟩
        · rw [hdum]
          have hd := robotNum_dummy env.pi (by have := hv.2.2.1; linarith)
          exact ⟨hd.1, hd.2.1, le_refl 0, hd.2.2.2.1, hd.2.2.2.2.1, hd.2.2.2.2.2.1,
            hd.2.2.2.2.2.2⟩
    · rw [robot_setRobot_self _ _ _ hilen]
      refine ⟨fun hbad => ?_, fun _ => rfl⟩
      rcases hbad with h | h
      · exact absurd (show (g3.robot i).status = RobotStatus.ON_MISSION from h) hnom
      · exact absurd (show (g3.robot i).status = RobotStatus.NEED_ASSIST from h) hnna
  cases status with
  | ON_MISSION =>
    unfold setStatus
    dsimp only
    split
    · refine hfin _ ?_ ?_ ?_ ?_ _ ?_
      · refine subStep_trans (hstep1 RobotStatus.ON_MISSION)
          (subStep_trans ?_
            (subStep_trans (subStep_ensureMissionForRobot env _ i _ .ACTIVE k (by decide))
              (subStep_mutateMission env i _ _ _
                (fun _ m _ => ⟨le_refl _, rfl, rfl⟩)
                (fun _ m _ hv => ⟨hv.1, hv.2.1, fun hc => MissionStatus.noConfusion hc⟩))))
        apply subStep_setRobot
        · rfl
        · intro kind
          exact le_refl _
        · intro hL
          exact robotLink_self _ i hL _ rfl rfl
        · intro hv hL hn
          rcases robot_mem_or_dummy _ i with hmem | hdum
          · have h := hn _ hmem
            exact ⟨h.1, h.2.1, h.2.2.1, h.2.2.2.1, h.2.2.2.2.1, h.2.2.2.2.2.1,
              h.2.2.2.2.2.2⟩
          · rw [hdum]
            have hd := robotNum_dummy env.pi (by have := hv.2.2.1; linarith)
            exact ⟨hd.1, hd.2.1, hd.2.2.1, hd.2.2.2.1, hd.2.2.2.2.1, hd.2.2.2.2.2.1,
              hd.2.2.2.2.2.2⟩
      · rw [robot_mutateMission]
        exact ensure_robot_missionId_isSome env _ i _ .ACTIVE k
          (by rw [setRobot_robots_length, setRobot_robots_length]; exact hi)
      · rw [robot_mutateMission, ensure_robot_status env _ i _ .ACTIVE k
          (by rw [setRobot_robots_length, setRobot_robots_length]; exact hi),
          robot_setRobot_self _ _ _ (by rw [setRobot_robots_length]; exact hi),
          robot_setRobot_self _ _ _ hi]
        exact fun h => RobotStatus.noConfusion h
      · rw [robot_mutateMission, ensure_robot_status env _ i _ .ACTIVE k
          (by rw [setRobot_robots_length, setRobot_robots_length]; exact hi),
          robot_setRobot_self _ _ _ (by rw [setRobot_robots_length]; exact hi),
          robot_setRobot_self _ _ _ hi]
        exact fun h => RobotStatus.noConfusion h
      · intro hv
        exact le_trans (by norm_num) (randomFloat_bounds env hv 0.6 1.8 _ (by norm_num)).1
    · refine hfin _ ?_ ?_ ?_ ?_ _ ?_
      · refine subStep_trans (hstep1 RobotStatus.ON_MISSION)
          (subStep_trans (subStep_ensureMissionForRobot env _ i _ .ACTIVE k (by decide))
            (subStep_mutateMission env i _ _ _
              (fun _ m _ => ⟨le_refl _, rfl, rfl⟩)
              (fun _ m _ hv => ⟨hv.1, hv.2.1, fun hc => MissionStatus.noConfusion hc⟩)))
      · rw [robot_mutateMission]
        exact ensure_robot_missionId_isSome env _ i _ .ACTIVE k
          (by rw [setRobot_robots_length]; exact hi)
      · rw [robot_mutateMission, ensure_robot_status env _ i _ .ACTIVE k
          (by rw [setRobot_robots_length]; exact hi),
          robot_setRobot_self _ _ _ hi]
        exact fun h => RobotStatus.noConfusion h
      · rw [robot_mutateMission, ensure_robot_status env _ i _ .ACTIVE k
          (by rw [setRobot_robots_length]; exact hi),
          robot_setRobot_self _ _ _ hi]
        exact fun h => RobotStatus.noConfusion h
      · intro hv
        exact le_trans (by norm_num) (randomFloat_bounds env hv 0.6 1.8 _ (by norm_num)).1
  | NEED_ASSIST =>
    unfold setStatus
    dsimp only
    refine hfin _ ?_ ?_ ?_ ?_ _ ?_
    · refine subStep_trans (hstep1 RobotStatus.NEED_ASSIST)
        (subStep_trans (subStep_ensureMissionForRobot env _ i _ .PAUSED k (by decide))
          (subStep_mutateMission env i _ _ _
            (fun _ m _ => ⟨le_refl _, rfl, rfl⟩)
            (fun _ m _ hv => ⟨hv.1, hv.2.1, fun hc => MissionStatus.noConfusion hc⟩)))
    · rw [robot_mutateMission]
      exact ensure_robot_missionId_isSome env _ i _ .PAUSED k
        (by rw [setRobot_robots_length]; exact hi)
    · rw [robot_mutateMission, ensure_robot_status env _ i _ .PAUSED k
        (by rw [setRobot_robots_length]; exact hi),
        robot_setRobot_self _ _ _ hi]
      exact fun h => RobotStatus.noConfusion h
    · rw [robot_mutateMission, ensure_robot_status env _ i _ .PAUSED k
        (by rw [setRobot_robots_length]; exact hi),
        robot_setRobot_self _ _ _ hi]
      exact fun h => RobotStatus.noConfusion h
    · intro _
      exact le_refl 0
  | FAULT =>
    unfold setStatus
    dsimp only
    split
    · refine hfin2 _ ?_ ?_ ?_
      · refine subStep_trans (hstep1 RobotStatus.FAULT)
          (subStep_mutateMission env i _ _ _
            (fun _ m _ => ⟨le_refl _, rfl, rfl⟩)
            (fun _ m _ hv => ⟨hv.1, hv.2.1, fun hc => MissionStatus.noConfusion hc⟩))
      · rw [robot_mutateMission, robot_setRobot_self _ _ _ hi]
        exact fun h => RobotStatus.noConfusion h
      · rw [robot_mutateMission, robot_setRobot_self _ _ _ hi]
        exact fun h => RobotStatus.noConfusion h
    · refine hfin2 _ (hstep1 RobotStatus.FAULT) ?_ ?_
      · rw [robot_setRobot_self _ _ _ hi]
        exact fun h => RobotStatus.noConfusion h
      · rw [robot_setRobot_self _ _ _ hi]
        exact fun h => RobotStatus.noConfusion h
  | IDLE =>
    unfold setStatus
    dsimp only
    split
    · split
      · refine hfin2 _ ?_ ?_ ?_
        · refine subStep_trans (hstep1 RobotStatus.IDLE)
            (subStep_mutateMission env i _ _ _
              (fun _ m _ => ⟨le_max_left _ _, rfl, rfl⟩)
              (fun _ m _ hv => ⟨le_trans hv.1 (le_max_left _ _),
                max_le hv.2.1 (le_refl 100), fun _ => max_eq_right hv.2.1⟩))
        · rw [robot_mutateMission, robot_setRobot_self _ _ _ hi]
          exact fun h => RobotStatus.noConfusion h
        · rw [robot_mutateMission, robot_setRobot_self _ _ _ hi]
          exact fun h => RobotStatus.noConfusion h
      · refine hfin2 _ (hstep1 RobotStatus.IDLE) ?_ ?_
        · rw [robot_setRobot_self _ _ _ hi]
          exact fun h => RobotStatus.noConfusion h
        · rw [robot_setRobot_self _ _ _ hi]
          exact fun h => RobotStatus.noConfusion h
    · refine hfin2 _ (hstep1 RobotStatus.IDLE) ?_ ?_
      · rw [robot_setRobot_self _ _ _ hi]
        exact fun h => RobotStatus.noConfusion h
      · rw [robot_setRobot_self _ _ _ hi]
        exact fun h => RobotStatus.noConfusion h
  | OFFLINE =>
    unfold setStatus
    dsimp only
    have hoffl : ∀ g2 : Fleet, SubStep env i f g2 →
        (g2.robot i).status = RobotStatus.OFFLINE →
        ∀ g3 : Fleet, SubStep env i g2 g3 → g3.robot i = g2.robot i →
        SubStep env i f g3 ∧ RobotLocal (g3.robot i) := by
      intro g2 hg2 hst g3 hg3 hrob
      refine ⟨subStep_trans hg2 hg3, ?_⟩
      rw [hrob]
      constructor
      · intro hbad
        rcases hbad with h | h
        · rw [hst] at h
          exact RobotStatus.noConfusion h
        · rw [hst] at h
          exact RobotStatus.noConfusion h
      · intro hbad
        rcases hbad with h | h
        · rw [hst] at h
          exact RobotStatus.noConfusion h
        · rw [hst] at h
          exact RobotStatus.noConfusion h
    have hstep2 : ∀ d : ℚ, SubStep env i f
        ((f.setRobot i { f.robot i with status := RobotStatus.OFFLINE }).setRobot i
          { (f.setRobot i { f.robot i with status := RobotStatus.OFFLINE }).robot i with
            speed := 0, offlineUntilTs := some d }) := by
      intro d
      refine subStep_trans (hstep1 RobotStatus.OFFLINE) ?_
      apply subStep_setRobot
      · rfl
      · intro kind
        exact le_refl _
      · intro hL
        exact robotLink_self _ i hL _ rfl rfl
      · intro hv hL hn
        rcases robot_mem_or_dummy _ i with hmem | hdum
        · have h := hn _ hmem
          exact ⟨h.1, h.2.1, le_refl 0, h.2.2.2.1, h.2.2.2.2.1, h.2.2.2.2.2.1, h.2.2.2.2.2.2⟩
        · rw [hdum]
          have hd := robotNum_dummy env.pi (by have := hv.2.2.1; linarith)
          exact ⟨hd.1, hd.2.1, le_refl 0, hd.2.2.2.1, hd.2.2.2.2.1, hd.2.2.2.2.2.1,
            hd.2.2.2.2.2.2⟩
    have hst2 : ∀ d : ℚ,
        (((f.setRobot i { f.robot i with status := RobotStatus.OFFLINE }).setRobot i
          { (f.setRobot i { f.robot i with status := RobotStatus.OFFLINE }).robot i with
            speed := 0, offlineUntilTs := some d }).robot i).status = RobotStatus.OFFLINE := by
      intro d
      rw [robot_setRobot_self _ _ _ (by rw [setRobot_robots_length]; exact hi),
        robot_setRobot_self _ _ _ hi]
    cases off with
    | some d =>
      dsimp only
      split
      · split
        · exact hoffl _ (hstep2 _) (hst2 _) _
            (subStep_mutateMission env i _ _ _
              (fun _ m _ => ⟨le_refl _, rfl, rfl⟩)
              (fun _ m _ hv => ⟨hv.1, hv.2.1, fun hc => MissionStatus.noConfusion hc⟩))
            (robot_mutateMission _ _ _ i)
        · exact hoffl _ (hstep2 _) (hst2 _) _ (subStep_refl env i _) rfl
      · exact hoffl _ (hstep2 _) (hst2 _) _ (subStep_refl env i _) rfl
    | none =>
      dsimp only
      split
      · split
        · exact hoffl _ (hstep2 _) (hst2 _) _
            (subStep_mutateMission env i _ _ _
              (fun _ m _ => ⟨le_refl _, rfl, rfl⟩)
              (fun _ m _ hv => ⟨hv.1, hv.2.1, fun hc => MissionStatus.noConfusion hc⟩))
            (robot_mutateMission _ _ _ i)
        · exact hoffl _ (hstep2 _) (hst2 _) _ (subStep_refl env i _) rfl
      · exact hoffl _ (hstep2 _) (hst2 _) _ (subStep_refl env i _) rfl

/-! ## Base metrics and sensor recovery -/

/-- All robot fields other than sensors, temperature, heartbeat and
fault counter. -/
def SameRobotCore (r r' : Robot) : Prop :=
  r'.robotId = r.robotId ∧ r'.status = r.status ∧ r'.missionId = r.missionId ∧
  r'.speed = r.speed ∧ r'.battery = r.battery ∧
  r'.localizationConfidence = r.localizationConfidence ∧ r'.pose = r.pose ∧
  r'.stuckUntilTs = r.stuckUntilTs ∧ r'.offlineUntilTs = r.offlineUntilTs ∧
  r'.anomalyCooldownUntilTs = r.anomalyCooldownUntilTs

theorem sameRobotCore_rfl (r : Robot) : SameRobotCore r r :=
  ⟨rfl, rfl, rfl, rfl, rfl, rfl, rfl, rfl, rfl, rfl⟩

theorem robotNum_of_core (pi : ℚ) (r r' : Robot) (h : SameRobotCore r r')
    (hn : RobotNum pi r) : RobotNum pi r' := by
  unfold RobotNum
  rw [h.2.2.2.1, h.2.2.2.2.1, h.2.2.2.2.2.1, h.2.2.2.2.2.2.1]
  exact hn

theorem updateBaseMetrics_fields (env : Env) (r : Robot) (k : ℕ) :
    ((updateBaseMetrics env r k).1).robotId = r.robotId ∧
    ((updateBaseMetrics env r k).1).status = r.status ∧
    ((updateBaseMetrics env r k).1).missionId = r.missionId ∧
    ((updateBaseMetrics env r k).1).speed = r.speed ∧
    ((updateBaseMetrics env r k).1).pose = r.pose ∧
    ((updateBaseMetrics env r k).1).stuckUntilTs = r.stuckUntilTs ∧
    ((updateBaseMetrics env r k).1).offlineUntilTs = r.offlineUntilTs ∧
    ((updateBaseMetrics env r k).1).anomalyCooldownUntilTs = r.anomalyCooldownUntilTs := by
  unfold updateBaseMetrics
  cases hs : r.status <;> dsimp only <;>
    first
    | exact ⟨rfl, rfl, rfl, rfl, rfl, rfl, rfl, rfl⟩
    | exact ⟨rfl, hs, rfl, rfl, rfl, rfl, rfl, rfl⟩

theorem updateBaseMetrics_num (env : Env) (r : Robot) (k : ℕ) (pi : ℚ)
    (h : RobotNum pi r) : RobotNum pi ((updateBaseMetrics env r k).1) := by
  obtain ⟨h1, h2, h3, h4, h5, h6, h7⟩ := h
  unfold updateBaseMetrics
  cases hs : r.status
  case OFFLINE => exact ⟨h1, h2, h3, h4, h5, h6, h7⟩
  all_goals
    dsimp only
    unfold RobotNum
    dsimp only
    refine ⟨?_, (clamp_bounds _ _ _ (by norm_num)).2, h3,
      le_trans (by norm_num) (clamp_bounds _ _ _ (by norm_num)).1,
      le_trans (clamp_bounds _ _ _ (by norm_num)).2 (by norm_num), h6, h7⟩
    exact le_trans (by norm_num) (clamp_bounds _ _ _ (by norm_num)).1

theorem updateSensorRecovery_core (env : Env) (r : Robot) (k : ℕ) :
    SameRobotCore r ((updateSensorRecovery env r k).1) := by
  unfold updateSensorRecovery
  suffices hgen : ∀ (keys : List SensorKey) (acc : Robot × ℕ), SameRobotCore r acc.1 →
      SameRobotCore r ((keys.foldl
        (fun acc key =>
          let r := acc.1
          let state := r.sensors.get key
          if state = SensorHealth.FAIL ∧ r.status ≠ RobotStatus.OFFLINE then
            let roll := env.random acc.2
            (if roll < 0.06 then { r with sensors := r.sensors.set key .WARN } else r, acc.2 + 1)
          else if state = SensorHealth.WARN then
            let roll := env.random acc.2
            (if roll < 0.08 then { r with sensors := r.sensors.set key .OK } else r, acc.2 + 1)
          else acc) acc).1) by
    exact hgen SENSOR_KEYS (r, k) (sameRobotCore_rfl r)
  intro keys
  induction keys with
  | nil => exact fun acc h => h
  | cons key rest ih =>
    intro acc hacc
    rw [List.foldl_cons]
    apply ih
    dsimp only
    split
    · split
      · exact ⟨hacc.1, hacc.2.1, hacc.2.2.1, hacc.2.2.2.1, hacc.2.2.2.2.1,
          hacc.2.2.2.2.2.1, hacc.2.2.2.2.2.2.1, hacc.2.2.2.2.2.2.2.1,
          hacc.2.2.2.2.2.2.2.2.1, hacc.2.2.2.2.2.2.2.2.2⟩
      · exact hacc
    · split
      · split
        · exact ⟨hacc.1, hacc.2.1, hacc.2.2.1, hacc.2.2.2.1, hacc.2.2.2.2.1,
            hacc.2.2.2.2.2.1, hacc.2.2.2.2.2.2.1, hacc.2.2.2.2.2.2.2.1,
            hacc.2.2.2.2.2.2.2.2.1, hacc.2.2.2.2.2.2.2.2.2⟩
        · exact hacc
      · exact hacc

theorem robotNum_robot (pi : ℚ) (hpi : 0 < pi) (f : Fleet) (i : ℕ) (hn : NumInv pi f) :
    RobotNum pi (f.robot i) := by
  rcases robot_mem_or_dummy f i with hmem | hdum
  · exact hn _ hmem
  · rw [hdum]
    exact robotNum_dummy pi hpi

theorem jsToFixed_bounds (q : ℚ) (h0 : 0 ≤ q) :
    0 ≤ jsToFixed 2 q ∧ jsToFixed 2 q ≤ q + 1 / 200 := by
  unfold jsToFixed
  rw [if_pos h0]
  have hfl : ((⌊q * (10 : ℚ) ^ 2 + 1 / 2⌋ : ℤ) : ℚ) ≤ q * (10 : ℚ) ^ 2 + 1 / 2 :=
    Int.floor_le _
  have hfg : (0 : ℤ) ≤ ⌊q * (10 : ℚ) ^ 2 + 1 / 2⌋ := by
    apply Int.floor_nonneg.mpr
    nlinarith
  have hfg2 : (0 : ℚ) ≤ ((⌊q * (10 : ℚ) ^ 2 + 1 / 2⌋ : ℤ) : ℚ) := by exact_mod_cast hfg
  constructor
  · apply div_nonneg hfg2
    norm_num
  · rw [div_le_iff (by norm_num : (0 : ℚ) < (10 : ℚ) ^ 2)]
    nlinarith

theorem toFixed_clamp_le (x : ℚ) : jsToFixed 2 (clamp x 0 99.9) ≤ 100 := by
  have hc := clamp_bounds x 0 99.9 (by norm_num)
  have hj := jsToFixed_bounds _ hc.1
  linarith

theorem toFixed_clamp_nonneg (x : ℚ) : 0 ≤ jsToFixed 2 (clamp x 0 99.9) :=
  (jsToFixed_bounds _ (clamp_bounds x 0 99.9 (by norm_num)).1).1

theorem wiggle_heading_bounds (env : Env) (hv : EnvValid env) (h0 : ℚ) (k : ℕ)
    (hh : -env.pi < h0) :
    0 ≤ jsMod (h0 + (randomHeadingDelta env k).1 + env.pi * 2) (env.pi * 2) ∧
    jsMod (h0 + (randomHeadingDelta env k).1 + env.pi * 2) (env.pi * 2) < env.pi * 2 := by
  have hpi := hv.2.2.1
  have hd := (randomFloat_bounds env hv (-0.2) 0.2 k (by norm_num)).1
  refine jsMod_bounds _ _ (by linarith) ?_
  show 0 ≤ h0 + (randomFloat env (-0.2) 0.2 k).1 + env.pi * 2
  linarith

theorem atan2_heading_bounds (env : Env) (hv : EnvValid env) (dy dx : ℚ) :
    -env.pi < env.atan2 dy dx ∧ env.atan2 dy dx < 2 * env.pi :=
  ⟨(hv.2.1 dy dx).1, by linarith [(hv.2.1 dy dx).2, hv.2.2.1]⟩

/-- Common tail of `updateMissionProgress` branches: store an updated
mission at its key and store an updated robot `i`. -/
theorem subStep_finishMission (env : Env) (f : Fleet) (i : ℕ) (hi : i < f.robots.length)
    (g : Fleet) (mid : ℕ) (m0 v : Mission) (r' : Robot)
    (hg : SubStep env i f g)
    (hget : mapGet g.missions mid = some m0)
    (hprog : InvL g → m0.progress ≤ v.progress)
    (hrid : v.robotId = m0.robotId) (hmid : v.missionId = m0.missionId)
    (hval : InvL g → MissionVal m0 → MissionVal v)
    (hr2id : r'.robotId = (g.robot i).robotId)
    (hr2cd : ∀ kind, (g.robot i).anomalyCooldownUntilTs.get kind ≤
      r'.anomalyCooldownUntilTs.get kind)
    (hlink : InvL ({ g with missions := mapSet g.missions mid v } : Fleet) →
      RobotLink ({ g with missions := mapSet g.missions mid v } : Fleet) r')
    (hnum : EnvValid env → InvL ({ g with missions := mapSet g.missions mid v } : Fleet) →
      NumInv env.pi ({ g with missions := mapSet g.missions mid v } : Fleet) →
      RobotNum env.pi r')
    (hloc : RobotLocal r') :
    SubStep env i f
      (({ g with missions := mapSet g.missions mid v } : Fleet).setRobot i r') ∧
    RobotLocal ((({ g with missions := mapSet g.missions mid v } : Fleet).setRobot i
      r').robot i) := by
  have hglen : i < g.robots.length := by
    rw [hg.2.2.1]
    exact hi
  constructor
  · refine subStep_trans hg (subStep_trans
      (subStep_setMission_existing env i g mid m0 v hget hprog hrid hmid hval) ?_)
    exact subStep_setRobot env _ i r' hr2id hr2cd hlink hnum
  · rw [robot_setRobot_self _ _ _ (by exact hglen)]
    exact hloc

theorem and_imp_right {A B C : Prop} (h : A ∧ B) : A ∧ (C → B) :=
  ⟨h.1, fun _ => h.2⟩

theorem robotLocal_of_active (r : Robot) (hsome : r.missionId.isSome = true)
    (hstat : r.status = RobotStatus.ON_MISSION) : RobotLocal r := by
  refine ⟨fun _ => hsome, fun hbad => ?_⟩
  rcases hbad with h | h <;> rw [hstat] at h <;> exact RobotStatus.noConfusion h

theorem robotLocal_completed (r : Robot) (hnone : r.missionId = none)
    (hstat : r.status = RobotStatus.IDLE) : RobotLocal r := by
  refine ⟨fun hbad => ?_, fun _ => hnone⟩
  rcases hbad with h | h <;> rw [hstat] at h <;> exact RobotStatus.noConfusion h

theorem umpAdvance_fields (env : Env) (robot : Robot) (m2 : Mission) (mt : Waypoint)
    (dx dy dist : ℚ) (wlen : ℕ) :
    ((umpAdvance env robot m2 mt dx dy dist wlen).1.robotId = robot.robotId ∧
     (umpAdvance env robot m2 mt dx dy dist wlen).1.missionId = robot.missionId ∧
     (umpAdvance env robot m2 mt dx dy dist wlen).1.status = robot.status ∧
     (umpAdvance env robot m2 mt dx dy dist wlen).1.speed = robot.speed ∧
     (umpAdvance env robot m2 mt dx dy dist wlen).1.battery = robot.battery ∧
     (umpAdvance env robot m2 mt dx dy dist wlen).1.localizationConfidence =
       robot.localizationConfidence ∧
     (umpAdvance env robot m2 mt dx dy dist wlen).1.pose.heading = robot.pose.heading ∧
     (umpAdvance env robot m2 mt dx dy dist wlen).1.anomalyCooldownUntilTs =
       robot.anomalyCooldownUntilTs) ∧
    ((umpAdvance env robot m2 mt dx dy dist wlen).2.1.progress = m2.progress ∧
     (umpAdvance env robot m2 mt dx dy dist wlen).2.1.robotId = m2.robotId ∧
     (umpAdvance env robot m2 mt dx dy dist wlen).2.1.missionId = m2.missionId ∧
     (umpAdvance env robot m2 mt dx dy dist wlen).2.1.status = m2.status) := by
  unfold umpAdvance
  dsimp only
  repeat' split
  all_goals exact ⟨⟨rfl, rfl, rfl, rfl, rfl, rfl, rfl, rfl⟩, rfl, rfl, rfl, rfl⟩

set_option maxHeartbeats 1000000 in
/-- The `umpFinish` tail is a well-behaved micro-step and leaves robot
`i` in a legal local state, whatever the advance step produced. -/
theorem subStep_umpFinish (env : Env) (f : Fleet) (i : ℕ) (hi : i < f.robots.length)
    (g : Fleet) (mid : ℕ) (m0 : Mission) (wlen : ℕ)
    (step1 : Robot × Mission × Waypoint × ℚ × ℚ × ℚ) (k : ℕ)
    (hg : SubStep env i f g)
    (hget : mapGet g.missions mid = some m0)
    (hrid : step1.1.robotId = (g.robot i).robotId)
    (hrmid : step1.1.missionId = (g.robot i).missionId)
    (hrstat : step1.1.status = (g.robot i).status)
    (hrcd : step1.1.anomalyCooldownUntilTs = (g.robot i).anomalyCooldownUntilTs)
    (hrnum : EnvValid env → NumInv env.pi g → RobotNum env.pi step1.1)
    (hgsome : (g.robot i).missionId.isSome = true)
    (hgstat : (g.robot i).status = RobotStatus.ON_MISSION)
    (hmprog : step1.2.1.progress = m0.progress)
    (hmrid : step1.2.1.robotId = m0.robotId)
    (hmmid : step1.2.1.missionId = m0.missionId)
    (hmstat : step1.2.1.status = MissionStatus.ACTIVE) :
    SubStep env i f (umpFinish env g i mid wlen step1 k).1 ∧
    RobotLocal (((umpFinish env g i mid wlen step1 k).1).robot i) := by
  have hsome1 : step1.1.missionId.isSome = true := by rw [hrmid]; exact hgsome
  have hstat1 : step1.1.status = RobotStatus.ON_MISSION := by rw [hrstat]; exact hgstat
  have h0100 : (0 : ℚ) ≤ 100 := by norm_num
  have hcdle : ∀ (r' : Robot), r'.anomalyCooldownUntilTs = step1.1.anomalyCooldownUntilTs →
      ∀ kind, (g.robot i).anomalyCooldownUntilTs.get kind ≤
        r'.anomalyCooldownUntilTs.get kind := by
    intro r' he kind
    rw [he, hrcd]
  unfold umpFinish
  dsimp only
  split
  · split
    · refine subStep_finishMission env f i hi _ _ _ _ _ hg hget ?_ ?_ ?_ ?_ ?_ ?_ ?_ ?_ ?_
      all_goals first
      | exact hrid
      | exact hmrid
      | exact hmmid
      | exact hcdle _ rfl
      | exact fun hL => (hL.2.1 (_, m0) (mapGet_mem _ _ _ hget).1).1.2.1
      | exact fun _ _ => ⟨h0100, le_refl _, fun _ => rfl⟩
      | exact fun _ mid2 hm2 => absurd hm2 (by simp [Option.mem_def])
      | exact robotLocal_completed _ rfl rfl
      | (intro hv hL hn; have hpi3 := hv.2.2.1; have h := hrnum hv hn; exact ⟨h.1, h.2.1, le_refl 0, h.2.2.2.1, h.2.2.2.2.1, (atan2_heading_bounds env hv _ _).1, (atan2_heading_bounds env hv _ _).2⟩)
    · refine subStep_finishMission env f i hi _ _ _ _ _ hg hget ?_ ?_ ?_ ?_ ?_ ?_ ?_ ?_ ?_
      all_goals first
      | exact hrid
      | exact hmrid
      | exact hmmid
      | exact hcdle _ rfl
      | exact fun _ => by rw [← hmprog]; exact le_max_left _ _
      | exact fun _ hv => ⟨le_trans hv.1 (by rw [← hmprog]; exact le_max_left _ _),
          max_le (by rw [hmprog]; exact hv.2.1) (toFixed_clamp_le _),
          fun hc => by
            have hc2 : step1.2.1.status = MissionStatus.COMPLETED := hc
            rw [hmstat] at hc2
            exact MissionStatus.noConfusion hc2⟩
      | exact fun hL => robotLink_self _ i hL _ hrmid hrid
      | exact robotLocal_of_active _ hsome1 hstat1
      | (intro hv hL hn; have hpi3 := hv.2.2.1; have h := hrnum hv hn; exact ⟨h.1, h.2.1, h.2.2.1, h.2.2.2.1, h.2.2.2.2.1, (atan2_heading_bounds env hv _ _).1, (atan2_heading_bounds env hv _ _).2⟩)
  · split
    · refine subStep_finishMission env f i hi _ _ _ _ _ hg hget ?_ ?_ ?_ ?_ ?_ ?_ ?_ ?_ ?_
      all_goals first
      | exact hrid
      | exact hmrid
      | exact hmmid
      | exact hcdle _ rfl
      | exact fun hL => (hL.2.1 (_, m0) (mapGet_mem _ _ _ hget).1).1.2.1
      | exact fun _ _ => ⟨h0100, le_refl _, fun _ => rfl⟩
      | exact fun _ mid2 hm2 => absurd hm2 (by simp [Option.mem_def])
      | exact robotLocal_completed _ rfl rfl
      | (intro hv hL hn; have hpi3 := hv.2.2.1; have h := hrnum hv hn; exact ⟨h.1, h.2.1, le_refl 0, h.2.2.2.1, h.2.2.2.2.1, lt_of_lt_of_le (by linarith) (wiggle_heading_bounds env hv _ _ h.2.2.2.2.2.1).1, lt_of_lt_of_le (wiggle_heading_bounds env hv _ _ h.2.2.2.2.2.1).2 (by linarith)⟩)
    · refine subStep_finishMission env f i hi _ _ _ _ _ hg hget ?_ ?_ ?_ ?_ ?_ ?_ ?_ ?_ ?_
      all_goals first
      | exact hrid
      | exact hmrid
      | exact hmmid
      | exact hcdle _ rfl
      | exact fun _ => by rw [← hmprog]; exact le_max_left _ _
      | exact fun _ hv => ⟨le_trans hv.1 (by rw [← hmprog]; exact le_max_left _ _),
          max_le (by rw [hmprog]; exact hv.2.1) (toFixed_clamp_le _),
          fun hc => by
            have hc2 : step1.2.1.status = MissionStatus.COMPLETED := hc
            rw [hmstat] at hc2
            exact MissionStatus.noConfusion hc2⟩
      | exact fun hL => robotLink_self _ i hL _ hrmid hrid
      | exact robotLocal_of_active _ hsome1 hstat1
      | (intro hv hL hn; have hpi3 := hv.2.2.1; have h := hrnum hv hn; exact ⟨h.1, h.2.1, h.2.2.1, h.2.2.2.1, h.2.2.2.2.1, lt_of_lt_of_le (by linarith) (wiggle_heading_bounds env hv _ _ h.2.2.2.2.2.1).1, lt_of_lt_of_le (wiggle_heading_bounds env hv _ _ h.2.2.2.2.2.1).2 (by linarith)⟩)

theorem updateMissionProgress_ok (env : Env) (f : Fleet) (i : ℕ) (k : ℕ)
    (hi : i < f.robots.length) :
    SubStep env i f (updateMissionProgress env f i k).1 ∧
    (RobotLocal (f.robot i) → RobotLocal (((updateMissionProgress env f i k).1).robot i)) := by
  unfold updateMissionProgress
  dsimp only
  split
  · exact ⟨subStep_refl env i f, fun h => h⟩
  · rename_i hnotom
    have hom : (f.robot i).status = RobotStatus.ON_MISSION := not_not.mp hnotom
    have hE := subStep_ensureMissionForRobot env f i f.updatedAtTs .ACTIVE k (by decide)
    have hEstat : (((ensureMissionForRobot env f i f.updatedAtTs .ACTIVE k).1).robot i).status
        = RobotStatus.ON_MISSION :=
      (ensure_robot_status env f i f.updatedAtTs .ACTIVE k hi).trans hom
    have hEsome := ensure_robot_missionId_isSome env f i f.updatedAtTs .ACTIVE k hi
    have hEloc : RobotLocal
        (((ensureMissionForRobot env f i f.updatedAtTs .ACTIVE k).1).robot i) :=
      robotLocal_of_active _ hEsome hEstat
    split
    · exact ⟨hE, fun _ => hEloc⟩
    · rename_i m0 hm0
      repeat' split
      all_goals first
      | (refine and_imp_right (subStep_finishMission env f i hi _ _ _ _ _ hE hm0 ?_ rfl rfl ?_ rfl (fun kind => le_refl _) ?_ ?_ ?_) <;>
         first
         | exact fun _ => le_refl _
         | exact fun hL => (hL.2.1 (_, m0) (mapGet_mem _ _ _ hm0).1).1.2.1
         | exact fun _ hv => ⟨hv.1, hv.2.1, fun hc => MissionStatus.noConfusion hc⟩
         | exact fun _ _ => ⟨by norm_num, by norm_num, fun _ => rfl⟩
         | exact fun hL => robotLink_self _ i hL _ rfl rfl
         | exact fun _ mid2 hm2 => absurd hm2 (by simp [Option.mem_def])
         | exact robotLocal_of_active _ hEsome hEstat
         | exact robotLocal_completed _ rfl rfl
         | (intro hv hL hn; have hpi3 := hv.2.2.1; have h := robotNum_robot env.pi (by linarith) _ i hn; refine ⟨h.1, h.2.1, ?_, h.2.2.2.1, h.2.2.2.2.1, h.2.2.2.2.2.1, h.2.2.2.2.2.2⟩; first | exact h.2.2.1 | norm_num | exact le_trans (by norm_num) (randomFloat_bounds env hv 0.7 1.7 _ (by norm_num)).1))
      | (refine and_imp_right (subStep_umpFinish env f i hi _ _ _ _ _ _ hE hm0 ?_ ?_ ?_ ?_ ?_ hEsome hEstat ?_ ?_ ?_ ?_) <;>
         first
         | exact (umpAdvance_fields env _ _ _ _ _ _ _).1.1
         | exact (umpAdvance_fields env _ _ _ _ _ _ _).1.2.1
         | exact (umpAdvance_fields env _ _ _ _ _ _ _).1.2.2.1
         | exact (umpAdvance_fields env _ _ _ _ _ _ _).1.2.2.2.2.2.2.2
         | exact (umpAdvance_fields env _ _ _ _ _ _ _).2.1
         | exact (umpAdvance_fields env _ _ _ _ _ _ _).2.2.1
         | exact (umpAdvance_fields env _ _ _ _ _ _ _).2.2.2.1
         | exact (umpAdvance_fields env _ _ _ _ _ _ _).2.2.2.2
         | (intro hv hn; have hpi3 := hv.2.2.1; have h := robotNum_robot env.pi (by linarith) _ i hn; obtain ⟨g1, g2, g3, g4, g5, g6, g7, g8⟩ := (umpAdvance_fields env _ _ _ _ _ _ _).1; exact ⟨by rw [g5]; exact h.1, by rw [g5]; exact h.2.1, by rw [g4]; first | exact h.2.2.1 | exact le_trans (by norm_num) (randomFloat_bounds env hv 0.7 1.7 _ (by norm_num)).1, by rw [g6]; exact h.2.2.2.1, by rw [g6]; exact h.2.2.2.2.1, by rw [g7]; exact h.2.2.2.2.2.1, by rw [g7]; exact h.2.2.2.2.2.2⟩))

theorem applyTransitions_ok (env : Env) (f : Fleet) (i : ℕ) (k : ℕ)
    (hi : i < f.robots.length) :
    SubStep env i f (applyTransitions env f i k).1 ∧
    (RobotLocal (f.robot i) → RobotLocal (((applyTransitions env f i k).1).robot i)) := by
  unfold applyTransitions
  dsimp only
  repeat' split
  all_goals first
  | exact ⟨subStep_refl env i f, fun h => h⟩
  | exact and_imp_right (setStatus_ok env f i _ none _ hi)
  | (refine ⟨subStep_trans ?_ (setStatus_ok env _ i RobotStatus.IDLE none _
        (by rw [setRobot_robots_length]; exact hi)).1,
      fun _ => (setStatus_ok env _ i RobotStatus.IDLE none _
        (by rw [setRobot_robots_length]; exact hi)).2⟩
     apply subStep_setRobot
     · rfl
     · intro kind
       exact le_refl _
     · intro hL
       exact robotLink_self f i hL _ rfl rfl
     · intro hv hL hn
       have h := hn _ (robot_mem f i hi)
       exact ⟨h.1, h.2.1, h.2.2.1, h.2.2.2.1, h.2.2.2.2.1, h.2.2.2.2.2.1, h.2.2.2.2.2.2⟩)

theorem cooldown_get_set (c : Cooldowns) (kind kind2 : AnomalyKey) (v : ℚ) :
    (c.set kind v).get kind2 = if kind2 = kind then v else c.get kind2 := by
  cases kind <;> cases kind2 <;> simp [Cooldowns.get, Cooldowns.set]

theorem anomaly_cooldown_nonneg (kind : AnomalyKey) : 0 ≤ ANOMALY_COOLDOWN_MS kind := by
  cases kind <;> norm_num [ANOMALY_COOLDOWN_MS]

theorem guard_canTrigger (mode : OpsMode) (r : Robot) (now : ℚ) (kind : AnomalyKey)
    (h : anomalyStatusGuard mode r now kind = true) :
    r.anomalyCooldownUntilTs.get kind ≤ now := by
  cases kind <;>
    simp only [anomalyStatusGuard, canTriggerAnomaly, Bool.and_eq_true,
      decide_eq_true_eq] at h <;>
    tauto

theorem subStep_pushAnomalySignal (env : Env) (i : ℕ) (f : Fleet) (bucket : FleetTickResult)
    (payload : AnomalySignalPayload) :
    SubStep env i f (pushAnomalySignal f i bucket payload).1 := by
  unfold pushAnomalySignal
  dsimp only
  exact ⟨fun hL => ⟨⟨sameRobots_rfl, le_refl _,
    fun mid m hm => ⟨m, hm, le_refl _, rfl⟩, fun _ _ => le_refl _⟩, hL⟩,
    fun j hj => rfl, rfl, fun _ _ h => h⟩

theorem fire_localization_ok (env : Env) (f : Fleet) (i : ℕ) (bucket : FleetTickResult) (k : ℕ)
    (hi : i < f.robots.length)
    (hguard : anomalyStatusGuard f.mode (f.robot i) f.updatedAtTs AnomalyKey.localization = true) :
    SubStep env i f (fireLocalization env f i bucket k).1 ∧
    RobotLocal ((fireLocalization env f i bucket k).1.robot i) := by
  unfold fireLocalization
  dsimp only
  all_goals refine ⟨subStep_trans ?_ (subStep_trans (setStatus_ok env _ i _ _ _
      (by rw [setRobot_robots_length]; exact hi)).1 (subStep_pushAnomalySignal env i _ _ _)),
    (setStatus_ok env _ i _ _ _ (by rw [setRobot_robots_length]; exact hi)).2⟩
  all_goals apply subStep_setRobot
  all_goals first
  | rfl
  | (intro kind2
     show (f.robot i).anomalyCooldownUntilTs.get kind2 ≤
       ((f.robot i).anomalyCooldownUntilTs.set AnomalyKey.localization
         (f.updatedAtTs + ANOMALY_COOLDOWN_MS AnomalyKey.localization)).get kind2
     rw [cooldown_get_set]
     split
     · rename_i he
       rw [he]
       have hcg := guard_canTrigger f.mode (f.robot i) f.updatedAtTs AnomalyKey.localization hguard
       have hnn := anomaly_cooldown_nonneg AnomalyKey.localization
       linarith
     · exact le_refl _)
  | (intro hL
     exact robotLink_self f i hL _ rfl rfl)
  | (intro hv hL hn
     have h := hn _ (robot_mem f i hi)
     exact ⟨h.1, h.2.1, h.2.2.1, le_trans (by norm_num) (clamp_bounds _ 0 1 (by norm_num)).1, (clamp_bounds _ 0 1 (by norm_num)).2, h.2.2.2.2.2.1, h.2.2.2.2.2.2⟩)

theorem fire_sensorFail_ok (env : Env) (f : Fleet) (i : ℕ) (bucket : FleetTickResult) (k : ℕ)
    (hi : i < f.robots.length)
    (hguard : anomalyStatusGuard f.mode (f.robot i) f.updatedAtTs AnomalyKey.sensorFail = true) :
    SubStep env i f (fireSensorFail env f i bucket k).1 ∧
    RobotLocal ((fireSensorFail env f i bucket k).1.robot i) := by
  unfold fireSensorFail
  dsimp only
  all_goals refine ⟨subStep_trans ?_ (subStep_trans (setStatus_ok env _ i _ _ _
      (by rw [setRobot_robots_length]; exact hi)).1 (subStep_pushAnomalySignal env i _ _ _)),
    (setStatus_ok env _ i _ _ _ (by rw [setRobot_robots_length]; exact hi)).2⟩
  all_goals apply subStep_setRobot
  all_goals first
  | rfl
  | (intro kind2
     show (f.robot i).anomalyCooldownUntilTs.get kind2 ≤
       ((f.robot i).anomalyCooldownUntilTs.set AnomalyKey.sensorFail
         (f.updatedAtTs + ANOMALY_COOLDOWN_MS AnomalyKey.sensorFail)).get kind2
     rw [cooldown_get_set]
     split
     · rename_i he
       rw [he]
       have hcg := guard_canTrigger f.mode (f.robot i) f.updatedAtTs AnomalyKey.sensorFail hguard
       have hnn := anomaly_cooldown_nonneg AnomalyKey.sensorFail
       linarith
     · exact le_refl _)
  | (intro hL
     exact robotLink_self f i hL _ rfl rfl)
  | (intro hv hL hn
     have h := hn _ (robot_mem f i hi)
     exact ⟨h.1, h.2.1, h.2.2.1, h.2.2.2.1, h.2.2.2.2.1, h.2.2.2.2.2.1, h.2.2.2.2.2.2⟩)

theorem fire_stuck_ok (env : Env) (f : Fleet) (i : ℕ) (bucket : FleetTickResult) (k : ℕ)
    (hi : i < f.robots.length)
    (hguard : anomalyStatusGuard f.mode (f.robot i) f.updatedAtTs AnomalyKey.stuck = true) :
    SubStep env i f (fireStuck env f i bucket k).1 ∧
    RobotLocal ((fireStuck env f i bucket k).1.robot i) := by
  unfold fireStuck
  dsimp only
  all_goals refine ⟨subStep_trans ?_ (subStep_trans (setStatus_ok env _ i _ _ _
      (by rw [setRobot_robots_length]; exact hi)).1 (subStep_pushAnomalySignal env i _ _ _)),
    (setStatus_ok env _ i _ _ _ (by rw [setRobot_robots_length]; exact hi)).2⟩
  all_goals apply subStep_setRobot
  all_goals first
  | rfl
  | (intro kind2
     show (f.robot i).anomalyCooldownUntilTs.get kind2 ≤
       ((f.robot i).anomalyCooldownUntilTs.set AnomalyKey.stuck
         (f.updatedAtTs + ANOMALY_COOLDOWN_MS AnomalyKey.stuck)).get kind2
     rw [cooldown_get_set]
     split
     · rename_i he
       rw [he]
       have hcg := guard_canTrigger f.mode (f.robot i) f.updatedAtTs AnomalyKey.stuck hguard
       have hnn := anomaly_cooldown_nonneg AnomalyKey.stuck
       linarith
     · exact le_refl _)
  | (intro hL
     exact robotLink_self f i hL _ rfl rfl)
  | (intro hv hL hn
     have h := hn _ (robot_mem f i hi)
     exact ⟨h.1, h.2.1, le_refl 0, h.2.2.2.1, h.2.2.2.2.1, h.2.2.2.2.2.1, h.2.2.2.2.2.2⟩)

theorem fire_offline_ok (env : Env) (f : Fleet) (i : ℕ) (bucket : FleetTickResult) (k : ℕ)
    (hi : i < f.robots.length)
    (hguard : anomalyStatusGuard f.mode (f.robot i) f.updatedAtTs AnomalyKey.offline = true) :
    SubStep env i f (fireOffline env f i bucket k).1 ∧
    RobotLocal ((fireOffline env f i bucket k).1.robot i) := by
  unfold fireOffline
  dsimp only
  all_goals refine ⟨subStep_trans ?_ (subStep_trans (setStatus_ok env _ i _ _ _
      (by rw [setRobot_robots_length]; exact hi)).1 (subStep_pushAnomalySignal env i _ _ _)),
    (setStatus_ok env _ i _ _ _ (by rw [setRobot_robots_length]; exact hi)).2⟩
  all_goals apply subStep_setRobot
  all_goals first
  | rfl
  | (intro kind2
     show (f.robot i).anomalyCooldownUntilTs.get kind2 ≤
       ((f.robot i).anomalyCooldownUntilTs.set AnomalyKey.offline
         (f.updatedAtTs + ANOMALY_COOLDOWN_MS AnomalyKey.offline)).get kind2
     rw [cooldown_get_set]
     split
     · rename_i he
       rw [he]
       have hcg := guard_canTrigger f.mode (f.robot i) f.updatedAtTs AnomalyKey.offline hguard
       have hnn := anomaly_cooldown_nonneg AnomalyKey.offline
       linarith
     · exact le_refl _)
  | (intro hL
     exact robotLink_self f i hL _ rfl rfl)
  | (intro hv hL hn
     have h := hn _ (robot_mem f i hi)
     exact ⟨h.1, h.2.1, h.2.2.1, h.2.2.2.1, h.2.2.2.2.1, h.2.2.2.2.2.1, h.2.2.2.2.2.2⟩)

theorem fire_geofence_ok (env : Env) (f : Fleet) (i : ℕ) (bucket : FleetTickResult) (k : ℕ)
    (hi : i < f.robots.length)
    (hguard : anomalyStatusGuard f.mode (f.robot i) f.updatedAtTs AnomalyKey.geofence = true) :
    SubStep env i f (fireGeofence env f i bucket k).1 ∧
    RobotLocal ((fireGeofence env f i bucket k).1.robot i) := by
  unfold fireGeofence
  dsimp only
  split
  all_goals dsimp only
  all_goals refine ⟨subStep_trans ?_ (subStep_trans (setStatus_ok env _ i _ _ _
      (by rw [setRobot_robots_length]; exact hi)).1 (subStep_pushAnomalySignal env i _ _ _)),
    (setStatus_ok env _ i _ _ _ (by rw [setRobot_robots_length]; exact hi)).2⟩
  all_goals apply subStep_setRobot
  all_goals first
  | rfl
  | (intro kind2
     show (f.robot i).anomalyCooldownUntilTs.get kind2 ≤
       ((f.robot i).anomalyCooldownUntilTs.set AnomalyKey.geofence
         (f.updatedAtTs + ANOMALY_COOLDOWN_MS AnomalyKey.geofence)).get kind2
     rw [cooldown_get_set]
     split
     · rename_i he
       rw [he]
       have hcg := guard_canTrigger f.mode (f.robot i) f.updatedAtTs AnomalyKey.geofence hguard
       have hnn := anomaly_cooldown_nonneg AnomalyKey.geofence
       linarith
     · exact le_refl _)
  | (intro hL
     exact robotLink_self f i hL _ rfl rfl)
  | (intro hv hL hn
     have h := hn _ (robot_mem f i hi)
     exact ⟨h.1, h.2.1, h.2.2.1, h.2.2.2.1, h.2.2.2.2.1, h.2.2.2.2.2.1, h.2.2.2.2.2.2⟩)

theorem tryGeofence_ok (env : Env) (f : Fleet) (i : ℕ) (bucket : FleetTickResult) (k : ℕ)
    (hi : i < f.robots.length) :
    SubStep env i f (tryGeofence env f i bucket k).1 ∧
    (RobotLocal (f.robot i) → RobotLocal ((tryGeofence env f i bucket k).1.robot i)) := by
  unfold tryGeofence
  split
  · split
    · exact and_imp_right (fire_geofence_ok env f i bucket (k + 1) hi (by assumption))
    · exact ⟨subStep_refl env i f, fun h => h⟩
  · exact ⟨subStep_refl env i f, fun h => h⟩

theorem tryOffline_ok (env : Env) (f : Fleet) (i : ℕ) (bucket : FleetTickResult) (k : ℕ)
    (hi : i < f.robots.length) :
    SubStep env i f (tryOffline env f i bucket k).1 ∧
    (RobotLocal (f.robot i) → RobotLocal ((tryOffline env f i bucket k).1.robot i)) := by
  unfold tryOffline
  split
  · split
    · exact and_imp_right (fire_offline_ok env f i bucket (k + 1) hi (by assumption))
    · exact tryGeofence_ok env f i bucket (k + 1) hi
  · exact tryGeofence_ok env f i bucket k hi

theorem tryStuck_ok (env : Env) (f : Fleet) (i : ℕ) (bucket : FleetTickResult) (k : ℕ)
    (hi : i < f.robots.length) :
    SubStep env i f (tryStuck env f i bucket k).1 ∧
    (RobotLocal (f.robot i) → RobotLocal ((tryStuck env f i bucket k).1.robot i)) := by
  unfold tryStuck
  split
  · split
    · exact and_imp_right (fire_stuck_ok env f i bucket (k + 1) hi (by assumption))
    · exact tryOffline_ok env f i bucket (k + 1) hi
  · exact tryOffline_ok env f i bucket k hi

theorem trySensorFail_ok (env : Env) (f : Fleet) (i : ℕ) (bucket : FleetTickResult) (k : ℕ)
    (hi : i < f.robots.length) :
    SubStep env i f (trySensorFail env f i bucket k).1 ∧
    (RobotLocal (f.robot i) → RobotLocal ((trySensorFail env f i bucket k).1.robot i)) := by
  unfold trySensorFail
  split
  · split
    · exact and_imp_right (fire_sensorFail_ok env f i bucket (k + 1) hi (by assumption))
    · exact tryStuck_ok env f i bucket (k + 1) hi
  · exact tryStuck_ok env f i bucket k hi

theorem applyAnomalies_ok (env : Env) (f : Fleet) (i : ℕ) (bucket : FleetTickResult) (k : ℕ)
    (hi : i < f.robots.length) :
    SubStep env i f (applyAnomalies env f i bucket k).1 ∧
    (RobotLocal (f.robot i) → RobotLocal (((applyAnomalies env f i bucket k).1).robot i)) := by
  unfold applyAnomalies
  split
  · split
    · exact and_imp_right (fire_localization_ok env f i bucket (k + 1) hi (by assumption))
    · exact trySensorFail_ok env f i bucket (k + 1) hi
  · exact trySensorFail_ok env f i bucket k hi
theorem robotLocal_congr (r r2 : Robot) (hst : r2.status = r.status)
    (hmid : r2.missionId = r.missionId) (h : RobotLocal r) : RobotLocal r2 := by
  constructor
  · intro hb
    rw [hst] at hb
    rw [hmid]
    exact h.1 hb
  · intro hb
    rw [hst] at hb
    rw [hmid]
    exact h.2 hb

theorem pstep_comp {env : Env} {i : ℕ} {f g h : Fleet}
    (h1 : SubStep env i f g ∧ (RobotLocal (f.robot i) → RobotLocal (g.robot i)))
    (h2 : SubStep env i g h ∧ (RobotLocal (g.robot i) → RobotLocal (h.robot i))) :
    SubStep env i f h ∧ (RobotLocal (f.robot i) → RobotLocal (h.robot i)) :=
  ⟨subStep_trans h1.1 h2.1, fun hl => h2.2 (h1.2 hl)⟩

/-- The metrics/recovery/mission/transition/anomaly tail of the per-robot
tick pipeline, from an arbitrary post-heartbeat fleet `g`. -/
theorem tickPipeline_ok (env : Env) (f g : Fleet) (bucket : FleetTickResult) (k1 : ℕ) (i : ℕ)
    (hi : i < f.robots.length)
    (hg : SubStep env i f g)
    (hloc : RobotLocal (f.robot i) → RobotLocal (g.robot i)) :
    SubStep env i f (applyAnomalies env (applyTransitions env (updateMissionProgress env (g.setRobot i (updateSensorRecovery env (updateBaseMetrics env (g.robot i) k1).1 (updateBaseMetrics env (g.robot i) k1).2).1) i (updateSensorRecovery env (updateBaseMetrics env (g.robot i) k1).1 (updateBaseMetrics env (g.robot i) k1).2).2).1 i (updateMissionProgress env (g.setRobot i (updateSensorRecovery env (updateBaseMetrics env (g.robot i) k1).1 (updateBaseMetrics env (g.robot i) k1).2).1) i (updateSensorRecovery env (updateBaseMetrics env (g.robot i) k1).1 (updateBaseMetrics env (g.robot i) k1).2).2).2).1 i bucket (applyTransitions env (updateMissionProgress env (g.setRobot i (updateSensorRecovery env (updateBaseMetrics env (g.robot i) k1).1 (updateBaseMetrics env (g.robot i) k1).2).1) i (updateSensorRecovery env (updateBaseMetrics env (g.robot i) k1).1 (updateBaseMetrics env (g.robot i) k1).2).2).1 i (updateMissionProgress env (g.setRobot i (updateSensorRecovery env (updateBaseMetrics env (g.robot i) k1).1 (updateBaseMetrics env (g.robot i) k1).2).1) i (updateSensorRecovery env (updateBaseMetrics env (g.robot i) k1).1 (updateBaseMetrics env (g.robot i) k1).2).2).2).2).1 ∧
    (RobotLocal (f.robot i) → RobotLocal (((applyAnomalies env (applyTransitions env (updateMissionProgress env (g.setRobot i (updateSensorRecovery env (updateBaseMetrics env (g.robot i) k1).1 (updateBaseMetrics env (g.robot i) k1).2).1) i (updateSensorRecovery env (updateBaseMetrics env (g.robot i) k1).1 (updateBaseMetrics env (g.robot i) k1).2).2).1 i (updateMissionProgress env (g.setRobot i (updateSensorRecovery env (updateBaseMetrics env (g.robot i) k1).1 (updateBaseMetrics env (g.robot i) k1).2).1) i (updateSensorRecovery env (updateBaseMetrics env (g.robot i) k1).1 (updateBaseMetrics env (g.robot i) k1).2).2).2).1 i bucket (applyTransitions env (updateMissionProgress env (g.setRobot i (updateSensorRecovery env (updateBaseMetrics env (g.robot i) k1).1 (updateBaseMetrics env (g.robot i) k1).2).1) i (updateSensorRecovery env (updateBaseMetrics env (g.robot i) k1).1 (updateBaseMetrics env (g.robot i) k1).2).2).1 i (updateMissionProgress env (g.setRobot i (updateSensorRecovery env (updateBaseMetrics env (g.robot i) k1).1 (updateBaseMetrics env (g.robot i) k1).2).1) i (updateSensorRecovery env (updateBaseMetrics env (g.robot i) k1).1 (updateBaseMetrics env (g.robot i) k1).2).2).2).2).1).robot i)) := by
  have hglen : i < g.robots.length := by
    rw [hg.2.2.1]
    exact hi
  have hbm := updateBaseMetrics_fields env (g.robot i) k1
  have hsc := updateSensorRecovery_core env (updateBaseMetrics env (g.robot i) k1).1 (updateBaseMetrics env (g.robot i) k1).2
  have hid2 : (updateSensorRecovery env (updateBaseMetrics env (g.robot i) k1).1 (updateBaseMetrics env (g.robot i) k1).2).1.robotId = (g.robot i).robotId := hsc.1.trans hbm.1
  have hst2 : (updateSensorRecovery env (updateBaseMetrics env (g.robot i) k1).1 (updateBaseMetrics env (g.robot i) k1).2).1.status = (g.robot i).status := hsc.2.1.trans hbm.2.1
  have hmid2 : (updateSensorRecovery env (updateBaseMetrics env (g.robot i) k1).1 (updateBaseMetrics env (g.robot i) k1).2).1.missionId = (g.robot i).missionId := hsc.2.2.1.trans hbm.2.2.1
  have hcd2 : (updateSensorRecovery env (updateBaseMetrics env (g.robot i) k1).1 (updateBaseMetrics env (g.robot i) k1).2).1.anomalyCooldownUntilTs = (g.robot i).anomalyCooldownUntilTs :=
    hsc.2.2.2.2.2.2.2.2.2.trans hbm.2.2.2.2.2.2.2
  have hr2sub : SubStep env i g (g.setRobot i (updateSensorRecovery env (updateBaseMetrics env (g.robot i) k1).1 (updateBaseMetrics env (g.robot i) k1).2).1) := by
    apply subStep_setRobot
    · exact hid2
    · intro kind
      exact le_of_eq (by rw [hcd2])
    · intro hL
      exact robotLink_self g i hL _ hmid2 hid2
    · intro hv hL hn
      exact robotNum_of_core env.pi _ _ hsc
        (updateBaseMetrics_num env (g.robot i) k1 env.pi
          (robotNum_robot env.pi (by have := hv.2.2.1; linarith) g i hn))
  have hf2 : SubStep env i f (g.setRobot i (updateSensorRecovery env (updateBaseMetrics env (g.robot i) k1).1 (updateBaseMetrics env (g.robot i) k1).2).1) ∧
      (RobotLocal (f.robot i) → RobotLocal (((g.setRobot i (updateSensorRecovery env (updateBaseMetrics env (g.robot i) k1).1 (updateBaseMetrics env (g.robot i) k1).2).1)).robot i)) := by
    refine pstep_comp ⟨hg, hloc⟩ ⟨hr2sub, ?_⟩
    intro h
    rw [robot_setRobot_self _ _ _ hglen]
    exact robotLocal_congr _ _ hst2 hmid2 h
  have hi2 : i < ((g.setRobot i (updateSensorRecovery env (updateBaseMetrics env (g.robot i) k1).1 (updateBaseMetrics env (g.robot i) k1).2).1)).robots.length := by
    rw [setRobot_robots_length]
    exact hglen
  have hump := updateMissionProgress_ok env (g.setRobot i (updateSensorRecovery env (updateBaseMetrics env (g.robot i) k1).1 (updateBaseMetrics env (g.robot i) k1).2).1) i (updateSensorRecovery env (updateBaseMetrics env (g.robot i) k1).1 (updateBaseMetrics env (g.robot i) k1).2).2 hi2
  have hi3 : i < (updateMissionProgress env (g.setRobot i (updateSensorRecovery env (updateBaseMetrics env (g.robot i) k1).1 (updateBaseMetrics env (g.robot i) k1).2).1) i (updateSensorRecovery env (updateBaseMetrics env (g.robot i) k1).1 (updateBaseMetrics env (g.robot i) k1).2).2).1.robots.length := by
    rw [hump.1.2.2.1]
    exact hi2
  have htr := applyTransitions_ok env (updateMissionProgress env (g.setRobot i (updateSensorRecovery env (updateBaseMetrics env (g.robot i) k1).1 (updateBaseMetrics env (g.robot i) k1).2).1) i (updateSensorRecovery env (updateBaseMetrics env (g.robot i) k1).1 (updateBaseMetrics env (g.robot i) k1).2).2).1 i (updateMissionProgress env (g.setRobot i (updateSensorRecovery env (updateBaseMetrics env (g.robot i) k1).1 (updateBaseMetrics env (g.robot i) k1).2).1) i (updateSensorRecovery env (updateBaseMetrics env (g.robot i) k1).1 (updateBaseMetrics env (g.robot i) k1).2).2).2 hi3
  have hi4 : i < (applyTransitions env (updateMissionProgress env (g.setRobot i (updateSensorRecovery env (updateBaseMetrics env (g.robot i) k1).1 (updateBaseMetrics env (g.robot i) k1).2).1) i (updateSensorRecovery env (updateBaseMetrics env (g.robot i) k1).1 (updateBaseMetrics env (g.robot i) k1).2).2).1 i (updateMissionProgress env (g.setRobot i (updateSensorRecovery env (updateBaseMetrics env (g.robot i) k1).1 (updateBaseMetrics env (g.robot i) k1).2).1) i (updateSensorRecovery env (updateBaseMetrics env (g.robot i) k1).1 (updateBaseMetrics env (g.robot i) k1).2).2).2).1.robots.length := by
    rw [htr.1.2.2.1]
    exact hi3
  have han := applyAnomalies_ok env (applyTransitions env (updateMissionProgress env (g.setRobot i (updateSensorRecovery env (updateBaseMetrics env (g.robot i) k1).1 (updateBaseMetrics env (g.robot i) k1).2).1) i (updateSensorRecovery env (updateBaseMetrics env (g.robot i) k1).1 (updateBaseMetrics env (g.robot i) k1).2).2).1 i (updateMissionProgress env (g.setRobot i (updateSensorRecovery env (updateBaseMetrics env (g.robot i) k1).1 (updateBaseMetrics env (g.robot i) k1).2).1) i (updateSensorRecovery env (updateBaseMetrics env (g.robot i) k1).1 (updateBaseMetrics env (g.robot i) k1).2).2).2).1 i bucket (applyTransitions env (updateMissionProgress env (g.setRobot i (updateSensorRecovery env (updateBaseMetrics env (g.robot i) k1).1 (updateBaseMetrics env (g.robot i) k1).2).1) i (updateSensorRecovery env (updateBaseMetrics env (g.robot i) k1).1 (updateBaseMetrics env (g.robot i) k1).2).2).1 i (updateMissionProgress env (g.setRobot i (updateSensorRecovery env (updateBaseMetrics env (g.robot i) k1).1 (updateBaseMetrics env (g.robot i) k1).2).1) i (updateSensorRecovery env (updateBaseMetrics env (g.robot i) k1).1 (updateBaseMetrics env (g.robot i) k1).2).2).2).2 hi4
  exact pstep_comp (pstep_comp (pstep_comp hf2 hump) htr) han

theorem tickRobotStep_ok (env : Env) (f : Fleet) (bucket : FleetTickResult) (k : ℕ) (i : ℕ)
    (hi : i < f.robots.length) :
    SubStep env i f (tickRobotStep env (f, bucket, k) i).1 ∧
    (RobotLocal (f.robot i) → RobotLocal (((tickRobotStep env (f, bucket, k) i).1).robot i)) := by
  unfold tickRobotStep
  dsimp only
  split
  · refine tickPipeline_ok env f _ bucket k i hi ?_ ?_
    · apply subStep_setRobot
      · rfl
      · intro kind
        exact le_refl _
      · intro hL
        exact robotLink_self f i hL _ rfl rfl
      · intro hv hL hn
        have h := hn _ (robot_mem f i hi)
        exact ⟨h.1, h.2.1, h.2.2.1, h.2.2.2.1, h.2.2.2.2.1, h.2.2.2.2.2.1, h.2.2.2.2.2.2⟩
    · intro h
      rw [robot_setRobot_self _ _ _ hi]
      exact robotLocal_congr _ _ rfl rfl h
  · exact tickPipeline_ok env f f bucket k i hi (subStep_refl env i f) (fun h => h)

theorem robot_eq_getElem (f : Fleet) (j : ℕ) (hj : j < f.robots.length) :
    f.robot j = f.robots[j] := by
  unfold Fleet.robot
  rw [List.getD_eq_getElem?_getD, List.getElem?_eq_getElem hj]
  rfl

/-- A per-robot pipeline stage, together with its local-discipline
clause, is a full invariant-preserving step. -/
theorem stepOK_of_pstep (env : Env) (i : ℕ) (f g : Fleet)
    (hs : SubStep env i f g) (hl : RobotLocal (f.robot i) → RobotLocal (g.robot i)) :
    StepOK env f g := by
  constructor
  · intro hInv
    obtain ⟨hev, hL2⟩ := hs.1 hInv.2
    refine ⟨hev, ?_, hL2⟩
    intro r hr
    obtain ⟨j, hj, hjr⟩ := List.mem_iff_getElem.mp hr
    have hjlen : j < f.robots.length := by rw [← hs.2.2.1]; exact hj
    by_cases hij : j = i
    · subst hij
      have : r = g.robot j := by
        rw [robot_eq_getElem g j hj]
        exact hjr.symm
      rw [this]
      exact hl (hInv.1 (f.robot j) (robot_mem f j hjlen))
    · have : r = g.robot j := by
        rw [robot_eq_getElem g j hj]
        exact hjr.symm
      rw [this, hs.2.1 j hij]
      exact hInv.1 (f.robot j) (robot_mem f j hjlen)
  · intro hv hInv hn
    exact hs.2.2.2 hv hInv.2 hn

/-- Setting the activation timestamp and bumping the tick counter. -/
theorem stepOK_stamp (env : Env) (f : Fleet) (now : ℚ) :
    StepOK env f ({ f with updatedAtTs := now, tick := f.tick + 1 } : Fleet) :=
  ⟨fun h => ⟨⟨sameRobots_rfl, le_refl _, fun mid m hm => ⟨m, hm, le_refl _, rfl⟩,
    fun _ _ => le_refl _⟩, h⟩, fun _ _ h => h⟩

theorem tickFold_ok (env : Env) (f1 : Fleet) (l : List ℕ) :
    ∀ st : Fleet × FleetTickResult × ℕ,
    (∀ j ∈ l, j < f1.robots.length) →
    st.1.robots.length = f1.robots.length →
    StepOK env st.1 (l.foldl (tickRobotStep env) st).1 ∧
    (l.foldl (tickRobotStep env) st).1.robots.length = f1.robots.length := by
  induction l with
  | nil =>
    intro st _ hlen
    exact ⟨stepOK_refl env st.1, hlen⟩
  | cons j rest ih =>
    rintro ⟨sf, sb, sk⟩ hmem hlen
    rw [List.foldl_cons]
    have hj : j < sf.robots.length := by
      rw [hlen]
      exact hmem j (List.mem_cons_self j rest)
    have hstep := tickRobotStep_ok env sf sb sk j hj
    have hSK := stepOK_of_pstep env j sf _ hstep.1 hstep.2
    have hlen2 : (tickRobotStep env (sf, sb, sk) j).1.robots.length = f1.robots.length := by
      rw [hstep.1.2.2.1]
      exact hlen
    have hrest := ih (tickRobotStep env (sf, sb, sk) j)
      (fun x hx => hmem x (List.mem_cons_of_mem j hx)) hlen2
    exact ⟨stepOK_trans hSK hrest.1, hrest.2⟩

/-- One full fleet tick preserves the fleet invariant and the numeric
ranges, and only evolves the fleet. -/
theorem tickFleetState_ok (env : Env) (f : Fleet) (now : ℚ) (k : ℕ) :
    StepOK env f (tickFleetState env f now k).1 := by
  unfold tickFleetState
  dsimp only
  refine stepOK_trans (stepOK_stamp env f now) ?_
  exact (tickFold_ok env ({ f with updatedAtTs := now, tick := f.tick + 1 } : Fleet)
    (List.range ({ f with updatedAtTs := now, tick := f.tick + 1 } : Fleet).robots.length)
    (({ f with updatedAtTs := now, tick := f.tick + 1 } : Fleet), ⟨[], []⟩, k)
    (fun j hj => List.mem_range.mp hj) rfl).1

/-- Appending a fresh robot preserves the invariants and extends the
robot-id roster. -/
theorem append_robot_inv (env : Env) (f : Fleet) (r : Robot) (index : ℕ)
    (hInv : FleetInv f) (hnum : NumInv env.pi f)
    (hids : f.robots.map Robot.robotId = List.range index)
    (hrnum : RobotNum env.pi r)
    (hst : r.status = RobotStatus.IDLE) (hmid : r.missionId = none)
    (hrid : r.robotId = index) :
    FleetInv ({ f with robots := f.robots ++ [r] } : Fleet) ∧
    NumInv env.pi ({ f with robots := f.robots ++ [r] } : Fleet) ∧
    ({ f with robots := f.robots ++ [r] } : Fleet).robots.map Robot.robotId =
      List.range (index + 1) := by
  have hmap : (f.robots ++ [r]).map Robot.robotId = List.range (index + 1) := by
    rw [List.map_append, hids]
    show List.range index ++ [r.robotId] = _
    rw [hrid, List.range_succ]
  refine ⟨⟨?_, ?_, ?_, ?_, ?_⟩, ?_, hmap⟩
  · intro rr hrr
    rcases List.mem_append.mp hrr with hmem | hone
    · exact hInv.1 rr hmem
    · rw [List.mem_singleton.mp hone]
      exact robotLocal_completed r hmid hst
  · intro rr hrr
    rcases List.mem_append.mp hrr with hmem | hone
    · exact hInv.2.1 rr hmem
    · rw [List.mem_singleton.mp hone]
      intro mid hm
      rw [hmid] at hm
      simp at hm
  · intro p hp
    exact hInv.2.2.1 p hp
  · show ((f.robots ++ [r]).map Robot.robotId).Pairwise (· ≠ ·)
    rw [hmap, List.range_eq_range']
    exact (range'_pairwise_lt 0 (index + 1)).imp (fun h => Nat.ne_of_lt h)
  · exact hInv.2.2.2.2
  · intro rr hrr
    rcases List.mem_append.mp hrr with hmem | hone
    · exact hnum rr hmem
    · rw [List.mem_singleton.mp hone]
      exact hrnum

/-- Seeding one robot in the loop of `createFleetState` keeps the
invariants and extends the roster by the seeded index. -/
theorem createStep_inv (env : Env) (hv : EnvValid env) (mode : OpsMode) (now : ℚ)
    (f : Fleet) (k : ℕ) (index : ℕ)
    (hInv : FleetInv f) (hnum : NumInv env.pi f)
    (hids : f.robots.map Robot.robotId = List.range index) :
    FleetInv (createFleetRobotStep env mode now (f, k) index).1 ∧
    NumInv env.pi (createFleetRobotStep env mode now (f, k) index).1 ∧
    (createFleetRobotStep env mode now (f, k) index).1.robots.map Robot.robotId =
      List.range (index + 1) := by
  have hpi := hv.2.2.1
  have hfin : ∀ (fa : Fleet) (k1 i1 : ℕ) (S : RobotStatus),
      FleetInv fa → NumInv env.pi fa →
      fa.robots.map Robot.robotId = List.range (index + 1) →
      fa.robots.length = index + 1 → i1 = fa.robots.length - 1 →
      FleetInv (setStatus env fa i1 S none k1).1 ∧
      NumInv env.pi (setStatus env fa i1 S none k1).1 ∧
      ((setStatus env fa i1 S none k1).1).robots.map Robot.robotId =
        List.range (index + 1) ∧
      ((setStatus env fa i1 S none k1).1).robots.length = index + 1 := by
    intro fa k1 i1 S hI hN hm hlen hi1
    have hilt : i1 < fa.robots.length := by omega
    have hss := setStatus_ok env fa i1 S none k1 hilt
    have hSK := stepOK_of_pstep env i1 fa _ hss.1 fun _ => hss.2
    obtain ⟨hev, hI2⟩ := hSK.1 hI
    refine ⟨hI2, hSK.2 hv hI hN, Eq.trans hev.1 hm, ?_⟩
    rw [hss.1.2.2.1]
    exact hlen
  unfold createFleetRobotStep
  dsimp only
  cases mode
  · -- DELIVERY
    dsimp only
    rcases hd0 : sampleDeliverySpawnPoint env k with ⟨sp, k1⟩
    dsimp only
    rcases hd1 : randomFloat env 45 95 k1 with ⟨battery, k2⟩
    dsimp only
    rcases hd2 : randomFloat env 28 45 k2 with ⟨temp, k3⟩
    dsimp only
    rcases hd3 : randomFloat env 0.8 0.99 k3 with ⟨conf, k4⟩
    dsimp only
    rcases hd4 : randomInt env 0 3 k4 with ⟨faults, k5⟩
    dsimp only
    rcases hd5 : randomFloat env 0 (env.pi * 2) k5 with ⟨heading, k6⟩
    dsimp only
    rcases hd6 : randomSensorStatus env k6 with ⟨lidar, k7⟩
    dsimp only
    rcases hd7 : randomSensorStatus env k7 with ⟨cam, k8⟩
    dsimp only
    rcases hd8 : randomSensorStatus env k8 with ⟨gps, k9⟩
    dsimp only
    rcases hd9 : randomSensorStatus env k9 with ⟨imu, k10⟩
    dsimp only
    have hB := randomFloat_bounds env hv 45 95 k1 (by norm_num)
    rw [hd1] at hB
    dsimp only at hB
    have hC := randomFloat_bounds env hv 0.8 0.99 k3 (by norm_num)
    rw [hd3] at hC
    dsimp only at hC
    have hH := randomFloat_bounds env hv 0 (env.pi * 2) k5 (by linarith)
    rw [hd5] at hH
    dsimp only at hH
    have hHlt : heading < env.pi * 2 := hH.2.2 (by linarith)
    have hR : RobotNum env.pi
        { robotId := index, status := RobotStatus.IDLE, battery := battery, temp := temp
          speed := 0, localizationConfidence := conf, lastHeartbeatTs := now
          missionId := none, faults24h := faults.toNat
          pose := { x := sp.x, y := sp.y, heading := heading }
          sensors := ⟨lidar, cam, gps, imu⟩, stuckUntilTs := none, offlineUntilTs := none
          anomalyCooldownUntilTs := ⟨0, 0, 0, 0, 0⟩ } := by
      refine ⟨?_, ?_, ?_, ?_, ?_, ?_, ?_⟩
      · exact le_trans (by norm_num) hB.1
      · exact le_trans hB.2.1 (by norm_num)
      · exact le_refl 0
      · exact le_trans (by norm_num) hC.1
      · exact le_trans hC.2.1 (by norm_num)
      · exact lt_of_lt_of_le (by linarith) hH.1
      · exact lt_of_lt_of_eq hHlt (mul_comm env.pi 2)
    obtain ⟨hIa, hNa, hma⟩ := append_robot_inv env f _ index hInv hnum hids hR rfl rfl rfl
    have hlen0 := congrArg List.length hma
    simp only [List.length_map, List.length_range] at hlen0
    split
    · exact (fun h => ⟨h.1, h.2.1, h.2.2.1⟩)
        (hfin _ _ _ RobotStatus.ON_MISSION hIa hNa hma hlen0 rfl)
    · obtain ⟨h1a, h1b, h1c, h1d⟩ :=
        hfin _ k10 _ RobotStatus.ON_MISSION hIa hNa hma hlen0 rfl
      refine (fun h => ⟨h.1, h.2.1, h.2.2.1⟩)
        (hfin _ _ _ RobotStatus.NEED_ASSIST h1a h1b h1c h1d ?_)
      omega
    · exact (fun h => ⟨h.1, h.2.1, h.2.2.1⟩)
        (hfin _ _ _ RobotStatus.FAULT hIa hNa hma hlen0 rfl)
    · exact (fun h => ⟨h.1, h.2.1, h.2.2.1⟩)
        (hfin _ _ _ RobotStatus.OFFLINE hIa hNa hma hlen0 rfl)
    · exact ⟨hIa, hNa, hma⟩
  · -- WAREHOUSE
    dsimp only
    rcases hw0 : randomFloat env 0 100 k with ⟨x, kx⟩
    dsimp only
    rcases hw1 : randomFloat env 0 100 kx with ⟨y, k1⟩
    dsimp only
    rcases hd1 : randomFloat env 45 95 k1 with ⟨battery, k2⟩
    dsimp only
    rcases hd2 : randomFloat env 28 45 k2 with ⟨temp, k3⟩
    dsimp only
    rcases hd3 : randomFloat env 0.8 0.99 k3 with ⟨conf, k4⟩
    dsimp only
    rcases hd4 : randomInt env 0 3 k4 with ⟨faults, k5⟩
    dsimp only
    rcases hd5 : randomFloat env 0 (env.pi * 2) k5 with ⟨heading, k6⟩
    dsimp only
    rcases hd6 : randomSensorStatus env k6 with ⟨lidar, k7⟩
    dsimp only
    rcases hd7 : randomSensorStatus env k7 with ⟨cam, k8⟩
    dsimp only
    rcases hd8 : randomSensorStatus env k8 with ⟨gps, k9⟩
    dsimp only
    rcases hd9 : randomSensorStatus env k9 with ⟨imu, k10⟩
    dsimp only
    have hB := randomFloat_bounds env hv 45 95 k1 (by norm_num)
    rw [hd1] at hB
    dsimp only at hB
    have hC := randomFloat_bounds env hv 0.8 0.99 k3 (by norm_num)
    rw [hd3] at hC
    dsimp only at hC
    have hH := randomFloat_bounds env hv 0 (env.pi * 2) k5 (by linarith)
    rw [hd5] at hH
    dsimp only at hH
    have hHlt : heading < env.pi * 2 := hH.2.2 (by linarith)
    have hR : RobotNum env.pi
        { robotId := index, status := RobotStatus.IDLE, battery := battery, temp := temp
          speed := 0, localizationConfidence := conf, lastHeartbeatTs := now
          missionId := none, faults24h := faults.toNat
          pose := { x := x, y := y, heading := heading }
          sensors := ⟨lidar, cam, gps, imu⟩, stuckUntilTs := none, offlineUntilTs := none
          anomalyCooldownUntilTs := ⟨0, 0, 0, 0, 0⟩ } := by
      refine ⟨?_, ?_, ?_, ?_, ?_, ?_, ?_⟩
      · exact le_trans (by norm_num) hB.1
      · exact le_trans hB.2.1 (by norm_num)
      · exact le_refl 0
      · exact le_trans (by norm_num) hC.1
      · exact le_trans hC.2.1 (by norm_num)
      · exact lt_of_lt_of_le (by linarith) hH.1
      · exact lt_of_lt_of_eq hHlt (mul_comm env.pi 2)
    obtain ⟨hIa, hNa, hma⟩ := append_robot_inv env f _ index hInv hnum hids hR rfl rfl rfl
    have hlen0 := congrArg List.length hma
    simp only [List.length_map, List.length_range] at hlen0
    split
    · exact (fun h => ⟨h.1, h.2.1, h.2.2.1⟩)
        (hfin _ _ _ RobotStatus.ON_MISSION hIa hNa hma hlen0 rfl)
    · obtain ⟨h1a, h1b, h1c, h1d⟩ :=
        hfin _ k10 _ RobotStatus.ON_MISSION hIa hNa hma hlen0 rfl
      refine (fun h => ⟨h.1, h.2.1, h.2.2.1⟩)
        (hfin _ _ _ RobotStatus.NEED_ASSIST h1a h1b h1c h1d ?_)
      omega
    · exact (fun h => ⟨h.1, h.2.1, h.2.2.1⟩)
        (hfin _ _ _ RobotStatus.FAULT hIa hNa hma hlen0 rfl)
    · exact (fun h => ⟨h.1, h.2.1, h.2.2.1⟩)
        (hfin _ _ _ RobotStatus.OFFLINE hIa hNa hma hlen0 rfl)
    · exact ⟨hIa, hNa, hma⟩

/-- The seeding fold of `createFleetState` builds the invariants from
any state whose roster is already `0, ..., a-1`. -/
theorem createFold_inv (env : Env) (hv : EnvValid env) (mode : OpsMode) (now : ℚ) :
    ∀ (m a : ℕ) (st : Fleet × ℕ),
    FleetInv st.1 → NumInv env.pi st.1 →
    st.1.robots.map Robot.robotId = List.range a →
    FleetInv ((List.range' a m).foldl (createFleetRobotStep env mode now) st).1 ∧
    NumInv env.pi ((List.range' a m).foldl (createFleetRobotStep env mode now) st).1 ∧
    ((List.range' a m).foldl (createFleetRobotStep env mode now) st).1.robots.map
      Robot.robotId = List.range (a + m) := by
  intro m
  induction m with
  | zero =>
    intro a st h1 h2 h3
    simpa using ⟨h1, h2, h3⟩
  | succ n ih =>
    intro a st h1 h2 h3
    obtain ⟨f0, k0⟩ := st
    rw [List.range'_succ, List.foldl_cons]
    obtain ⟨hA, hB, hC⟩ := createStep_inv env hv mode now f0 k0 a h1 h2 h3
    rw [show a + (n + 1) = a + 1 + n by omega]
    exact ih (a + 1) (createFleetRobotStep env mode now (f0, k0) a) hA hB hC

/-- `createFleetState` establishes the fleet invariant and the numeric
ranges. -/
theorem createFleetState_inv (env : Env) (hv : EnvValid env) (c now : ℚ) (mode : OpsMode)
    (k : ℕ) :
    FleetInv (createFleetState env c now mode k).1 ∧
    NumInv env.pi (createFleetState env c now mode k).1 := by
  have h0 : FleetInv ({ mode := mode, robots := [], missions := [], tick := 0
                        updatedAtTs := now, modeChangedAtTs := now, nextMissionSeq := 1
                        nextIncidentSeq := 1, nextEventSeq := 1 } : Fleet) ∧
      NumInv env.pi ({ mode := mode, robots := [], missions := [], tick := 0
                       updatedAtTs := now, modeChangedAtTs := now, nextMissionSeq := 1
                       nextIncidentSeq := 1, nextEventSeq := 1 } : Fleet) ∧
      ({ mode := mode, robots := [], missions := [], tick := 0
         updatedAtTs := now, modeChangedAtTs := now, nextMissionSeq := 1
         nextIncidentSeq := 1, nextEventSeq := 1 } : Fleet).robots.map Robot.robotId =
        List.range 0 := by
    refine ⟨⟨?_, ?_, ?_, ?_, ?_⟩, ?_, ?_⟩ <;>
      simp [RobotIdsDistinct, KeysDistinct, NumInv]
  unfold createFleetState
  dsimp only
  rw [List.range_eq_range']
  have h := createFold_inv env hv mode now (min 20 (max 6 (jsRound c))).toNat 0
    ({ mode := mode, robots := [], missions := [], tick := 0
       updatedAtTs := now, modeChangedAtTs := now, nextMissionSeq := 1
       nextIncidentSeq := 1, nextEventSeq := 1 }, k) h0.1 h0.2.1 h0.2.2
  exact ⟨h.1, h.2.1⟩


/-- Creating a fresh mission for a robot marked ON_MISSION or
NEED_ASSIST is a sub-step that leaves the robot status/mission-id
discipline intact. -/
theorem subStep_switchCreate (env : Env) (now : ℚ) (k : ℕ) (i : ℕ) (f g : Fleet)
    (hg : SubStep env i f g) (ms : MissionStatus) (hms : ms ≠ MissionStatus.COMPLETED)
    (hig : i < g.robots.length)
    (hstat : (g.robot i).status = RobotStatus.ON_MISSION ∨
      (g.robot i).status = RobotStatus.NEED_ASSIST) :
    SubStep env i f (createMissionForRobot env g i now ms k).1 ∧
    (RobotLocal (f.robot i) →
      RobotLocal (((createMissionForRobot env g i now ms k).1).robot i)) := by
  refine ⟨subStep_trans hg (subStep_createMissionForRobot env g i now ms k hms),
    fun _ => ?_⟩
  have hmid := createMission_robot_missionId env g i now ms k hig
  have hst2 := createMission_robot_status env g i now ms k hig
  have hsome : ((createMissionForRobot env g i now ms k).1.robot i).missionId.isSome
      = true := by
    rw [hmid]
    rfl
  refine ⟨fun _ => hsome, fun hbad => ?_⟩
  rcases hstat with hs | hs <;> rw [hst2, hs] at hbad <;>
    rcases hbad with hb | hb <;> exact RobotStatus.noConfusion hb

/-- The per-robot body of `switchFleetMode` is an invariant-preserving
sub-step. -/
theorem switchModeRobotStep_ok (env : Env) (now : ℚ) (f : Fleet) (k : ℕ) (i : ℕ)
    (hi : i < f.robots.length) :
    SubStep env i f (switchModeRobotStep env now (f, k) i).1 ∧
    (RobotLocal (f.robot i) →
      RobotLocal ((switchModeRobotStep env now (f, k) i).1.robot i)) := by
  unfold switchModeRobotStep
  dsimp only
  by_cases hmode : f.mode = OpsMode.DELIVERY
  · rw [if_pos hmode]
    have hGsub := subStep_setRobot env f i
      { f.robot i with
          pose := { (f.robot i).pose with
                      x := (snapToDeliveryRouteGraph env
                          ⟨(f.robot i).pose.x, (f.robot i).pose.y⟩).x
                      y := (snapToDeliveryRouteGraph env
                          ⟨(f.robot i).pose.x, (f.robot i).pose.y⟩).y } }
      rfl (fun kind => le_of_eq rfl) (fun hL => robotLink_self f i hL _ rfl rfl)
      (fun hv2 _ hN => robotNum_robot env.pi (by linarith [hv2.2.2.1]) f i hN)
    have hGloc : RobotLocal (f.robot i) →
        RobotLocal ((f.setRobot i
          { f.robot i with
              pose := { (f.robot i).pose with
                          x := (snapToDeliveryRouteGraph env
                              ⟨(f.robot i).pose.x, (f.robot i).pose.y⟩).x
                          y := (snapToDeliveryRouteGraph env
                              ⟨(f.robot i).pose.x, (f.robot i).pose.y⟩).y } }).robot i) := by
      intro hl
      rw [robot_setRobot_self f i _ hi]
      exact robotLocal_congr _ _ rfl rfl hl
    split
    · rename_i hOM
      exact subStep_switchCreate env now k i f _ hGsub MissionStatus.ACTIVE
        (fun hx => MissionStatus.noConfusion hx)
        (by rw [setRobot_robots_length]; exact hi) (Or.inl hOM)
    · rename_i hnOM
      split
      · rename_i hNA
        exact subStep_switchCreate env now k i f _ hGsub MissionStatus.PAUSED
          (fun hx => MissionStatus.noConfusion hx)
          (by rw [setRobot_robots_length]; exact hi) (Or.inr hNA)
      · exact ⟨hGsub, hGloc⟩
  · rw [if_neg hmode]
    split
    · rename_i hOM
      exact subStep_switchCreate env now k i f f (subStep_refl env i f)
        MissionStatus.ACTIVE (fun hx => MissionStatus.noConfusion hx) hi (Or.inl hOM)
    · rename_i hnOM
      split
      · rename_i hNA
        exact subStep_switchCreate env now k i f f (subStep_refl env i f)
          MissionStatus.PAUSED (fun hx => MissionStatus.noConfusion hx) hi (Or.inr hNA)
      · exact ⟨subStep_refl env i f, fun h => h⟩

/-- The robot fold of `switchFleetMode` is a `StepOK` evolution step. -/
theorem switchFold_ok (env : Env) (now : ℚ) (f1 : Fleet) (l : List ℕ) :
    ∀ st : Fleet × ℕ,
    (∀ j ∈ l, j < f1.robots.length) →
    st.1.robots.length = f1.robots.length →
    StepOK env st.1 (l.foldl (switchModeRobotStep env now) st).1 ∧
    (l.foldl (switchModeRobotStep env now) st).1.robots.length = f1.robots.length := by
  induction l with
  | nil =>
    intro st _ hlen
    exact ⟨stepOK_refl env st.1, hlen⟩
  | cons j t ih =>
    rintro ⟨sf, sk⟩ hmem hlen
    rw [List.foldl_cons]
    have hj : j < sf.robots.length := by
      rw [hlen]
      exact hmem j (List.mem_cons_self j t)
    have hstep := switchModeRobotStep_ok env now sf sk j hj
    have hSO := stepOK_of_pstep env j sf _ hstep.1 hstep.2
    have hlen2 : (switchModeRobotStep env now (sf, sk) j).1.robots.length =
        f1.robots.length := by
      rw [hstep.1.2.2.1]
      exact hlen
    have ht := ih (switchModeRobotStep env now (sf, sk) j)
      (fun j2 hj2 => hmem j2 (List.mem_cons_of_mem j hj2)) hlen2
    exact ⟨stepOK_trans hSO ht.1, ht.2⟩

/-- `switchFleetMode` preserves the fleet invariant and numeric ranges. -/
theorem switchFleetMode_ok (env : Env) (f : Fleet) (mode : OpsMode) (now : ℚ) (k : ℕ) :
    StepOK env f (switchFleetMode env f mode now k).2.1 := by
  unfold switchFleetMode
  dsimp only
  split
  · exact stepOK_refl env f
  · refine stepOK_trans
      (⟨fun h => ⟨⟨rfl, le_refl _, fun mid m hm => ⟨m, hm, le_refl _, rfl⟩,
          fun _ _ => le_refl _⟩, h⟩, fun _ _ h => h⟩ :
        StepOK env f
          ({ f with mode := mode, modeChangedAtTs := now, updatedAtTs := now } : Fleet)) ?_
    exact (switchFold_ok env now f
      (List.range ({ f with mode := mode, modeChangedAtTs := now, updatedAtTs := now } : Fleet).robots.length)
      ({ f with mode := mode, modeChangedAtTs := now, updatedAtTs := now }, k)
      (fun j hj => List.mem_range.mp hj) rfl).1


/-! ## Anomaly phase: at most one firing, cooldown discipline -/

theorem pushAnomalySignal_robot (f : Fleet) (i : ℕ) (bucket : FleetTickResult)
    (p : AnomalySignalPayload) (j : ℕ) :
    ((pushAnomalySignal f i bucket p).1).robot j = f.robot j := rfl

theorem createMission_robot_cooldowns (env : Env) (f : Fleet) (i : ℕ) (now : ℚ)
    (st : MissionStatus) (k : ℕ) (hi : i < f.robots.length) :
    (((createMissionForRobot env f i now st k).1).robot i).anomalyCooldownUntilTs =
      (f.robot i).anomalyCooldownUntilTs := by
  unfold createMissionForRobot
  dsimp only
  split
  · split
    · rw [robot_setRobot_self _ _ _ (by exact hi)]
    · rw [robot_setRobot_self _ _ _ (by exact hi)]
  · rw [robot_setRobot_self _ _ _ (by exact hi)]

theorem createMission_robots_length (env : Env) (f : Fleet) (i : ℕ) (now : ℚ)
    (st : MissionStatus) (k : ℕ) :
    (((createMissionForRobot env f i now st k).1)).robots.length = f.robots.length := by
  unfold createMissionForRobot
  dsimp only
  split
  · split
    · rw [setRobot_robots_length]
    · rw [setRobot_robots_length]
  · rw [setRobot_robots_length]

theorem ensure_robot_cooldowns (env : Env) (f : Fleet) (i : ℕ) (now : ℚ)
    (st : MissionStatus) (k : ℕ) (hi : i < f.robots.length) :
    (((ensureMissionForRobot env f i now st k).1).robot i).anomalyCooldownUntilTs =
      (f.robot i).anomalyCooldownUntilTs := by
  unfold ensureMissionForRobot
  cases hgm : getMissionForRobot f (f.robot i) with
  | some existing => rfl
  | none => exact createMission_robot_cooldowns env f i now st k hi

theorem ensure_robots_length (env : Env) (f : Fleet) (i : ℕ) (now : ℚ)
    (st : MissionStatus) (k : ℕ) :
    (((ensureMissionForRobot env f i now st k).1)).robots.length = f.robots.length := by
  unfold ensureMissionForRobot
  cases hgm : getMissionForRobot f (f.robot i) with
  | some existing => rfl
  | none => exact createMission_robots_length env f i now st k

/-- `setStatus` never touches the anomaly cooldowns of a robot. -/
theorem setStatus_robot_cooldowns (env : Env) (f : Fleet) (i : ℕ) (status : RobotStatus)
    (off : Option ℚ) (k : ℕ) (hi : i < f.robots.length) :
    (((setStatus env f i status off k).1).robot i).anomalyCooldownUntilTs =
      (f.robot i).anomalyCooldownUntilTs := by
  have hi1 : i < (f.setRobot i { f.robot i with status := status }).robots.length := by
    rw [setRobot_robots_length]
    exact hi
  unfold setStatus
  dsimp only
  split
  · -- ON_MISSION
    split <;> first
    | (rw [robot_setRobot_self _ _ _ (by rw [mutateMission_robots, ensure_robots_length, setRobot_robots_length, setRobot_robots_length]; exact hi)]; dsimp only; rw [robot_mutateMission]; rw [ensure_robot_cooldowns env _ i _ _ _ (by rw [setRobot_robots_length, setRobot_robots_length]; exact hi)]; rw [robot_setRobot_self _ _ _ (by rw [setRobot_robots_length]; exact hi)]; dsimp only; rw [robot_setRobot_self _ _ _ hi])
    | (rw [robot_setRobot_self _ _ _ (by rw [mutateMission_robots, ensure_robots_length, setRobot_robots_length]; exact hi)]; dsimp only; rw [robot_mutateMission]; rw [ensure_robot_cooldowns env _ i _ _ _ (by rw [setRobot_robots_length]; exact hi)]; rw [robot_setRobot_self _ _ _ hi])
  · -- NEED_ASSIST
    rw [robot_setRobot_self _ _ _ (by rw [mutateMission_robots, ensure_robots_length, setRobot_robots_length]; exact hi)]
    dsimp only
    rw [robot_mutateMission]
    rw [ensure_robot_cooldowns env _ i _ _ _ (by rw [setRobot_robots_length]; exact hi)]
    rw [robot_setRobot_self _ _ _ hi]
  · -- FAULT
    split <;> first
    | (rw [robot_setRobot_self _ _ _ (by rw [mutateMission_robots]; exact hi1)]; dsimp only; rw [robot_mutateMission]; rw [robot_setRobot_self _ _ _ hi])
    | (rw [robot_setRobot_self _ _ _ (by exact hi1)]; dsimp only; rw [robot_setRobot_self _ _ _ hi])
  · -- OFFLINE
    split <;> split <;> first
    | (rw [robot_mutateMission]; rw [robot_setRobot_self _ _ _ (by exact hi1)]; dsimp only; rw [robot_setRobot_self _ _ _ hi])
    | (rw [robot_setRobot_self _ _ _ (by exact hi1)]; dsimp only; rw [robot_setRobot_self _ _ _ hi])
  · -- IDLE
    split <;> (try split) <;> first
    | (rw [robot_setRobot_self _ _ _ (by rw [mutateMission_robots]; exact hi1)]; dsimp only; rw [robot_mutateMission]; rw [robot_setRobot_self _ _ _ hi])
    | (rw [robot_setRobot_self _ _ _ (by exact hi1)]; dsimp only; rw [robot_setRobot_self _ _ _ hi])

theorem guard_canTrigger_bool (mode : OpsMode) (r : Robot) (now : ℚ) (kind : AnomalyKey)
    (h : anomalyStatusGuard mode r now kind = true) :
    canTriggerAnomaly r kind now = true := by
  cases kind <;> simp only [anomalyStatusGuard, Bool.and_eq_true] at h <;> exact h.2

theorem fireLocalization_cooldown (env : Env) (f : Fleet) (i : ℕ) (bucket : FleetTickResult)
    (k : ℕ) (hi : i < f.robots.length) :
    (((fireLocalization env f i bucket k).1).robot i).anomalyCooldownUntilTs.get .localization
      = f.updatedAtTs + ANOMALY_COOLDOWN_MS .localization := by
  unfold fireLocalization
  dsimp only
  rw [pushAnomalySignal_robot]
  rw [setStatus_robot_cooldowns env _ i _ _ _ (by rw [setRobot_robots_length]; exact hi)]
  rw [robot_setRobot_self _ _ _ hi]
  dsimp only [setAnomalyCooldown]
  rw [cooldown_get_set]
  rw [if_pos rfl]

theorem fireSensorFail_cooldown (env : Env) (f : Fleet) (i : ℕ) (bucket : FleetTickResult)
    (k : ℕ) (hi : i < f.robots.length) :
    (((fireSensorFail env f i bucket k).1).robot i).anomalyCooldownUntilTs.get .sensorFail
      = f.updatedAtTs + ANOMALY_COOLDOWN_MS .sensorFail := by
  unfold fireSensorFail
  dsimp only
  rw [pushAnomalySignal_robot]
  rw [setStatus_robot_cooldowns env _ i _ _ _ (by rw [setRobot_robots_length]; exact hi)]
  rw [robot_setRobot_self _ _ _ hi]
  dsimp only [setAnomalyCooldown]
  rw [cooldown_get_set]
  rw [if_pos rfl]

theorem fireStuck_cooldown (env : Env) (f : Fleet) (i : ℕ) (bucket : FleetTickResult)
    (k : ℕ) (hi : i < f.robots.length) :
    (((fireStuck env f i bucket k).1).robot i).anomalyCooldownUntilTs.get .stuck
      = f.updatedAtTs + ANOMALY_COOLDOWN_MS .stuck := by
  unfold fireStuck
  dsimp only
  rw [pushAnomalySignal_robot]
  rw [setStatus_robot_cooldowns env _ i _ _ _ (by rw [setRobot_robots_length]; exact hi)]
  rw [robot_setRobot_self _ _ _ hi]
  dsimp only [setAnomalyCooldown]
  rw [cooldown_get_set]
  rw [if_pos rfl]

theorem fireOffline_cooldown (env : Env) (f : Fleet) (i : ℕ) (bucket : FleetTickResult)
    (k : ℕ) (hi : i < f.robots.length) :
    (((fireOffline env f i bucket k).1).robot i).anomalyCooldownUntilTs.get .offline
      = f.updatedAtTs + ANOMALY_COOLDOWN_MS .offline := by
  unfold fireOffline
  dsimp only
  rw [pushAnomalySignal_robot]
  rw [setStatus_robot_cooldowns env _ i _ _ _ (by rw [setRobot_robots_length]; exact hi)]
  rw [robot_setRobot_self _ _ _ hi]
  dsimp only [setAnomalyCooldown]
  rw [cooldown_get_set]
  rw [if_pos rfl]

theorem fireGeofence_cooldown (env : Env) (f : Fleet) (i : ℕ) (bucket : FleetTickResult)
    (k : ℕ) (hi : i < f.robots.length) :
    (((fireGeofence env f i bucket k).1).robot i).anomalyCooldownUntilTs.get .geofence
      = f.updatedAtTs + ANOMALY_COOLDOWN_MS .geofence := by
  unfold fireGeofence
  dsimp only
  rw [pushAnomalySignal_robot]
  rw [setStatus_robot_cooldowns env _ i _ _ _ (by rw [setRobot_robots_length]; exact hi)]
  rw [robot_setRobot_self _ _ _ hi]
  dsimp only [setAnomalyCooldown]
  rw [cooldown_get_set]
  rw [if_pos rfl]

theorem tryGeofence_cases (env : Env) (f : Fleet) (i : ℕ) (bucket : FleetTickResult)
    (k : ℕ) (hi : i < f.robots.length) :
    (tryGeofence env f i bucket k).2.1 = bucket ∨
    ∃ kind e inc,
      (tryGeofence env f i bucket k).2.1.events = bucket.events ++ [e] ∧
      (tryGeofence env f i bucket k).2.1.incidents = bucket.incidents ++ [inc] ∧
      e.eventType = anomalyEventType kind ∧
      canTriggerAnomaly (f.robot i) kind f.updatedAtTs = true ∧
      (((tryGeofence env f i bucket k).1).robot i).anomalyCooldownUntilTs.get kind =
        f.updatedAtTs + ANOMALY_COOLDOWN_MS kind := by
  unfold tryGeofence
  split
  · rename_i hg
    split
    · right
      exact ⟨.geofence, _, _, rfl, rfl, rfl, guard_canTrigger_bool _ _ _ _ hg,
        fireGeofence_cooldown env f i bucket (k + 1) hi⟩
    · left
      rfl
  · left
    rfl

theorem tryOffline_cases (env : Env) (f : Fleet) (i : ℕ) (bucket : FleetTickResult)
    (k : ℕ) (hi : i < f.robots.length) :
    (tryOffline env f i bucket k).2.1 = bucket ∨
    ∃ kind e inc,
      (tryOffline env f i bucket k).2.1.events = bucket.events ++ [e] ∧
      (tryOffline env f i bucket k).2.1.incidents = bucket.incidents ++ [inc] ∧
      e.eventType = anomalyEventType kind ∧
      canTriggerAnomaly (f.robot i) kind f.updatedAtTs = true ∧
      (((tryOffline env f i bucket k).1).robot i).anomalyCooldownUntilTs.get kind =
        f.updatedAtTs + ANOMALY_COOLDOWN_MS kind := by
  unfold tryOffline
  split
  · rename_i hg
    split
    · right
      exact ⟨.offline, _, _, rfl, rfl, rfl, guard_canTrigger_bool _ _ _ _ hg,
        fireOffline_cooldown env f i bucket (k + 1) hi⟩
    · exact tryGeofence_cases env f i bucket (k + 1) hi
  · exact tryGeofence_cases env f i bucket k hi

theorem tryStuck_cases (env : Env) (f : Fleet) (i : ℕ) (bucket : FleetTickResult)
    (k : ℕ) (hi : i < f.robots.length) :
    (tryStuck env f i bucket k).2.1 = bucket ∨
    ∃ kind e inc,
      (tryStuck env f i bucket k).2.1.events = bucket.events ++ [e] ∧
      (tryStuck env f i bucket k).2.1.incidents = bucket.incidents ++ [inc] ∧
      e.eventType = anomalyEventType kind ∧
      canTriggerAnomaly (f.robot i) kind f.updatedAtTs = true ∧
      (((tryStuck env f i bucket k).1).robot i).anomalyCooldownUntilTs.get kind =
        f.updatedAtTs + ANOMALY_COOLDOWN_MS kind := by
  unfold tryStuck
  split
  · rename_i hg
    split
    · right
      exact ⟨.stuck, _, _, rfl, rfl, rfl, guard_canTrigger_bool _ _ _ _ hg,
        fireStuck_cooldown env f i bucket (k + 1) hi⟩
    · exact tryOffline_cases env f i bucket (k + 1) hi
  · exact tryOffline_cases env f i bucket k hi

theorem trySensorFail_cases (env : Env) (f : Fleet) (i : ℕ) (bucket : FleetTickResult)
    (k : ℕ) (hi : i < f.robots.length) :
    (trySensorFail env f i bucket k).2.1 = bucket ∨
    ∃ kind e inc,
      (trySensorFail env f i bucket k).2.1.events = bucket.events ++ [e] ∧
      (trySensorFail env f i bucket k).2.1.incidents = bucket.incidents ++ [inc] ∧
      e.eventType = anomalyEventType kind ∧
      canTriggerAnomaly (f.robot i) kind f.updatedAtTs = true ∧
      (((trySensorFail env f i bucket k).1).robot i).anomalyCooldownUntilTs.get kind =
        f.updatedAtTs + ANOMALY_COOLDOWN_MS kind := by
  unfold trySensorFail
  split
  · rename_i hg
    split
    · right
      exact ⟨.sensorFail, _, _, rfl, rfl, rfl, guard_canTrigger_bool _ _ _ _ hg,
        fireSensorFail_cooldown env f i bucket (k + 1) hi⟩
    · exact tryStuck_cases env f i bucket (k + 1) hi
  · exact tryStuck_cases env f i bucket k hi

/-- One anomaly-phase pass for one robot: either the bucket is left
unchanged, or exactly one anomaly kind fires, appending exactly one
event and one incident, only when the cooldown of that kind has elapsed, and
re-arming the cooldown of that kind to `now + ANOMALY_COOLDOWN_MS kind`. -/
theorem applyAnomalies_cases (env : Env) (f : Fleet) (i : ℕ) (bucket : FleetTickResult)
    (k : ℕ) (hi : i < f.robots.length) :
    (applyAnomalies env f i bucket k).2.1 = bucket ∨
    ∃ kind e inc,
      (applyAnomalies env f i bucket k).2.1.events = bucket.events ++ [e] ∧
      (applyAnomalies env f i bucket k).2.1.incidents = bucket.incidents ++ [inc] ∧
      e.eventType = anomalyEventType kind ∧
      canTriggerAnomaly (f.robot i) kind f.updatedAtTs = true ∧
      (((applyAnomalies env f i bucket k).1).robot i).anomalyCooldownUntilTs.get kind =
        f.updatedAtTs + ANOMALY_COOLDOWN_MS kind := by
  unfold applyAnomalies
  split
  · rename_i hg
    split
    · right
      exact ⟨.localization, _, _, rfl, rfl, rfl, guard_canTrigger_bool _ _ _ _ hg,
        fireLocalization_cooldown env f i bucket (k + 1) hi⟩
    · exact trySensorFail_cases env f i bucket (k + 1) hi
  · exact trySensorFail_cases env f i bucket k hi

theorem anomalyEventType_inj (a b : AnomalyKey) (h : anomalyEventType a = anomalyEventType b) :
    a = b := by
  cases a <;> cases b <;> first | rfl | exact absurd h (by decide)


/-! ## Session traces: invariants along every reachable state -/

theorem fleetStep_ok (env : Env) (s : Fleet × ℕ) (op : FleetOp) :
    StepOK env s.1 ((fleetStep env s op).1).1 := by
  cases op with
  | tick now => exact tickFleetState_ok env s.1 now s.2
  | switchMode m now => exact switchFleetMode_ok env s.1 m now s.2

theorem traceInv_aux (env : Env) (hv : EnvValid env) :
    ∀ (ops : List FleetOp) (s : Fleet × ℕ), FleetInv s.1 → NumInv env.pi s.1 →
    ∀ g ∈ fleetTraceStates env s ops, FleetInv g ∧ NumInv env.pi g := by
  intro ops
  induction ops with
  | nil =>
    intro s h1 h2 g hg
    simp only [fleetTraceStates, List.mem_singleton] at hg
    rw [hg]
    exact ⟨h1, h2⟩
  | cons op rest ih =>
    intro s h1 h2 g hg
    simp only [fleetTraceStates, List.mem_cons] at hg
    rcases hg with hh | ht
    · rw [hh]
      exact ⟨h1, h2⟩
    · have hSO := fleetStep_ok env s op
      obtain ⟨hev, hI2⟩ := hSO.1 h1
      exact ih _ hI2 (hSO.2 hv h1 h2) g ht

theorem traceStates_head (env : Env) (s : Fleet × ℕ) (ops : List FleetOp) :
    (fleetTraceStates env s ops).head? = some s.1 := by
  cases ops <;> rfl

theorem traceChain_aux (env : Env) (hv : EnvValid env) :
    ∀ (ops : List FleetOp) (s : Fleet × ℕ), FleetInv s.1 →
    List.Chain' Evolves (fleetTraceStates env s ops) := by
  intro ops
  induction ops with
  | nil =>
    intro s h1
    simp only [fleetTraceStates]
    exact List.chain'_singleton _
  | cons op rest ih =>
    intro s h1
    simp only [fleetTraceStates]
    have hSO := fleetStep_ok env s op
    obtain ⟨hev, hI2⟩ := hSO.1 h1
    refine List.chain'_cons'.mpr ⟨?_, ih _ hI2⟩
    intro b hb
    rw [traceStates_head, Option.mem_def] at hb
    rw [← Option.some.inj hb]
    exact hev

/-! ## Concrete environment validity -/

theorem axisAtan2_bounds (dy dx : ℚ) : -piQ < axisAtan2 dy dx ∧ axisAtan2 dy dx ≤ piQ := by
  unfold axisAtan2
  split
  · split <;> constructor <;> norm_num [piQ]
  · split
    · split <;> constructor <;> norm_num [piQ]
    · constructor <;> norm_num [piQ]

theorem envValid_constEnv : EnvValid constEnv := by
  refine ⟨fun k => by norm_num [constEnv], fun dy dx => axisAtan2_bounds dy dx, ?_, ?_⟩ <;>
    norm_num [constEnv, piQ]

theorem envValid_probeEnv : EnvValid probeEnv := by
  refine ⟨fun k => ?_, fun dy dx => axisAtan2_bounds dy dx, ?_, ?_⟩
  · unfold probeEnv
    dsimp only
    split <;> norm_num
  · norm_num [probeEnv, piQ]
  · norm_num [probeEnv, piQ]


/-! ## Claims C3, C5, C10 -/

/-- C3: in every fleet state reachable from `createFleetState` by any
sequence of `tickFleetState` and `switchFleetMode` activations, an
ON_MISSION or NEED_ASSIST robot holds a mission id that resolves in the
mission map to a mission owned by it, and an IDLE or FAULT robot holds
none.  (The converse direction claimed by the spec is false: an OFFLINE
robot retains its mission id, see the counterexample.) -/
theorem c3_mission_id_discipline (env : Env) (hv : EnvValid env) (c now : ℚ)
    (mode : OpsMode) (k : ℕ) (ops : List FleetOp) :
    ∀ g ∈ fleetTraceStates env (createFleetState env c now mode k) ops,
    ∀ r ∈ g.robots,
      ((r.status = RobotStatus.ON_MISSION ∨ r.status = RobotStatus.NEED_ASSIST) →
        ∃ mid m, r.missionId = some mid ∧ mapGet g.missions mid = some m ∧
          m.robotId = r.robotId) ∧
      ((r.status = RobotStatus.IDLE ∨ r.status = RobotStatus.FAULT) →
        r.missionId = none) := by
  intro g hg r hr
  obtain ⟨hc1, hc2⟩ := createFleetState_inv env hv c now mode k
  obtain ⟨hI, hN⟩ := traceInv_aux env hv ops (createFleetState env c now mode k) hc1 hc2 g hg
  have hloc := hI.1 r hr
  have hlink := hI.2.1 r hr
  refine ⟨fun hs => ?_, hloc.2⟩
  obtain ⟨mid, hmid⟩ := Option.isSome_iff_exists.mp (hloc.1 hs)
  have hl := hlink mid (by rw [Option.mem_def]; exact hmid)
  obtain ⟨m, hm, hmr⟩ := Option.map_eq_some'.mp hl
  exact ⟨mid, m, hmid, hm, hmr⟩

theorem c3_mission_id_discipline_witness : EnvValid constEnv ∧
    (∀ g ∈ fleetTraceStates constEnv (createFleetState constEnv 6 1000 OpsMode.DELIVERY 0)
        [FleetOp.tick 1200],
     ∀ r ∈ g.robots,
      ((r.status = RobotStatus.ON_MISSION ∨ r.status = RobotStatus.NEED_ASSIST) →
        ∃ mid m, r.missionId = some mid ∧ mapGet g.missions mid = some m ∧
          m.robotId = r.robotId) ∧
      ((r.status = RobotStatus.IDLE ∨ r.status = RobotStatus.FAULT) →
        r.missionId = none)) :=
  ⟨envValid_constEnv,
    c3_mission_id_discipline constEnv envValid_constEnv 6 1000 OpsMode.DELIVERY 0
      [FleetOp.tick 1200]⟩

/-- C3 counterexample: after the reachable session `probeRun`, robot 1
is OFFLINE yet still holds a mission id, so `missionId` being non-null
is not equivalent to status ∈ \x7bON_MISSION, NEED_ASSIST\x7d. -/
theorem c3_counterexample :
    1 < (probeRun.1.1).robots.length ∧
    ((probeRun.1.1).robot 1).missionId.isSome = true ∧
    ¬(((probeRun.1.1).robot 1).status = RobotStatus.ON_MISSION ∨
      ((probeRun.1.1).robot 1).status = RobotStatus.NEED_ASSIST) := by
  set_option maxRecDepth 10000 in with_unfolding_all decide

/-- C5: along every reachable session, every stored mission has
progress in [0, 100], a COMPLETED mission has progress exactly 100, and
between consecutive states every persisting mission has non-decreasing
progress. -/
theorem c5_mission_progress (env : Env) (hv : EnvValid env) (c now : ℚ)
    (mode : OpsMode) (k : ℕ) (ops : List FleetOp) :
    (∀ g ∈ fleetTraceStates env (createFleetState env c now mode k) ops,
      ∀ p ∈ g.missions, 0 ≤ p.2.progress ∧ p.2.progress ≤ 100 ∧
        (p.2.status = MissionStatus.COMPLETED → p.2.progress = 100)) ∧
    List.Chain' (fun g g2 => ∀ mid m, mapGet g.missions mid = some m →
        ∃ m2, mapGet g2.missions mid = some m2 ∧ m.progress ≤ m2.progress)
      (fleetTraceStates env (createFleetState env c now mode k) ops) := by
  obtain ⟨hc1, hc2⟩ := createFleetState_inv env hv c now mode k
  constructor
  · intro g hg p hp
    obtain ⟨hI, -⟩ := traceInv_aux env hv ops (createFleetState env c now mode k) hc1 hc2 g hg
    exact (hI.2.2.1 p hp).1
  · refine (traceChain_aux env hv ops (createFleetState env c now mode k) hc1).imp ?_
    intro a b hab mid m hm
    obtain ⟨m2, hm2, hp2, -⟩ := hab.2.2.1 mid m hm
    exact ⟨m2, hm2, hp2⟩

theorem c5_mission_progress_witness : EnvValid constEnv ∧
    ((∀ g ∈ fleetTraceStates constEnv (createFleetState constEnv 6 1000 OpsMode.DELIVERY 0)
        [FleetOp.tick 1200],
      ∀ p ∈ g.missions, 0 ≤ p.2.progress ∧ p.2.progress ≤ 100 ∧
        (p.2.status = MissionStatus.COMPLETED → p.2.progress = 100)) ∧
    List.Chain' (fun g g2 => ∀ mid m, mapGet g.missions mid = some m →
        ∃ m2, mapGet g2.missions mid = some m2 ∧ m.progress ≤ m2.progress)
      (fleetTraceStates constEnv (createFleetState constEnv 6 1000 OpsMode.DELIVERY 0)
        [FleetOp.tick 1200])) :=
  ⟨envValid_constEnv,
    c5_mission_progress constEnv envValid_constEnv 6 1000 OpsMode.DELIVERY 0
      [FleetOp.tick 1200]⟩

/-- C10: in every reachable fleet state the continuous attributes stay
in range: battery in [0, 100], speed non-negative, localization
confidence in [0, 1], and the pose heading in the interval (-π, 2π) --
not the claimed [0, 2π): headings assigned from `Math.atan2` can be
negative, see the counterexample. -/
theorem c10_continuous_ranges (env : Env) (hv : EnvValid env) (c now : ℚ)
    (mode : OpsMode) (k : ℕ) (ops : List FleetOp) :
    ∀ g ∈ fleetTraceStates env (createFleetState env c now mode k) ops,
    ∀ r ∈ g.robots,
      0 ≤ r.battery ∧ r.battery ≤ 100 ∧ 0 ≤ r.speed ∧
      0 ≤ r.localizationConfidence ∧ r.localizationConfidence ≤ 1 ∧
      -env.pi < r.pose.heading ∧ r.pose.heading < 2 * env.pi := by
  intro g hg r hr
  obtain ⟨hc1, hc2⟩ := createFleetState_inv env hv c now mode k
  obtain ⟨-, hN⟩ := traceInv_aux env hv ops (createFleetState env c now mode k) hc1 hc2 g hg
  exact hN r hr

theorem c10_continuous_ranges_witness : EnvValid constEnv ∧
    (∀ g ∈ fleetTraceStates constEnv (createFleetState constEnv 6 1000 OpsMode.DELIVERY 0)
        [FleetOp.tick 1200],
     ∀ r ∈ g.robots,
      0 ≤ r.battery ∧ r.battery ≤ 100 ∧ 0 ≤ r.speed ∧
      0 ≤ r.localizationConfidence ∧ r.localizationConfidence ≤ 1 ∧
      -constEnv.pi < r.pose.heading ∧ r.pose.heading < 2 * constEnv.pi) :=
  ⟨envValid_constEnv,
    c10_continuous_ranges constEnv envValid_constEnv 6 1000 OpsMode.DELIVERY 0
      [FleetOp.tick 1200]⟩

/-- C10 counterexample: after the reachable session `probeRun`, robot 1
has a negative pose heading, so headings are not wrapped to [0, 2π). -/
theorem c10_counterexample :
    1 < (probeRun.1.1).robots.length ∧
    ¬(0 ≤ ((probeRun.1.1).robot 1).pose.heading) := by
  set_option maxRecDepth 10000 in with_unfolding_all decide


/-! ## Claim C8: the six-robot DELIVERY scenario -/

/-- C8: seeding exactly 6 robots in DELIVERY mode at `now = 1000` under
the deterministic random source and ticking once at `now = 1200` gives
tick counter 1, heartbeat 1200 on every non-OFFLINE robot, and a
telemetry batch of exactly 6 records; telemetry is emitted
unconditionally once per robot per tick. -/
theorem c8_six_robot_scenario :
    scenarioTick.1.tick = 1 ∧
    scenarioTick.1.robots.length = 6 ∧
    (∀ r ∈ scenarioTick.1.robots,
      r.status ≠ RobotStatus.OFFLINE → r.lastHeartbeatTs = 1200) ∧
    (createTelemetrySnapshot scenarioTick.1).length = 6 ∧
    (∀ f : Fleet, (createTelemetrySnapshot f).length = f.robots.length) := by
  refine ⟨?_, ?_, ?_, ?_, fun f => ?_⟩
  · set_option maxRecDepth 10000 in with_unfolding_all decide
  · set_option maxRecDepth 10000 in with_unfolding_all decide
  · set_option maxRecDepth 10000 in with_unfolding_all decide
  · set_option maxRecDepth 10000 in with_unfolding_all decide
  · simp [createTelemetrySnapshot]

/-! ## Claim C9: mode switching -/

theorem createMission_mode (env : Env) (f : Fleet) (i : ℕ) (now : ℚ)
    (st : MissionStatus) (k : ℕ) :
    ((createMissionForRobot env f i now st k).1).mode = f.mode ∧
    ((createMissionForRobot env f i now st k).1).modeChangedAtTs = f.modeChangedAtTs := by
  unfold createMissionForRobot
  dsimp only
  split
  · split
    · exact ⟨rfl, rfl⟩
    · exact ⟨rfl, rfl⟩
  · exact ⟨rfl, rfl⟩

theorem switchStep_mode (env : Env) (now : ℚ) (f : Fleet) (kk i : ℕ) :
    ((switchModeRobotStep env now (f, kk) i).1).mode = f.mode ∧
    ((switchModeRobotStep env now (f, kk) i).1).modeChangedAtTs = f.modeChangedAtTs := by
  unfold switchModeRobotStep
  dsimp only
  by_cases hmode : f.mode = OpsMode.DELIVERY
  · rw [if_pos hmode]
    split
    · exact createMission_mode env _ i now MissionStatus.ACTIVE kk
    · split
      · exact createMission_mode env _ i now MissionStatus.PAUSED kk
      · exact ⟨rfl, rfl⟩
  · rw [if_neg hmode]
    split
    · exact createMission_mode env f i now MissionStatus.ACTIVE kk
    · split
      · exact createMission_mode env f i now MissionStatus.PAUSED kk
      · exact ⟨rfl, rfl⟩

theorem switchFold_mode (env : Env) (now : ℚ) (l : List ℕ) :
    ∀ st : Fleet × ℕ,
    ((l.foldl (switchModeRobotStep env now) st).1).mode = st.1.mode ∧
    ((l.foldl (switchModeRobotStep env now) st).1).modeChangedAtTs =
      st.1.modeChangedAtTs := by
  induction l with
  | nil => intro st; exact ⟨rfl, rfl⟩
  | cons j t ih =>
    rintro ⟨sf, sk⟩
    rw [List.foldl_cons]
    obtain ⟨h1, h2⟩ := ih (switchModeRobotStep env now (sf, sk) j)
    obtain ⟨g1, g2⟩ := switchStep_mode env now sf sk j
    exact ⟨h1.trans g1, h2.trans g2⟩

/-- `createMissionForRobot` plans a fresh mission under the current
fleet mode for the robot, and cancels its previously ACTIVE or PAUSED
mission. -/
theorem createMission_effects (env : Env) (f : Fleet) (i : ℕ) (now : ℚ)
    (st : MissionStatus) (k : ℕ) (hi : i < f.robots.length) (hL : InvL f) :
    (∃ m, mapGet ((createMissionForRobot env f i now st k).1).missions f.nextMissionSeq
        = some m ∧ m.mode = f.mode ∧ m.status = st ∧ m.robotId = (f.robot i).robotId) ∧
    (((createMissionForRobot env f i now st k).1).robot i).missionId =
      some f.nextMissionSeq ∧
    (∀ em, getMissionForRobot f (f.robot i) = some em →
      (em.status = MissionStatus.ACTIVE ∨ em.status = MissionStatus.PAUSED) →
      mapGet ((createMissionForRobot env f i now st k).1).missions em.missionId =
        some (cancelledCopy em now)) := by
  refine ⟨?_, createMission_robot_missionId env f i now st k hi, ?_⟩
  · unfold createMissionForRobot
    dsimp only
    split
    · split
      · exact ⟨_, mapGet_mapSet_self _ _ _, rfl, rfl, rfl⟩
      · exact ⟨_, mapGet_mapSet_self _ _ _, rfl, rfl, rfl⟩
    · exact ⟨_, mapGet_mapSet_self _ _ _, rfl, rfl, rfl⟩
  · intro em hem hst2
    have hem0 := hem
    unfold getMissionForRobot at hem0
    cases hmid : (f.robot i).missionId with
    | none =>
      rw [hmid] at hem0
      exact Option.noConfusion hem0
    | some mid =>
      rw [hmid] at hem0
      obtain ⟨hmem, -⟩ := mapGet_mem f.missions mid em hem0
      obtain ⟨-, hlt, hkey⟩ := hL.2.1 (mid, em) hmem
      dsimp only at hlt hkey
      have hne : em.missionId ≠ f.nextMissionSeq := by
        rw [hkey]
        omega
      unfold createMissionForRobot
      dsimp only
      rw [hem]
      dsimp only
      rw [if_pos hst2]
      dsimp only [Fleet.setRobot]
      rw [mapGet_mapSet_ne _ _ _ _ hne]
      rw [mapGet_mapSet_self]
      rfl

/-- The per-robot body of `switchFleetMode`: an ON_MISSION or
NEED_ASSIST robot gets a fresh mission under the (already switched)
fleet mode -- ACTIVE for ON_MISSION, PAUSED for NEED_ASSIST -- and its
previously ACTIVE or PAUSED mission is cancelled. -/
theorem switchModeRobotStep_effects (env : Env) (now : ℚ) (f : Fleet) (k i : ℕ)
    (hi : i < f.robots.length) (hL : InvL f)
    (hstat : (f.robot i).status = RobotStatus.ON_MISSION ∨
      (f.robot i).status = RobotStatus.NEED_ASSIST) :
    ∃ mid m,
      (((switchModeRobotStep env now (f, k) i).1).robot i).missionId = some mid ∧
      mapGet ((switchModeRobotStep env now (f, k) i).1).missions mid = some m ∧
      m.mode = f.mode ∧
      ((f.robot i).status = RobotStatus.ON_MISSION → m.status = MissionStatus.ACTIVE) ∧
      ((f.robot i).status = RobotStatus.NEED_ASSIST → m.status = MissionStatus.PAUSED) ∧
      m.robotId = (f.robot i).robotId ∧
      (∀ em, getMissionForRobot f (f.robot i) = some em →
        (em.status = MissionStatus.ACTIVE ∨ em.status = MissionStatus.PAUSED) →
        mapGet ((switchModeRobotStep env now (f, k) i).1).missions em.missionId =
          some (cancelledCopy em now)) := by
  have key : ∀ (G : Fleet) (st : MissionStatus), i < G.robots.length → InvL G →
      getMissionForRobot G (G.robot i) = getMissionForRobot f (f.robot i) →
      (G.robot i).robotId = (f.robot i).robotId → G.mode = f.mode →
      ∃ mid m,
        (((createMissionForRobot env G i now st k).1).robot i).missionId = some mid ∧
        mapGet ((createMissionForRobot env G i now st k).1).missions mid = some m ∧
        m.mode = f.mode ∧ m.status = st ∧ m.robotId = (f.robot i).robotId ∧
        (∀ em, getMissionForRobot f (f.robot i) = some em →
          (em.status = MissionStatus.ACTIVE ∨ em.status = MissionStatus.PAUSED) →
          mapGet ((createMissionForRobot env G i now st k).1).missions em.missionId =
            some (cancelledCopy em now)) := by
    intro G st hGi hGL hGg hGid hGm
    obtain ⟨⟨m, hm, hmo, hms, hmr⟩, hrm, hcanc⟩ := createMission_effects env G i now st k hGi hGL
    exact ⟨G.nextMissionSeq, m, hrm, hm, hmo.trans hGm, hms, hmr.trans hGid,
      fun em hem hst2 => hcanc em (hGg.trans hem) hst2⟩
  unfold switchModeRobotStep
  dsimp only
  by_cases hmode : f.mode = OpsMode.DELIVERY
  · rw [if_pos hmode]
    have hGr : (f.setRobot i
        { f.robot i with
            pose := { (f.robot i).pose with
                        x := (snapToDeliveryRouteGraph env
                            ⟨(f.robot i).pose.x, (f.robot i).pose.y⟩).x
                        y := (snapToDeliveryRouteGraph env
                            ⟨(f.robot i).pose.x, (f.robot i).pose.y⟩).y } }).robot i =
      { f.robot i with
          pose := { (f.robot i).pose with
                      x := (snapToDeliveryRouteGraph env
                          ⟨(f.robot i).pose.x, (f.robot i).pose.y⟩).x
                      y := (snapToDeliveryRouteGraph env
                          ⟨(f.robot i).pose.x, (f.robot i).pose.y⟩).y } } :=
      robot_setRobot_self f i _ hi
    have hGsub := subStep_setRobot env f i
      { f.robot i with
          pose := { (f.robot i).pose with
                      x := (snapToDeliveryRouteGraph env
                          ⟨(f.robot i).pose.x, (f.robot i).pose.y⟩).x
                      y := (snapToDeliveryRouteGraph env
                          ⟨(f.robot i).pose.x, (f.robot i).pose.y⟩).y } }
      rfl (fun kind => le_of_eq rfl) (fun hL2 => robotLink_self f i hL2 _ rfl rfl)
      (fun hv2 _ hN => robotNum_robot env.pi (by linarith [hv2.2.2.1]) f i hN)
    have hGL : InvL (f.setRobot i
        { f.robot i with
            pose := { (f.robot i).pose with
                        x := (snapToDeliveryRouteGraph env
                            ⟨(f.robot i).pose.x, (f.robot i).pose.y⟩).x
                        y := (snapToDeliveryRouteGraph env
                            ⟨(f.robot i).pose.x, (f.robot i).pose.y⟩).y } }) :=
      (hGsub.1 hL).2
    have hGi : i < (f.setRobot i
        { f.robot i with
            pose := { (f.robot i).pose with
                        x := (snapToDeliveryRouteGraph env
                            ⟨(f.robot i).pose.x, (f.robot i).pose.y⟩).x
                        y := (snapToDeliveryRouteGraph env
                            ⟨(f.robot i).pose.x, (f.robot i).pose.y⟩).y } }).robots.length := by
      rw [setRobot_robots_length]
      exact hi
    have hGg : getMissionForRobot (f.setRobot i
        { f.robot i with
            pose := { (f.robot i).pose with
                        x := (snapToDeliveryRouteGraph env
                            ⟨(f.robot i).pose.x, (f.robot i).pose.y⟩).x
                        y := (snapToDeliveryRouteGraph env
                            ⟨(f.robot i).pose.x, (f.robot i).pose.y⟩).y } })
        ((f.setRobot i
        { f.robot i with
            pose := { (f.robot i).pose with
                        x := (snapToDeliveryRouteGraph env
                            ⟨(f.robot i).pose.x, (f.robot i).pose.y⟩).x
                        y := (snapToDeliveryRouteGraph env
                            ⟨(f.robot i).pose.x, (f.robot i).pose.y⟩).y } }).robot i) =
        getMissionForRobot f (f.robot i) := by
      rw [hGr]
      rfl
    have hGs : ((f.setRobot i
        { f.robot i with
            pose := { (f.robot i).pose with
                        x := (snapToDeliveryRouteGraph env
                            ⟨(f.robot i).pose.x, (f.robot i).pose.y⟩).x
                        y := (snapToDeliveryRouteGraph env
                            ⟨(f.robot i).pose.x, (f.robot i).pose.y⟩).y } }).robot i).status =
        (f.robot i).status := by
      rw [hGr]
    split
    · rename_i hOM
      obtain ⟨mid, m, h1, h2, h3, h4, h5, h6⟩ :=
        key _ MissionStatus.ACTIVE hGi hGL hGg (by rw [hGr]) rfl
      have hfOM : (f.robot i).status = RobotStatus.ON_MISSION := hGs.symm.trans hOM
      exact ⟨mid, m, h1, h2, h3, fun _ => h4, fun hNA =>
        absurd (hfOM.symm.trans hNA) (fun h => RobotStatus.noConfusion h), h5, h6⟩
    · split
      · rename_i hnOM hNA
        obtain ⟨mid, m, h1, h2, h3, h4, h5, h6⟩ :=
          key _ MissionStatus.PAUSED hGi hGL hGg (by rw [hGr]) rfl
        have hfNA : (f.robot i).status = RobotStatus.NEED_ASSIST := hGs.symm.trans hNA
        exact ⟨mid, m, h1, h2, h3, fun hOM2 =>
          absurd (hfNA.symm.trans hOM2) (fun h => RobotStatus.noConfusion h), fun _ => h4,
          h5, h6⟩
      · rename_i hnOM hnNA
        rcases hstat with h | h
        · exact absurd (hGs.trans h) hnOM
        · exact absurd (hGs.trans h) hnNA
  · rw [if_neg hmode]
    split
    · rename_i hOM
      obtain ⟨mid, m, h1, h2, h3, h4, h5, h6⟩ :=
        key f MissionStatus.ACTIVE hi hL rfl rfl rfl
      exact ⟨mid, m, h1, h2, h3, fun _ => h4, fun hNA =>
        absurd (hOM.symm.trans hNA) (fun h => RobotStatus.noConfusion h), h5, h6⟩
    · split
      · rename_i hnOM hNA
        obtain ⟨mid, m, h1, h2, h3, h4, h5, h6⟩ :=
          key f MissionStatus.PAUSED hi hL rfl rfl rfl
        exact ⟨mid, m, h1, h2, h3, fun hOM2 =>
          absurd (hNA.symm.trans hOM2) (fun h => RobotStatus.noConfusion h), fun _ => h4,
          h5, h6⟩
      · rename_i hnOM hnNA
        rcases hstat with h | h
        · exact absurd h hnOM
        · exact absurd h hnNA


/-! ## Claims C6, C7, C9 -/

/-- C6: an anomaly of a given kind fires on a robot at `now` only when
`now` has reached that kind\u2019s cooldown timestamp, and firing re-arms
the cooldown to `now + ANOMALY_COOLDOWN_MS kind`; consequently two
firings of the same kind on the same robot, linked by any
cooldown-monotone engine evolution, are at least the cooldown apart. -/
theorem c6_anomaly_cooldown (env : Env) (f1 f2 : Fleet) (i : ℕ)
    (b1 b2 : FleetTickResult) (k1 k2 : ℕ) (kind : AnomalyKey)
    (hi1 : i < f1.robots.length) (hi2 : i < f2.robots.length)
    (hfire1 : ∃ e, (applyAnomalies env f1 i b1 k1).2.1.events = b1.events ++ [e] ∧
      e.eventType = anomalyEventType kind)
    (hfire2 : ∃ e, (applyAnomalies env f2 i b2 k2).2.1.events = b2.events ++ [e] ∧
      e.eventType = anomalyEventType kind)
    (hev : Evolves (applyAnomalies env f1 i b1 k1).1 f2) :
    f1.updatedAtTs + ANOMALY_COOLDOWN_MS kind ≤ f2.updatedAtTs := by
  obtain ⟨e1, he1, ht1⟩ := hfire1
  rcases applyAnomalies_cases env f1 i b1 k1 hi1 with hno |
    ⟨kind1, e1x, inc1, hev1, hinc1, htype1, hct1, hcd1⟩
  · rw [hno] at he1
    exact absurd (congrArg List.length he1) (by simp)
  · have hee : b1.events ++ [e1] = b1.events ++ [e1x] := by rw [← he1, ← hev1]
    have heq1 : e1 = e1x := by simpa using List.append_cancel_left hee
    have hk1 : kind1 = kind := anomalyEventType_inj _ _ (by rw [← htype1, ← heq1]; exact ht1)
    rw [hk1] at hcd1
    obtain ⟨e2, he2, ht2⟩ := hfire2
    rcases applyAnomalies_cases env f2 i b2 k2 hi2 with hno2 |
      ⟨kind2, e2x, inc2, hev2, hinc2, htype2, hct2, hcd2⟩
    · rw [hno2] at he2
      exact absurd (congrArg List.length he2) (by simp)
    · have hee2 : b2.events ++ [e2] = b2.events ++ [e2x] := by rw [← he2, ← hev2]
      have heq2 : e2 = e2x := by simpa using List.append_cancel_left hee2
      have hk2 : kind2 = kind := anomalyEventType_inj _ _
        (by rw [← htype2, ← heq2]; exact ht2)
      rw [hk2] at hct2
      have hmono := hev.2.2.2 i kind
      rw [hcd1] at hmono
      have hle2 : (f2.robot i).anomalyCooldownUntilTs.get kind ≤ f2.updatedAtTs :=
        of_decide_eq_true hct2
      exact le_trans hmono hle2

theorem c6_anomaly_cooldown_witness :
    (∃ e, (applyAnomalies zeroEnv c6Fleet 0 ⟨[], []⟩ 0).2.1.events =
        (⟨[], []⟩ : FleetTickResult).events ++ [e] ∧
      e.eventType = anomalyEventType AnomalyKey.sensorFail) ∧
    (∃ e, (applyAnomalies zeroEnv c6Fleet2 0 ⟨[], []⟩ 0).2.1.events =
        (⟨[], []⟩ : FleetTickResult).events ++ [e] ∧
      e.eventType = anomalyEventType AnomalyKey.sensorFail) ∧
    c6Fleet.updatedAtTs + ANOMALY_COOLDOWN_MS AnomalyKey.sensorFail ≤
      c6Fleet2.updatedAtTs := by
  have h1 : ∃ e, (applyAnomalies zeroEnv c6Fleet 0 ⟨[], []⟩ 0).2.1.events =
      (⟨[], []⟩ : FleetTickResult).events ++ [e] ∧
      e.eventType = anomalyEventType AnomalyKey.sensorFail := by
    unfold applyAnomalies
    rw [if_neg (show ¬(anomalyStatusGuard c6Fleet.mode (c6Fleet.robot 0)
      c6Fleet.updatedAtTs AnomalyKey.localization = true) from by with_unfolding_all decide)]
    unfold trySensorFail
    rw [if_pos (show anomalyStatusGuard c6Fleet.mode (c6Fleet.robot 0)
      c6Fleet.updatedAtTs AnomalyKey.sensorFail = true from by with_unfolding_all decide)]
    rw [if_pos (show zeroEnv.random 0 < ANOMALY_PROBABILITY AnomalyKey.sensorFail from by
      with_unfolding_all decide)]
    exact ⟨_, rfl, rfl⟩
  have h2 : ∃ e, (applyAnomalies zeroEnv c6Fleet2 0 ⟨[], []⟩ 0).2.1.events =
      (⟨[], []⟩ : FleetTickResult).events ++ [e] ∧
      e.eventType = anomalyEventType AnomalyKey.sensorFail := by
    unfold applyAnomalies
    rw [if_neg (show ¬(anomalyStatusGuard c6Fleet2.mode (c6Fleet2.robot 0)
      c6Fleet2.updatedAtTs AnomalyKey.localization = true) from by with_unfolding_all decide)]
    unfold trySensorFail
    rw [if_pos (show anomalyStatusGuard c6Fleet2.mode (c6Fleet2.robot 0)
      c6Fleet2.updatedAtTs AnomalyKey.sensorFail = true from by with_unfolding_all decide)]
    rw [if_pos (show zeroEnv.random 0 < ANOMALY_PROBABILITY AnomalyKey.sensorFail from by
      with_unfolding_all decide)]
    exact ⟨_, rfl, rfl⟩
  have hm0 : (applyAnomalies zeroEnv c6Fleet 0 ⟨[], []⟩ 0).1.missions = [] := by
    with_unfolding_all decide
  have hlenX : (applyAnomalies zeroEnv c6Fleet 0 ⟨[], []⟩ 0).1.robots.length = 1 := by
    with_unfolding_all decide
  have hlen2 : c6Fleet2.robots.length = 1 := by with_unfolding_all decide
  refine ⟨h1, h2, c6_anomaly_cooldown zeroEnv c6Fleet c6Fleet2 0 ⟨[], []⟩ ⟨[], []⟩ 0 0
    AnomalyKey.sensorFail (by with_unfolding_all decide) (by with_unfolding_all decide)
    h1 h2 ⟨?_, ?_, ?_, ?_⟩⟩
  · show c6Fleet2.robots.map Robot.robotId =
      (applyAnomalies zeroEnv c6Fleet 0 ⟨[], []⟩ 0).1.robots.map Robot.robotId
    with_unfolding_all decide
  · with_unfolding_all decide
  · intro mid m hm
    rw [hm0] at hm
    simp [mapGet] at hm
  · intro j kind
    cases j with
    | zero => cases kind <;> with_unfolding_all decide
    | succ n =>
      have hd1 : (applyAnomalies zeroEnv c6Fleet 0 ⟨[], []⟩ 0).1.robot (n + 1) =
          dummyRobot := by
        unfold Fleet.robot
        apply List.getD_eq_default
        rw [hlenX]
        omega
      have hd2 : c6Fleet2.robot (n + 1) = dummyRobot := by
        unfold Fleet.robot
        apply List.getD_eq_default
        rw [hlen2]
        omega
      rw [hd1, hd2]

/-- C7: during one tick, the anomaly phase of a single robot fires at
most one anomaly: it either leaves the event/incident bucket unchanged,
or appends exactly one event together with exactly one incident, for a
single kind whose cooldown had elapsed. -/
theorem c7_at_most_one_anomaly (env : Env) (f : Fleet) (i : ℕ) (bucket : FleetTickResult)
    (k : ℕ) (hi : i < f.robots.length) :
    (applyAnomalies env f i bucket k).2.1 = bucket ∨
    ∃ kind e inc,
      (applyAnomalies env f i bucket k).2.1.events = bucket.events ++ [e] ∧
      (applyAnomalies env f i bucket k).2.1.incidents = bucket.incidents ++ [inc] ∧
      e.eventType = anomalyEventType kind ∧
      canTriggerAnomaly (f.robot i) kind f.updatedAtTs = true ∧
      (((applyAnomalies env f i bucket k).1).robot i).anomalyCooldownUntilTs.get kind =
        f.updatedAtTs + ANOMALY_COOLDOWN_MS kind :=
  applyAnomalies_cases env f i bucket k hi

theorem c7_at_most_one_anomaly_witness :
    0 < c6Fleet.robots.length ∧
    ((applyAnomalies zeroEnv c6Fleet 0 ⟨[], []⟩ 0).2.1 = (⟨[], []⟩ : FleetTickResult) ∨
    ∃ kind e inc,
      (applyAnomalies zeroEnv c6Fleet 0 ⟨[], []⟩ 0).2.1.events =
        (⟨[], []⟩ : FleetTickResult).events ++ [e] ∧
      (applyAnomalies zeroEnv c6Fleet 0 ⟨[], []⟩ 0).2.1.incidents =
        (⟨[], []⟩ : FleetTickResult).incidents ++ [inc] ∧
      e.eventType = anomalyEventType kind ∧
      canTriggerAnomaly (c6Fleet.robot 0) kind c6Fleet.updatedAtTs = true ∧
      (((applyAnomalies zeroEnv c6Fleet 0 ⟨[], []⟩ 0).1).robot 0).anomalyCooldownUntilTs.get
          kind = c6Fleet.updatedAtTs + ANOMALY_COOLDOWN_MS kind) :=
  ⟨by with_unfolding_all decide,
    c7_at_most_one_anomaly zeroEnv c6Fleet 0 ⟨[], []⟩ 0 (by with_unfolding_all decide)⟩

/-- C9: switching to the already-current mode returns `false` and
leaves the fleet state bit-for-bit unchanged, and the broker publishes
nothing for an unswitched setMode; switching to a different mode
returns `true`, updates the fleet mode and mode-change timestamp, and
each ON_MISSION or NEED_ASSIST robot gets a fresh ACTIVE

(resp. PAUSED) mission under the new mode while its previously ACTIVE
or PAUSED mission is cancelled. -/
theorem c9_switch_mode (env : Env) (f : Fleet) (mode : OpsMode) (now : ℚ) (k : ℕ)
    (mh : ℕ) (s : BrokerState) (bt : ℚ) :
    (f.mode = mode →
      switchFleetMode env f mode now k = (false, f, k) ∧
      brokerStep mh s bt (BrokerOp.setMode false) = (s, [])) ∧
    (f.mode ≠ mode →
      (switchFleetMode env f mode now k).1 = true ∧
      ((switchFleetMode env f mode now k).2.1).mode = mode ∧
      ((switchFleetMode env f mode now k).2.1).modeChangedAtTs = now) ∧
    (∀ (g : Fleet) (kk i : ℕ), i < g.robots.length → InvL g →
      ((g.robot i).status = RobotStatus.ON_MISSION ∨
        (g.robot i).status = RobotStatus.NEED_ASSIST) →
      ∃ mid m,
        (((switchModeRobotStep env now (g, kk) i).1).robot i).missionId = some mid ∧
        mapGet ((switchModeRobotStep env now (g, kk) i).1).missions mid = some m ∧
        m.mode = g.mode ∧
        ((g.robot i).status = RobotStatus.ON_MISSION → m.status = MissionStatus.ACTIVE) ∧
        ((g.robot i).status = RobotStatus.NEED_ASSIST → m.status = MissionStatus.PAUSED) ∧
        m.robotId = (g.robot i).robotId ∧
        (∀ em, getMissionForRobot g (g.robot i) = some em →
          (em.status = MissionStatus.ACTIVE ∨ em.status = MissionStatus.PAUSED) →
          mapGet ((switchModeRobotStep env now (g, kk) i).1).missions em.missionId =
            some (cancelledCopy em now))) := by
  refine ⟨fun hsame => ⟨?_, rfl⟩, fun hne => ?_, fun g kk i hi hL hstat =>
    switchModeRobotStep_effects env now g kk i hi hL hstat⟩
  · unfold switchFleetMode
    rw [if_pos hsame]
  · unfold switchFleetMode
    rw [if_neg hne]
    dsimp only
    exact ⟨rfl, (switchFold_mode env now _ _).1, (switchFold_mode env now _ _).2⟩

theorem c9_switch_mode_witness :
    scenarioFleet.1.mode = OpsMode.DELIVERY ∧
    (switchFleetMode constEnv scenarioFleet.1 OpsMode.DELIVERY 1300 7 =
      (false, scenarioFleet.1, 7) ∧
     brokerStep 200 initialBrokerState 1300 (BrokerOp.setMode false) =
      (initialBrokerState, [])) :=
  ⟨by set_option maxRecDepth 10000 in with_unfolding_all decide,
    (c9_switch_mode constEnv scenarioFleet.1 OpsMode.DELIVERY 1300 7 200
      initialBrokerState 1300).1
      (by set_option maxRecDepth 10000 in with_unfolding_all decide)⟩

end RoboOps
